import Mathlib

/-!
# GIMX: event preprocessing, configuration loading, event dispatch and output

A shallow embedding of parts of the GIMX sources:

* `shared/event/src/windows/events.c`: the translation of joystick hat events
  into joystick button events (`preprocess_events` and its helpers, with the
  slots of the buffer that it touches, and `ev_peep_events`), the pump of
  mouse and keyboard events (`ev_pump_events`) and the conversions between
  SDL events and GE events (`convert_g2s`, `convert_s2g`);
* `core/config_reader.c`: the walk over the XML configuration document
  (`read_config_file` and the `Process...Element` functions);
* `core/gimx.c`: the dispatch of one event (`process_event`);
* `core/connectors/gpp_con.c`: the output array of the GPP connector
  (`scale_axis`, `gpp_send`) and its connection (`gpp_connect`);
* `shared/async/src/linux/hidasync.c`: the search of a raw hid device by its
  ids (`hidasync_open_ids`).

Declarations of headers that are not part of the sources at hand (`GE.h`,
`events.h`, `xml_defs.h`, `config.h`, `pcprog.h`, `controller2.h`,
`manymouse.h`, `async.h`) are taken as parameters.

Conventions of the embedding:

* values of type `int`, `short` and `int8_t` are integers, reduced by
  `wrap_int`, `to_int16` and `to_int8` where the C code stores or computes
  them;
* calls into modules outside the sources at hand are kept as traces, their
  results being parameters;

* a C function that can follow a null pointer returns an `Option`, `none`
  standing for that event;
* the effect of the reader on the other modules (`cfg_add_binding`,
  `cfg_set_trigger`, `cal_set_mouse`, ...) is the list of the calls it makes,
  kept in `LoadState.calls`;
* values of type `double` are kept as the expressions that produce them;
* a loop over siblings runs over the list that starts at `cur_node`.
-/

namespace GIMX

/-! ## events.c -/

/-- Event type tags of `GE_Event` that `events.c` handles. -/
inductive GE_EventType
  | GE_KEYDOWN
  | GE_KEYUP
  | GE_MOUSEMOTION
  | GE_MOUSEBUTTONDOWN
  | GE_MOUSEBUTTONUP
  | GE_JOYAXISMOTION
  | GE_JOYHATMOTION
  | GE_JOYBUTTONDOWN
  | GE_JOYBUTTONUP
  | GE_JOYRUMBLE
  deriving DecidableEq, Repr

/-- The `GE_Event` union, one constructor per view that `events.c` fills in
(`key`, `motion`, `button`, `jaxis`, `jhat`, `jbutton`), and `jrumble` for the
tag `GE_JOYRUMBLE` that `gimx.c` dispatches on.  For `key`, `button`
and `jbutton` the flag `down` tells the `...DOWN` tag from the `...UP` tag.
The member widths are declared in `GE.h`; members are kept as integers, and of
the rumble view only the joystick index is kept (no embedded code reads it). -/
inductive GE_Event
  | key (down : Bool) (which : Int) (keysym : Int)
  | motion (which : Int) (xrel : Int) (yrel : Int)
  | button (down : Bool) (which : Int) (button : Int)
  | jaxis (which : Int) (axis : Int) (value : Int)
  | jhat (which : Int) (hat : Nat) (value : Nat)
  | jbutton (down : Bool) (which : Int) (button : Int)
  | jrumble (which : Int)
  deriving DecidableEq, Repr

/-- The `type` member of an event. -/
def GE_Event.type : GE_Event → GE_EventType
  | .key true _ _ => .GE_KEYDOWN
  | .key false _ _ => .GE_KEYUP
  | .motion _ _ _ => .GE_MOUSEMOTION
  | .button true _ _ => .GE_MOUSEBUTTONDOWN
  | .button false _ _ => .GE_MOUSEBUTTONUP
  | .jaxis _ _ _ => .GE_JOYAXISMOTION
  | .jhat _ _ _ => .GE_JOYHATMOTION
  | .jbutton true _ _ => .GE_JOYBUTTONDOWN
  | .jbutton false _ _ => .GE_JOYBUTTONUP
  | .jrumble _ => .GE_JOYRUMBLE

/-- The static tables `joystickNbButton` and `joystickNbHat` (filled in by
`ev_init`, read-only afterwards), indexed by the joystick index. -/
structure JoyTables where
  joystickNbButton : Nat → Int
  joystickNbHat : Nat → Int

/-- The table `joystickHat[which][hat]` of stored hat states (`unsigned char`). -/
abbrev HatTable := Nat → Nat → Nat

/-- Base-2 logarithm of a hat direction, `log2(hat_dir)`; it is exact on the
four directions 1, 2, 4, 8, which are spelled out so that they evaluate. -/
def log2 : Nat → Nat
  | 1 => 0
  | 2 => 1
  | 4 => 2
  | 8 => 3
  | hat_dir => Nat.log2 hat_dir

/-- `joystick_hat_button(event, hat_dir)` for a hat event with members
`which` and `hat`. -/
def joystick_hat_button (jt : JoyTables) (which : Int) (hat : Nat) (hat_dir : Nat) : Int :=
  jt.joystickNbButton which.toNat + 4 * (hat : Int) + (log2 hat_dir : Int)

/-- `get_joystick_hat(event)`: the stored state of the hat, 0 when the hat
index is out of range. -/
def get_joystick_hat (jt : JoyTables) (joystickHat : HatTable) (which : Int) (hat : Nat) : Nat :=
  if which ≥ 0 ∧ (hat : Int) < jt.joystickNbHat which.toNat then
    joystickHat which.toNat hat
  else 0

/-- `set_joystick_hat(event)`: store the value of the hat event (as an
`unsigned char`) when the hat index is in range. -/
def set_joystick_hat (jt : JoyTables) (joystickHat : HatTable) (which : Int) (hat : Nat)
    (value : Nat) : HatTable :=
  if which ≥ 0 ∧ (hat : Int) < jt.joystickNbHat which.toNat then
    fun w h => if w = which.toNat ∧ h = hat then value % 256 else joystickHat w h
  else joystickHat

/-- The state of `preprocess_events` inside its loops: `events` is the live
part `events[0 .. numevents)` of the buffer (so `numevents` is its length),
`pos` is the offset `event - events` of the cursor, `joystickHat` the stored
hat states. -/
structure PPState where
  events : List GE_Event
  pos : Nat
  joystickHat : HatTable

/-- Outcome of the loop over the hat directions: either the loop ran to its
end (`cont`), or the function returned `EVENT_BUFFER_SIZE` from inside (`full`). -/
inductive HatLoop
  | cont (s : PPState)
  | full (s : PPState)

/-- The insertion made for one pressed or released direction:
`memmove(event+1, event, ...)` duplicates the slot under the cursor, the copy
under the cursor becomes the button event (its `jbutton` members are read from
the hat event, now at `event+1`), then `event++; numevents++`. -/
def insert_button (jt : JoyTables) (s : PPState) (down : Bool) (which : Int) (hat : Nat)
    (hat_dir : Nat) : PPState :=
  { s with
    events := s.events.take s.pos ++
      GE_Event.jbutton down which (joystick_hat_button jt which hat hat_dir) :: s.events.drop s.pos
    pos := s.pos + 1 }

/-- One run of the body of `for(hat_dir=1; hat_dir < 16 && ...; hat_dir*=2)` in
`preprocess_events`, the cursor being on the hat event `which, hat, value`. -/
def hat_dir_body (EVENT_BUFFER_SIZE : Nat) (jt : JoyTables) (which : Int) (hat value : Nat)
    (hat_dir : Nat) (s : PPState) : HatLoop :=
  if value &&& hat_dir ≠ 0 then
    if ¬ (get_joystick_hat jt s.joystickHat which hat &&& hat_dir ≠ 0) then
      let s1 := insert_button jt s true which hat hat_dir
      if s1.events.length = EVENT_BUFFER_SIZE then .full s1 else .cont s1
    else .cont s
  else
    if get_joystick_hat jt s.joystickHat which hat &&& hat_dir ≠ 0 then
      let s1 := insert_button jt s false which hat hat_dir
      if s1.events.length = EVENT_BUFFER_SIZE then .full s1 else .cont s1
    else .cont s

/-- The loop over the hat directions; `dirs` lists the values that `hat_dir`
still has to take. -/
def hat_loop (EVENT_BUFFER_SIZE : Nat) (jt : JoyTables) (which : Int) (hat value : Nat) :
    List Nat → PPState → HatLoop
  | [], s => .cont s
  | hat_dir :: dirs, s =>
    if s.pos < s.events.length then
      match hat_dir_body EVENT_BUFFER_SIZE jt which hat value hat_dir s with
      | .full s1 => .full s1
      | .cont s1 => hat_loop EVENT_BUFFER_SIZE jt which hat value dirs s1
    else .cont s

/-- The values taken by `hat_dir`: 1, then doubled while below 16. -/
def hat_dirs : List Nat := [1, 2, 4, 8]

/-- What `preprocess_events` hands back: the returned count, the live part of
the buffer and the stored hat states.  `full` is a return of
`EVENT_BUFFER_SIZE` (the first `events` slots being the whole buffer), `done`
is the final `return numevents`. -/
inductive PPResult
  | full (events : List GE_Event) (joystickHat : HatTable)
  | done (numevents : Nat) (events : List GE_Event) (joystickHat : HatTable)

/-- The count returned by `preprocess_events`. -/
def PPResult.count (EVENT_BUFFER_SIZE : Nat) : PPResult → Nat
  | .full _ _ => EVENT_BUFFER_SIZE
  | .done n _ _ => n

/-- The live part of the buffer on return. -/
def PPResult.events : PPResult → List GE_Event
  | .full evs _ => evs
  | .done _ evs _ => evs

/-- The stored hat states on return. -/
def PPResult.joystickHat : PPResult → HatTable
  | .full _ h => h
  | .done _ _ h => h

/-- The loop `for (event = events; event < events + numevents; ++event)` of
`preprocess_events`, with a bound on the number of iterations (`none` when
the bound is used up).  On a hat event the direction loop runs, the new hat
state is saved (the slot under the cursor holds the hat event again), the hat
event is removed (`memmove(event, event+1, ...)`, `numevents--`) and `event--`
followed by the `++event` of the loop leaves the cursor on the same offset. -/
def events_loop (EVENT_BUFFER_SIZE : Nat) (jt : JoyTables) : Nat → PPState → Option PPResult
  | 0, s => if s.pos < s.events.length then none else some (.done s.events.length s.events s.joystickHat)
  | fuel + 1, s =>
    match s.events[s.pos]? with
    | none => some (.done s.events.length s.events s.joystickHat)
    | some (.jhat which hat value) =>
      match hat_loop EVENT_BUFFER_SIZE jt which hat value hat_dirs s with
      | .full s1 => some (.full s1.events s1.joystickHat)
      | .cont s1 =>
        events_loop EVENT_BUFFER_SIZE jt fuel
          { events := s1.events.eraseIdx s1.pos
            pos := s1.pos
            joystickHat := set_joystick_hat jt s1.joystickHat which hat value }
    | some _ => events_loop EVENT_BUFFER_SIZE jt fuel { s with pos := s.pos + 1 }

/-- `preprocess_events(events, numevents)`: the buffer holds `events`
(`numevents` is its length).  Every iteration of the loop brings the cursor one
slot closer to the end of the live part, so `numevents` iterations are enough. -/
def preprocess_events (EVENT_BUFFER_SIZE : Nat) (jt : JoyTables) (joystickHat : HatTable)
    (events : List GE_Event) : Option PPResult :=
  if events.length = EVENT_BUFFER_SIZE then
    some (.full events joystickHat)
  else
    events_loop EVENT_BUFFER_SIZE jt events.length
      { events := events, pos := 0, joystickHat := joystickHat }

/-- Whether `preprocess_events` returned through one of its
`return EVENT_BUFFER_SIZE` statements. -/
def PPResult.isFull : PPResult → Bool
  | .full _ _ => true
  | .done _ _ _ => false

/-! ### The translation of hat events, stated on lists -/

/-- The button event that stands for one direction of a hat: nothing when the
direction bit is the same in `value` and in the stored state, a button press
when it is set in `value` only, a button release when it is set in the stored
state only. -/
def hat_edge (jt : JoyTables) (joystickHat : HatTable) (which : Int) (hat value : Nat)
    (hat_dir : Nat) : List GE_Event :=
  let prev := get_joystick_hat jt joystickHat which hat
  if value &&& hat_dir ≠ 0 ∧ prev &&& hat_dir = 0 then
    [.jbutton true which (joystick_hat_button jt which hat hat_dir)]
  else if value &&& hat_dir = 0 ∧ prev &&& hat_dir ≠ 0 then
    [.jbutton false which (joystick_hat_button jt which hat hat_dir)]
  else []

/-- The button events of a hat event, over the directions `dirs` in order. -/
def hat_edges (jt : JoyTables) (joystickHat : HatTable) (which : Int) (hat value : Nat) :
    List Nat → List GE_Event
  | [] => []
  | hat_dir :: dirs =>
    hat_edge jt joystickHat which hat value hat_dir ++
      hat_edges jt joystickHat which hat value dirs

/-- What stands for one input event in the translated sequence: a hat event is
replaced by its button events, any other event stays. -/
def replacement (jt : JoyTables) (joystickHat : HatTable) : GE_Event → List GE_Event
  | .jhat which hat value => hat_edges jt joystickHat which hat value hat_dirs
  | e => [e]

/-- The stored hat states once an input event has been translated. -/
def hat_after (jt : JoyTables) (joystickHat : HatTable) : GE_Event → HatTable
  | .jhat which hat value => set_joystick_hat jt joystickHat which hat value
  | _ => joystickHat

/-- The translated sequence: every event replaced, at its own position, by
its `replacement` under the hat states left by the events before it. -/
def translate (jt : JoyTables) : HatTable → List GE_Event → List GE_Event
  | _, [] => []
  | joystickHat, e :: rest =>
    replacement jt joystickHat e ++ translate jt (hat_after jt joystickHat e) rest

/-- The stored hat states once a whole sequence has been translated. -/
def hats_after (jt : JoyTables) : HatTable → List GE_Event → HatTable
  | joystickHat, [] => joystickHat
  | joystickHat, e :: rest => hats_after jt (hat_after jt joystickHat e) rest

/-- The number of hat events of a sequence. -/
def hat_count : List GE_Event → Nat
  | [] => 0
  | .jhat _ _ _ :: rest => hat_count rest + 1
  | _ :: rest => hat_count rest

/-- The number of synthetic button events that the hat events of a sequence
give rise to. -/
def synthetic_count (jt : JoyTables) : HatTable → List GE_Event → Nat
  | _, [] => 0
  | joystickHat, .jhat which hat value :: rest =>
    (hat_edges jt joystickHat which hat value hat_dirs).length +
      synthetic_count jt (set_joystick_hat jt joystickHat which hat value) rest
  | joystickHat, _ :: rest => synthetic_count jt joystickHat rest

/-- Tables of a joystick with 10 buttons and 1 hat. -/
def jt_example : JoyTables := ⟨fun _ => 10, fun _ => 1⟩

/-! ## config_reader.c -/

/-- Node kinds (`xmlElementType`): element nodes and the others (text,
comment, ...), which the loops of `config_reader.c` step over. -/
inductive xmlElementType
  | XML_ELEMENT_NODE
  | XML_TEXT_NODE
  | XML_COMMENT_NODE
  deriving DecidableEq, Repr

/-- A node of the parsed document (`xmlNode`): its kind, its name, its
attributes as (name, value) pairs and the list of its children, in document
order (the `next` link of a child leads to the child after it). -/
inductive xmlNode
  | mk (type : xmlElementType) (name : String) (properties : List (String × String))
      (children : List xmlNode)

/-- The `type` member of a node. -/
def xmlNode.type : xmlNode → xmlElementType
  | .mk t _ _ _ => t

/-- The `name` member of a node. -/
def xmlNode.name : xmlNode → String
  | .mk _ n _ _ => n

/-- The attributes of a node. -/
def xmlNode.properties : xmlNode → List (String × String)
  | .mk _ _ p _ => p

/-- The `children` member of a node: the list starting at the first child. -/
def xmlNode.children : xmlNode → List xmlNode
  | .mk _ _ _ c => c

/-- Lookup of an attribute value in an attribute list. -/
def lookupProp : List (String × String) → String → Option String
  | [], _ => none
  | (n, v) :: rest, a => if n = a then some v else lookupProp rest a

/-- `xmlGetProp(node, name)`: the value of the attribute, `none` for `NULL`. -/
def xmlGetProp (node : xmlNode) (name : String) : Option String :=
  lookupProp node.properties name

/-- Whether the characters `kw` are the first characters of `s`. -/
def begins : List Char → List Char → Bool
  | [], _ => true
  | _ :: _, [] => false
  | k :: kw, c :: s => k = c && begins kw s

/-- `!strncmp(s, kw, strlen(kw))`: true when `s` starts with `kw`. -/
def strncmp_strlen (s kw : String) : Bool := begins kw.data s.data

/-- `!strncmp(s, kw, sizeof(kw))`: the comparison runs over the terminating
zero of `kw` too, so it is true when `s` is `kw`. -/
def strncmp_sizeof (s kw : String) : Bool := decide (s = kw)

/-- The names of elements, attributes and attribute values (`xml_defs.h`). -/
structure xml_defs where
  X_NODE_ROOT : String
  X_NODE_CONTROLLER : String
  X_NODE_CONFIGURATION : String
  X_NODE_TRIGGER : String
  X_NODE_MOUSE_OPTIONS_LIST : String
  X_NODE_MOUSE : String
  X_NODE_INTENSITY_LIST : String
  X_NODE_INTENSITY : String
  X_NODE_UP : String
  X_NODE_DOWN : String
  X_NODE_BUTTON_MAP : String
  X_NODE_AXIS_MAP : String
  X_NODE_BUTTON : String
  X_NODE_AXIS : String
  X_NODE_DEVICE : String
  X_NODE_EVENT : String
  X_ATTR_ID : String
  X_ATTR_DPI : String
  X_ATTR_TYPE : String
  X_ATTR_NAME : String
  X_ATTR_BUTTON_ID : String
  X_ATTR_THRESHOLD : String
  X_ATTR_DEADZONE : String
  X_ATTR_MULTIPLIER : String
  X_ATTR_EXPONENT : String
  X_ATTR_SHAPE : String
  X_ATTR_BUFFERSIZE : String
  X_ATTR_FILTER : String
  X_ATTR_SWITCH_BACK : String
  X_ATTR_DELAY : String
  X_ATTR_STEPS : String
  X_ATTR_CONTROL : String
  X_ATTR_MODE : String
  X_ATTR_VALUE_KEYBOARD : String
  X_ATTR_VALUE_MOUSE : String
  X_ATTR_VALUE_JOYSTICK : String
  X_ATTR_VALUE_BUTTON : String
  X_ATTR_VALUE_AXIS : String
  X_ATTR_VALUE_AXIS_DOWN : String
  X_ATTR_VALUE_AXIS_UP : String
  X_ATTR_VALUE_RECTANGLE : String
  X_ATTR_VALUE_YES : String
  X_ATTR_VALUE_AIMING : String
  X_ATTR_VALUE_DRIVING : String

/-- Device types of `entry.device.type`. -/
inductive e_device_type
  | E_DEVICE_TYPE_UNKNOWN
  | E_DEVICE_TYPE_KEYBOARD
  | E_DEVICE_TYPE_MOUSE
  | E_DEVICE_TYPE_JOYSTICK
  deriving DecidableEq, Repr

/-- Event types of `entry.event.type`. -/
inductive e_event_type
  | E_EVENT_TYPE_UNKNOWN
  | E_EVENT_TYPE_BUTTON
  | E_EVENT_TYPE_AXIS
  | E_EVENT_TYPE_AXIS_DOWN
  | E_EVENT_TYPE_AXIS_UP
  deriving DecidableEq, Repr

/-- Axis shapes. -/
inductive e_shape
  | E_SHAPE_CIRCLE
  | E_SHAPE_RECTANGLE
  deriving DecidableEq, Repr

/-- Mouse modes. -/
inductive e_mouse_mode
  | E_MOUSE_MODE_AIMING
  | E_MOUSE_MODE_DRIVING
  deriving DecidableEq, Repr

/-- Keyboard and mouse modes of the event library (`GE_GetMKMode`). -/
inductive GE_MK_Mode
  | GE_MK_MODE_MULTIPLE_INPUTS
  | GE_MK_MODE_SINGLE_INPUT
  deriving DecidableEq, Repr

/-- Values of type `double`, kept as the expressions that produce them: a
converted integer, the result of `strtod` on a text, the axis scale of a
controller type, and the products, differences and quotients of the
intensity computation.  No floating-point arithmetic is carried out. -/
inductive CDouble
  | ofInt (i : Int)
  | strtod (val : String)
  | axis_scale (ctype : Int) (axis : Int)
  | mul (a b : CDouble)
  | sub (a b : CDouble)
  | div (a b : CDouble)
  deriving DecidableEq, Repr

/-- The pair returned by `controller_get_axis_index_from_name`. -/
structure s_axis_props where
  axis : Int
  props : Int
  deriving DecidableEq, Repr

/-- The static record `entry` (`s_config_entry`) that the reader fills in and
hands to the configuration functions; `params` members are kept side by side. -/
structure s_config_entry where
  controller_id : Nat
  config_id : Nat
  device_type : e_device_type
  device_id : Int
  event_type : e_event_type
  event_id : Int
  mapper_threshold : Int
  mapper_dead_zone : Nat
  mapper_multiplier : CDouble
  mapper_exponent : CDouble
  mapper_shape : e_shape
  mapper_button : Int
  mapper_axis : Int
  mapper_axis_props : s_axis_props
  mouse_options_mode : e_mouse_mode
  mouse_options_buffer_size : Nat
  mouse_options_filter : CDouble
  trigger_switch_back : Int
  trigger_delay : Int
  deriving DecidableEq, Repr

/-- The record `s_intensity` filled in by `ProcessIntensityElement`. -/
structure s_intensity where
  device_up_type : e_device_type
  device_up_id : Int
  up_button : Int
  device_down_type : e_device_type
  device_down_id : Int
  down_button : Int
  dead_zone : CDouble
  shape : e_shape
  step : CDouble
  value : CDouble
  deriving DecidableEq, Repr

/-- The calls that the reader makes into the configuration, calibration,
adapter and event modules, with the arguments as they are at the call. -/
inductive Call
  | cfg_add_binding (entry : s_config_entry)
  | adapter_set_device (controller_id : Nat) (device_type : e_device_type) (device_id : Int)
  | cal_set_mouse (entry : s_config_entry)
  | cfg_set_trigger (entry : s_config_entry)
  | cfg_set_axis_intensity (entry : s_config_entry) (axis : Int) (intensity : s_intensity)
  | cfg_set_controller_dpi (controller_id : Nat) (dpi : Nat)
  | GE_SetJoystickUsed (i : Nat)
  | GE_SetMKMode (mode : GE_MK_Mode)
  deriving DecidableEq, Repr

/-- What the reader gets from its surroundings: the constants of the headers
and the functions of the C library and of the other modules. -/
structure Env where
  defs : xml_defs
  MAX_CONTROLLERS : Nat
  MAX_CONFIGURATIONS : Nat
  MAX_DEVICES : Nat
  AXIS_PROP_TOGGLE : Int
  rel_axis_lstick_x : Int
  rel_axis_lstick_y : Int
  rel_axis_rstick_x : Int
  rel_axis_rstick_y : Int
  atoi : String → Int
  GE_JoystickName : Nat → Option String
  GE_JoystickVirtualId : Nat → Int
  GE_MouseName : Nat → Option String
  GE_MouseVirtualId : Nat → Int
  GE_KeyboardName : Nat → Option String
  GE_KeyboardVirtualId : Nat → Int
  GE_KeyId : String → Int
  GE_MouseButtonId : String → Int
  controller_get_axis_index_from_name : Option String → s_axis_props
  control_get_index : String → Int
  adapter_type : Nat → Int
  cfg_add_binding : List Call → s_config_entry → Int
  cal_get_mouse_buffer_size : List Call → Int → Nat → Nat
  intensity_on_entry : s_intensity

/-- The state that the reader works on: the static `entry` and
`r_device_name`, the keyboard and mouse mode of the event library, and the
calls made so far, oldest first. -/
structure LoadState where
  entry : s_config_entry
  r_device_name : String
  mk_mode : GE_MK_Mode
  calls : List Call
  deriving DecidableEq, Repr

/-- Record a call. -/
def LoadState.call (st : LoadState) (c : Call) : LoadState :=
  { st with calls := st.calls ++ [c] }


/-- Conversion of an `int` to `unsigned int`. -/
def to_unsigned (i : Int) : Nat := (i % 4294967296).toNat

/-- Decrement of an `unsigned int` (`x--`): 0 wraps around to `UINT_MAX`. -/
def unsigned_decr (x : Nat) : Nat := if x = 0 then 4294967295 else x - 1

/-- `GetDeviceName(a_node)`: copy the `name` attribute into `r_device_name`. -/
def GetDeviceName (env : Env) (a_node : xmlNode) (st : LoadState) : Int × LoadState :=
  match xmlGetProp a_node env.defs.X_ATTR_NAME with
  | some prop => (0, { st with r_device_name := prop })
  | none => (-1, st)

/-- `GetIntProp(a_node, a_attr, a_int)`: the status and the content of
`*a_int` afterwards, `cur` being its content before. -/
def GetIntProp (env : Env) (a_node : xmlNode) (a_attr : String) (cur : Int) : Int × Int :=
  match xmlGetProp a_node a_attr with
  | some val => if val.length ≠ 0 then (0, env.atoi val) else (-1, cur)
  | none => (-1, cur)

/-- `GetUnsignedIntProp(a_node, a_attr, a_uint)`: the status and the content
of `*a_uint` afterwards. -/
def GetUnsignedIntProp (env : Env) (a_node : xmlNode) (a_attr : String) (cur : Nat) :
    Int × Nat :=
  match xmlGetProp a_node a_attr with
  | some val => (0, to_unsigned (env.atoi val))
  | none => (-1, cur)

/-- `GetDoubleProp(a_node, a_attr, a_double)`: the status and the content of
`*a_double` afterwards. -/
def GetDoubleProp (a_node : xmlNode) (a_attr : String) (cur : CDouble) : Int × CDouble :=
  match xmlGetProp a_node a_attr with
  | some val => (0, .strtod val)
  | none => (-1, cur)

/-- The search loop of `GetDeviceId`,
`for (i = 0; i < MAX_DEVICES && Name(i); ++i)`, from index `i` with `n`
indexes left below `MAX_DEVICES`: `some i` when the loop is left by `break`
at index `i` (same name, same virtual id), `none` when it ends with
`i == MAX_DEVICES` or on a null name. -/
def device_search (Name : Nat → Option String) (VirtualId : Nat → Int)
    (r_device_name : String) (id : Int) : Nat → Nat → Option Nat
  | 0, _ => none
  | n + 1, i =>
    match Name i with
    | none => none
    | some name =>
      if r_device_name = name ∧ id = VirtualId i then some i
      else device_search Name VirtualId r_device_name id n (i + 1)

/-- `GetDeviceId(a_node)`: 0 when the id is resolved, -1 on error, 1 when
the device is not found. -/
def GetDeviceId (env : Env) (a_node : xmlNode) (st : LoadState) : Int × LoadState :=
  let (ret, id) := GetIntProp env a_node env.defs.X_ATTR_ID st.entry.device_id
  let st := { st with entry := { st.entry with device_id := id } }
  if ret ≠ -1 then
    if st.entry.device_type = .E_DEVICE_TYPE_JOYSTICK then
      match device_search env.GE_JoystickName env.GE_JoystickVirtualId st.r_device_name
          st.entry.device_id env.MAX_DEVICES 0 with
      | some i =>
        (ret, ({ st with entry := { st.entry with device_id := (i : Int) } }).call
          (.GE_SetJoystickUsed i))
      | none => (1, st)
    else if st.mk_mode = .GE_MK_MODE_SINGLE_INPUT then
      (ret, { st with entry := { st.entry with device_id := 0 } })
    else if st.r_device_name.length = 0 then
      (ret, ({ st with mk_mode := .GE_MK_MODE_SINGLE_INPUT }).call
        (.GE_SetMKMode .GE_MK_MODE_SINGLE_INPUT))
    else
      if st.entry.device_type = .E_DEVICE_TYPE_MOUSE then
        match device_search env.GE_MouseName env.GE_MouseVirtualId st.r_device_name
            st.entry.device_id env.MAX_DEVICES 0 with
        | some i => (ret, { st with entry := { st.entry with device_id := (i : Int) } })
        | none => (1, st)
      else if st.entry.device_type = .E_DEVICE_TYPE_KEYBOARD then
        match device_search env.GE_KeyboardName env.GE_KeyboardVirtualId st.r_device_name
            st.entry.device_id env.MAX_DEVICES 0 with
        | some i => (ret, { st with entry := { st.entry with device_id := (i : Int) } })
        | none => (1, st)
      else (ret, st)
  else (ret, st)

/-- `GetDeviceTypeProp(a_node)`: set `entry.device.type` from the `type`
attribute. -/
def GetDeviceTypeProp (env : Env) (a_node : xmlNode) (st : LoadState) : Int × LoadState :=
  match xmlGetProp a_node env.defs.X_ATTR_TYPE with
  | some type =>
    if strncmp_strlen type env.defs.X_ATTR_VALUE_KEYBOARD then
      (0, { st with entry := { st.entry with device_type := .E_DEVICE_TYPE_KEYBOARD } })
    else if strncmp_strlen type env.defs.X_ATTR_VALUE_MOUSE then
      (0, { st with entry := { st.entry with device_type := .E_DEVICE_TYPE_MOUSE } })
    else if strncmp_strlen type env.defs.X_ATTR_VALUE_JOYSTICK then
      (0, { st with entry := { st.entry with device_type := .E_DEVICE_TYPE_JOYSTICK } })
    else
      (0, { st with entry := { st.entry with device_type := .E_DEVICE_TYPE_UNKNOWN } })
  | none => (-1, st)

/-- `GetEventId(a_node, attr_label)`: set `entry.event.id` from the attribute,
according to the device type. -/
def GetEventId (env : Env) (a_node : xmlNode) (attr_label : String) (st : LoadState) :
    Int × LoadState :=
  match xmlGetProp a_node attr_label with
  | none => (-1, st)
  | some event_id =>
    match st.entry.device_type with
    | .E_DEVICE_TYPE_KEYBOARD =>
      (0, { st with entry := { st.entry with event_id := env.GE_KeyId event_id } })
    | .E_DEVICE_TYPE_JOYSTICK =>
      (0, { st with entry := { st.entry with event_id := env.atoi event_id } })
    | .E_DEVICE_TYPE_MOUSE =>
      (0, { st with entry := { st.entry with event_id := env.GE_MouseButtonId event_id } })
    | .E_DEVICE_TYPE_UNKNOWN => (-1, st)

/-- The first part of `ProcessEventElement`, for a `type` attribute that is
present: `entry.event.type` and the parameters of that type are read; the
result is the status `ret` with which the function goes on to the event id. -/
def ProcessEventElement_type (env : Env) (a_node : xmlNode) (type : String) (st : LoadState) :
    Int × LoadState :=
  if strncmp_strlen type env.defs.X_ATTR_VALUE_BUTTON then
    (0, { st with entry := { st.entry with event_type := .E_EVENT_TYPE_BUTTON } })
  else if strncmp_strlen type env.defs.X_ATTR_VALUE_AXIS_DOWN then
    let (ret, threshold) :=
      GetIntProp env a_node env.defs.X_ATTR_THRESHOLD st.entry.mapper_threshold
    (ret, { st with entry := { st.entry with
      event_type := .E_EVENT_TYPE_AXIS_DOWN, mapper_threshold := threshold } })
  else if strncmp_strlen type env.defs.X_ATTR_VALUE_AXIS_UP then
    let (ret, threshold) :=
      GetIntProp env a_node env.defs.X_ATTR_THRESHOLD st.entry.mapper_threshold
    (ret, { st with entry := { st.entry with
      event_type := .E_EVENT_TYPE_AXIS_UP, mapper_threshold := threshold } })
  else if strncmp_strlen type env.defs.X_ATTR_VALUE_AXIS then
    let (ret1, dz) :=
      GetUnsignedIntProp env a_node env.defs.X_ATTR_DEADZONE st.entry.mapper_dead_zone
    let dead_zone := if ret1 = -1 then 0 else dz
    let (ret2, m) := GetDoubleProp a_node env.defs.X_ATTR_MULTIPLIER st.entry.mapper_multiplier
    let multiplier := if ret2 = -1 then CDouble.ofInt 1 else m
    let (ret3, e) := GetDoubleProp a_node env.defs.X_ATTR_EXPONENT st.entry.mapper_exponent
    let exponent := if ret3 = -1 then CDouble.ofInt 1 else e
    let ret := if ret3 = -1 then 0 else ret3
    let shape :=
      match xmlGetProp a_node env.defs.X_ATTR_SHAPE with
      | some shape =>
        if strncmp_strlen shape env.defs.X_ATTR_VALUE_RECTANGLE then e_shape.E_SHAPE_RECTANGLE
        else e_shape.E_SHAPE_CIRCLE
      | none => e_shape.E_SHAPE_CIRCLE
    let (_, buffer_size) :=
      GetUnsignedIntProp env a_node env.defs.X_ATTR_BUFFERSIZE st.entry.mouse_options_buffer_size
    let (_, filter) := GetDoubleProp a_node env.defs.X_ATTR_FILTER st.entry.mouse_options_filter
    (ret, { st with entry := { st.entry with
      event_type := .E_EVENT_TYPE_AXIS
      mapper_dead_zone := dead_zone
      mapper_multiplier := multiplier
      mapper_exponent := exponent
      mapper_shape := shape
      mouse_options_buffer_size := buffer_size
      mouse_options_filter := filter } })
  else (0, st)

/-- The part of `ProcessEventElement` after `cfg_add_binding` has returned 0:
the adapter device is set for a button, the mouse calibration for an axis
bound to a mouse that has none yet. -/
def ProcessEventElement_added (env : Env) (st : LoadState) : LoadState :=
  match st.entry.event_type with
  | .E_EVENT_TYPE_BUTTON =>
    st.call (.adapter_set_device st.entry.controller_id st.entry.device_type st.entry.device_id)
  | .E_EVENT_TYPE_UNKNOWN => st
  | _ =>
    if st.entry.device_type = .E_DEVICE_TYPE_MOUSE then
      if env.cal_get_mouse_buffer_size st.calls st.entry.device_id st.entry.config_id = 0 then
        let st := { st with entry := { st.entry with
          mouse_options_mode := .E_MOUSE_MODE_AIMING } }
        let st :=
          if st.entry.mouse_options_buffer_size = 0 then
            { st with entry := { st.entry with
              mouse_options_buffer_size := 1, mouse_options_filter := .ofInt 0 } }
          else st
        st.call (.cal_set_mouse st.entry)
      else st
    else st

/-- `ProcessEventElement(a_node)`; `none` when the `type` attribute is absent
(`strncmp` on a null pointer). -/
def ProcessEventElement (env : Env) (a_node : xmlNode) (st : LoadState) :
    Option (Int × LoadState) :=
  match xmlGetProp a_node env.defs.X_ATTR_TYPE with
  | none => none
  | some type =>
    let (ret, st) := ProcessEventElement_type env a_node type st
    if ret = 0 then
      let (ret, st) := GetEventId env a_node env.defs.X_ATTR_ID st
      if ret = 0 then
        match st.entry.event_type with
        | .E_EVENT_TYPE_UNKNOWN => some (-1, st)
        | event_type =>
          let st :=
            if event_type = .E_EVENT_TYPE_BUTTON then
              { st with entry := { st.entry with mapper_button := st.entry.event_id } }
            else
              { st with entry := { st.entry with mapper_axis := st.entry.event_id } }
          let ret := env.cfg_add_binding st.calls st.entry
          let st := st.call (.cfg_add_binding st.entry)
          if ret = 0 then some (ret, ProcessEventElement_added env st) else some (ret, st)
      else some (ret, st)
    else some (ret, st)

/-- `ProcessDeviceElement(a_node)`. -/
def ProcessDeviceElement (env : Env) (a_node : xmlNode) (st : LoadState) : Int × LoadState :=
  let (ret, st) := GetDeviceTypeProp env a_node st
  if ret ≠ -1 then
    let (ret, st) := GetDeviceName env a_node st
    if ret ≠ -1 then GetDeviceId env a_node st else (ret, st)
  else (ret, st)


/-- The first loop of `ProcessAxisElement`,
`for (cur_node = ...; cur_node && ret != -1; cur_node = cur_node->next)`,
looking for the `device` child.  A position in a list of siblings is the list
that starts at `cur_node` (empty for a null pointer); the result holds the
position on leaving the loop. -/
def ProcessAxisElement_device (env : Env) :
    List xmlNode → Int → LoadState → List xmlNode × Int × LoadState
  | [], ret, st => ([], ret, st)
  | cur_node :: next, ret, st =>
    if ret ≠ -1 then
      if cur_node.type = .XML_ELEMENT_NODE then
        if cur_node.name = env.defs.X_NODE_DEVICE then
          let (ret, st) := ProcessDeviceElement env cur_node st
          (cur_node :: next, ret, st)
        else ProcessAxisElement_device env next (-1) st
      else ProcessAxisElement_device env next ret st
    else (cur_node :: next, ret, st)

/-- The first loop of `ProcessButtonElement`,
`for (cur_node = ...; cur_node; cur_node = cur_node->next)`. -/
def ProcessButtonElement_device (env : Env) :
    List xmlNode → Int → LoadState → List xmlNode × Int × LoadState
  | [], ret, st => ([], ret, st)
  | cur_node :: next, ret, st =>
    if cur_node.type = .XML_ELEMENT_NODE then
      if cur_node.name = env.defs.X_NODE_DEVICE then
        let (ret, st) := ProcessDeviceElement env cur_node st
        (cur_node :: next, ret, st)
      else ProcessButtonElement_device env next (-1) st
    else ProcessButtonElement_device env next ret st

/-- The second loop of `ProcessAxisElement` and of `ProcessButtonElement`
(the same text in both),
`for (...; cur_node && ret == 0; cur_node = cur_node->next)`, looking for the
`event` child; the argument is the position after `cur_node = cur_node->next`. -/
def Process_event_child (env : Env) :
    List xmlNode → Int → LoadState → Option (List xmlNode × Int × LoadState)
  | [], ret, st => some ([], ret, st)
  | cur_node :: next, ret, st =>
    if ret = 0 then
      if cur_node.type = .XML_ELEMENT_NODE then
        if cur_node.name = env.defs.X_NODE_EVENT then
          match ProcessEventElement env cur_node st with
          | none => none
          | some (ret, st) => some (cur_node :: next, ret, st)
        else Process_event_child env next (-1) st
      else Process_event_child env next ret st
    else some (cur_node :: next, ret, st)

/-- The end of `ProcessAxisElement` and of `ProcessButtonElement`, from the
position `cur_node` left by the first loop: `none` when `cur_node->next` is
taken on a null pointer. -/
def Process_after_device (env : Env) (cur_node : List xmlNode) (ret : Int) (st : LoadState) :
    Option (Int × LoadState) :=
  let ret := if cur_node.isEmpty then -1 else ret
  match cur_node with
  | [] => none
  | _ :: next =>
    match Process_event_child env next ret st with
    | none => none
    | some (cur_node, ret, st) => some (if cur_node.isEmpty then -1 else ret, st)

/-- `ProcessAxisElement(a_node)`. -/
def ProcessAxisElement (env : Env) (a_node : xmlNode) (st : LoadState) :
    Option (Int × LoadState) :=
  let props := env.controller_get_axis_index_from_name (xmlGetProp a_node env.defs.X_ATTR_ID)
  let st := { st with entry := { st.entry with mapper_axis_props := props } }
  let (cur_node, ret, st) := ProcessAxisElement_device env a_node.children 0 st
  Process_after_device env cur_node ret st

/-- `ProcessButtonElement(a_node)`. -/
def ProcessButtonElement (env : Env) (a_node : xmlNode) (st : LoadState) :
    Option (Int × LoadState) :=
  let props := env.controller_get_axis_index_from_name (xmlGetProp a_node env.defs.X_ATTR_ID)
  let props := { props with props := env.AXIS_PROP_TOGGLE }
  let st := { st with entry := { st.entry with mapper_axis_props := props } }
  let (cur_node, ret, st) := ProcessButtonElement_device env a_node.children 0 st
  Process_after_device env cur_node ret st

/-- The loop of `ProcessAxisMapElement`,
`for (...; cur_node && ret != -1; cur_node = cur_node->next)`. -/
def ProcessAxisMapElement_loop (env : Env) :
    List xmlNode → Int → LoadState → Option (Int × LoadState)
  | [], ret, st => some (ret, st)
  | cur_node :: next, ret, st =>
    if ret ≠ -1 then
      if cur_node.type = .XML_ELEMENT_NODE then
        if cur_node.name = env.defs.X_NODE_AXIS then
          match ProcessAxisElement env cur_node st with
          | none => none
          | some (ret, st) => ProcessAxisMapElement_loop env next ret st
        else ProcessAxisMapElement_loop env next (-1) st
      else ProcessAxisMapElement_loop env next ret st
    else some (ret, st)

/-- `ProcessAxisMapElement(a_node)`. -/
def ProcessAxisMapElement (env : Env) (a_node : xmlNode) (st : LoadState) :
    Option (Int × LoadState) :=
  ProcessAxisMapElement_loop env a_node.children 0 st

/-- The loop of `ProcessButtonMapElement`,
`for (...; cur_node && ret != -1; cur_node = cur_node->next)`. -/
def ProcessButtonMapElement_loop (env : Env) :
    List xmlNode → Int → LoadState → Option (Int × LoadState)
  | [], ret, st => some (ret, st)
  | cur_node :: next, ret, st =>
    if ret ≠ -1 then
      if cur_node.type = .XML_ELEMENT_NODE then
        if cur_node.name = env.defs.X_NODE_BUTTON then
          match ProcessButtonElement env cur_node st with
          | none => none
          | some (ret, st) => ProcessButtonMapElement_loop env next ret st
        else ProcessButtonMapElement_loop env next (-1) st
      else ProcessButtonMapElement_loop env next ret st
    else some (ret, st)

/-- `ProcessButtonMapElement(a_node)`. -/
def ProcessButtonMapElement (env : Env) (a_node : xmlNode) (st : LoadState) :
    Option (Int × LoadState) :=
  ProcessButtonMapElement_loop env a_node.children 0 st

/-- `ProcessTriggerElement(a_node)`. -/
def ProcessTriggerElement (env : Env) (a_node : xmlNode) (st : LoadState) : Int × LoadState :=
  let (ret, st) := GetDeviceTypeProp env a_node st
  if ret ≠ -1 ∧ st.entry.device_type ≠ .E_DEVICE_TYPE_UNKNOWN then
    let (ret, st) := GetDeviceName env a_node st
    let (ret, st) :=
      if ret ≠ -1 then
        let (ret, st) := GetDeviceId env a_node st
        if ret ≠ -1 then GetEventId env a_node env.defs.X_ATTR_BUTTON_ID st else (ret, st)
      else (ret, st)
    let switch_back : Int :=
      match xmlGetProp a_node env.defs.X_ATTR_SWITCH_BACK with
      | some r_switch_back =>
        if strncmp_sizeof r_switch_back env.defs.X_ATTR_VALUE_YES then 1 else 0
      | none => 0
    let (_, delay) := GetIntProp env a_node env.defs.X_ATTR_DELAY 0
    let st := { st with entry := { st.entry with
      trigger_switch_back := switch_back, trigger_delay := delay } }
    if ret ≠ -1 then (ret, st.call (.cfg_set_trigger st.entry)) else (ret, st)
  else (ret, st)

/-- `ProcessUpDownElement(a_node, device_type, device_id, button)`: the
status, the state and the contents of the three out-parameters afterwards
(`out` holds their contents before). -/
def ProcessUpDownElement (env : Env) (a_node : xmlNode)
    (out : e_device_type × Int × Int) (st : LoadState) :
    Int × LoadState × (e_device_type × Int × Int) :=
  let (ret, st) := GetDeviceTypeProp env a_node st
  if ret ≠ -1 ∧ st.entry.device_type ≠ .E_DEVICE_TYPE_UNKNOWN then
    let (ret, st) := GetDeviceName env a_node st
    if ret ≠ -1 then
      let (ret, st) := GetDeviceId env a_node st
      if ret ≠ -1 then
        let (ret, st) := GetEventId env a_node env.defs.X_ATTR_BUTTON_ID st
        (ret, st, (st.entry.device_type, st.entry.device_id, st.entry.event_id))
      else (ret, st, out)
    else (ret, st, out)
  else (ret, st, out)

/-- The loop of `ProcessIntensityElement` over the `up` and `down` children,
`for (...; cur_node; cur_node = cur_node->next)`. -/
def ProcessIntensityElement_loop (env : Env) :
    List xmlNode → Int → LoadState → s_intensity → Int × LoadState × s_intensity
  | [], ret, st, intensity => (ret, st, intensity)
  | cur_node :: next, ret, st, intensity =>
    if cur_node.type = .XML_ELEMENT_NODE then
      if cur_node.name = env.defs.X_NODE_UP then
        let (ret, st, (t, i, b)) := ProcessUpDownElement env cur_node
          (intensity.device_up_type, intensity.device_up_id, intensity.up_button) st
        ProcessIntensityElement_loop env next ret st
          { intensity with device_up_type := t, device_up_id := i, up_button := b }
      else if cur_node.name = env.defs.X_NODE_DOWN then
        let (ret, st, (t, i, b)) := ProcessUpDownElement env cur_node
          (intensity.device_down_type, intensity.device_down_id, intensity.down_button) st
        ProcessIntensityElement_loop env next ret st
          { intensity with device_down_type := t, device_down_id := i, down_button := b }
      else ProcessIntensityElement_loop env next (-1) st intensity
    else ProcessIntensityElement_loop env next ret st intensity

/-- `ProcessIntensityElement(a_node, intensity, axis)`. -/
def ProcessIntensityElement (env : Env) (a_node : xmlNode) (intensity : s_intensity)
    (axis : Int) (st : LoadState) : Int × LoadState × s_intensity :=
  let (ret, st, intensity) := ProcessIntensityElement_loop env a_node.children 0 st intensity
  if ret ≠ -1 ∧ (intensity.device_down_id ≠ -1 ∨ intensity.device_up_id ≠ -1) then
    let (ret, dz) := GetUnsignedIntProp env a_node env.defs.X_ATTR_DEADZONE 0
    if ret ≠ -1 then
      let dead_zone :=
        CDouble.mul (.ofInt dz) (.axis_scale (env.adapter_type st.entry.controller_id) axis)
      let intensity := { intensity with dead_zone := dead_zone }
      match xmlGetProp a_node env.defs.X_ATTR_SHAPE with
      | some shape =>
        let (st, intensity) :=
          if strncmp_strlen shape env.defs.X_ATTR_VALUE_RECTANGLE then
            ({ st with entry := { st.entry with mapper_shape := .E_SHAPE_RECTANGLE } }, intensity)
          else (st, { intensity with shape := .E_SHAPE_CIRCLE })
        let (ret, steps) := GetUnsignedIntProp env a_node env.defs.X_ATTR_STEPS 0
        if ret ≠ -1 then
          let step := CDouble.div (.sub intensity.value intensity.dead_zone) (.ofInt steps)
          (ret, st, { intensity with step := step })
        else (ret, st, intensity)
      | none => (-1, st, intensity)
    else (ret, st, intensity)
  else (ret, st, intensity)


/-- The loop of `ProcessIntensityListElement`,
`for (...; cur_node; cur_node = cur_node->next)`, with the local `intensity`;
`none` when an `intensity` element has no `control` attribute (`strcmp` on a
null pointer). -/
def ProcessIntensityListElement_loop (env : Env) :
    List xmlNode → Int → LoadState → s_intensity → Option (Int × LoadState)
  | [], ret, st, _ => some (ret, st)
  | cur_node :: next, ret, st, intensity =>
    if cur_node.type = .XML_ELEMENT_NODE then
      if cur_node.name = env.defs.X_NODE_INTENSITY then
        match xmlGetProp cur_node env.defs.X_ATTR_CONTROL with
        | none => none
        | some control =>
          let (axis1, axis2) : Int × Int :=
            if control = "left_stick" ∨ control = "lstick" then
              (env.rel_axis_lstick_x, env.rel_axis_lstick_y)
            else if control = "right_stick" ∨ control = "rstick" then
              (env.rel_axis_rstick_x, env.rel_axis_rstick_y)
            else (env.control_get_index control, -1)
          if axis1 ≥ 0 then
            let (ret, st, intensity) := ProcessIntensityElement env cur_node intensity axis1 st
            let st := st.call (.cfg_set_axis_intensity st.entry axis1 intensity)
            let st :=
              if axis2 ≥ 0 then st.call (.cfg_set_axis_intensity st.entry axis2 intensity)
              else st
            ProcessIntensityListElement_loop env next ret st intensity
          else ProcessIntensityListElement_loop env next ret st intensity
      else some (ret, st)
    else ProcessIntensityListElement_loop env next ret st intensity

/-- `ProcessIntensityListElement(a_node)`; the local `intensity` starts with
the content `env.intensity_on_entry` (it is not initialised). -/
def ProcessIntensityListElement (env : Env) (a_node : xmlNode) (st : LoadState) :
    Option (Int × LoadState) :=
  ProcessIntensityListElement_loop env a_node.children 0 st env.intensity_on_entry

/-- The mode that `ProcessMouseOptionsListElement` stores for a `mode`
attribute that is present. -/
def mouse_mode_of (env : Env) (prop : String) : e_mouse_mode :=
  if strncmp_strlen prop env.defs.X_ATTR_VALUE_AIMING then .E_MOUSE_MODE_AIMING
  else if strncmp_strlen prop env.defs.X_ATTR_VALUE_DRIVING then .E_MOUSE_MODE_DRIVING
  else .E_MOUSE_MODE_AIMING

/-- The body of the loop of `ProcessMouseOptionsListElement` for a `mouse`
element `cur_node`: the new value of `ret` and the state. -/
def ProcessMouseOptionsListElement_mouse (env : Env) (cur_node : xmlNode) (st : LoadState) :
    Int × LoadState :=
  let st := { st with entry := { st.entry with device_type := .E_DEVICE_TYPE_MOUSE } }
  let (ret, st) := GetDeviceName env cur_node st
  if ret ≠ -1 then
    let (ret, st) := GetDeviceId env cur_node st
    match xmlGetProp cur_node env.defs.X_ATTR_MODE with
    | some prop =>
      let st := { st with entry := { st.entry with
        mouse_options_mode := mouse_mode_of env prop } }
      if ret ≠ -1 then
        let (ret, buffer_size) := GetUnsignedIntProp env cur_node env.defs.X_ATTR_BUFFERSIZE
          st.entry.mouse_options_buffer_size
        let st := { st with entry := { st.entry with mouse_options_buffer_size := buffer_size } }
        if ret ≠ -1 then
          let (ret, filter) := GetDoubleProp cur_node env.defs.X_ATTR_FILTER
            st.entry.mouse_options_filter
          let st := { st with entry := { st.entry with mouse_options_filter := filter } }
          if ret ≠ -1 then (ret, st.call (.cal_set_mouse st.entry)) else (ret, st)
        else (ret, st)
      else (ret, st)
    | none => (-1, st)
  else (ret, st)

/-- The loop of `ProcessMouseOptionsListElement`,
`for (...; cur_node; cur_node = cur_node->next)`. -/
def ProcessMouseOptionsListElement_loop (env : Env) :
    List xmlNode → Int → LoadState → Int × LoadState
  | [], ret, st => (ret, st)
  | cur_node :: next, ret, st =>
    if cur_node.type = .XML_ELEMENT_NODE then
      if cur_node.name = env.defs.X_NODE_MOUSE then
        let (ret, st) := ProcessMouseOptionsListElement_mouse env cur_node st
        ProcessMouseOptionsListElement_loop env next ret st
      else (ret, st)
    else ProcessMouseOptionsListElement_loop env next ret st

/-- `ProcessMouseOptionsListElement(a_node)`. -/
def ProcessMouseOptionsListElement (env : Env) (a_node : xmlNode) (st : LoadState) :
    Int × LoadState :=
  ProcessMouseOptionsListElement_loop env a_node.children 0 st

/-- A non-null `xmlNode*` into a list of siblings: the node, the siblings
before it (nearest first) and the siblings after it. -/
structure xmlNodePtr where
  before : List xmlNode
  node : xmlNode
  after : List xmlNode

/-- `cur_node->prev` (`none` for a null pointer). -/
def xmlNodePtr.prev (p : xmlNodePtr) : Option xmlNodePtr :=
  match p.before with
  | [] => none
  | x :: before => some ⟨before, x, p.node :: p.after⟩

/-- The first loop of `ProcessConfigurationElement`,
`for (...; cur_node && ret != -1; cur_node = cur_node->next)`, looking for the
`trigger` child; `before` holds the siblings already passed. -/
def ProcessConfigurationElement_trigger (env : Env) :
    List xmlNode → List xmlNode → Int → LoadState → Option xmlNodePtr × Int × LoadState
  | _, [], ret, st => (none, ret, st)
  | before, cur_node :: next, ret, st =>
    if ret ≠ -1 then
      if cur_node.type = .XML_ELEMENT_NODE then
        if cur_node.name = env.defs.X_NODE_TRIGGER then
          let (ret, st) := ProcessTriggerElement env cur_node st
          (some ⟨before, cur_node, next⟩, ret, st)
        else ProcessConfigurationElement_trigger env (cur_node :: before) next (-1) st
      else ProcessConfigurationElement_trigger env (cur_node :: before) next ret st
    else (some ⟨before, cur_node, next⟩, ret, st)

/-- The second loop of `ProcessConfigurationElement`,
`for (...; cur_node; cur_node = cur_node->next)`, looking for the optional
`mouse_options_list` child; on another element the pointer steps back
(`cur_node = cur_node->prev; break`). -/
def ProcessConfigurationElement_mouse_options (env : Env) :
    List xmlNode → List xmlNode → Int → LoadState → Option xmlNodePtr × Int × LoadState
  | _, [], ret, st => (none, ret, st)
  | before, cur_node :: next, ret, st =>
    if cur_node.type = .XML_ELEMENT_NODE then
      if cur_node.name = env.defs.X_NODE_MOUSE_OPTIONS_LIST then
        let (ret, st) := ProcessMouseOptionsListElement env cur_node st
        (some ⟨before, cur_node, next⟩, ret, st)
      else ((xmlNodePtr.mk before cur_node next).prev, ret, st)
    else ProcessConfigurationElement_mouse_options env (cur_node :: before) next ret st

/-- The third loop of `ProcessConfigurationElement`,
`for (...; cur_node && ret != -1; cur_node = cur_node->next)`, looking for the
optional `intensity_list` child. -/
def ProcessConfigurationElement_intensity (env : Env) :
    List xmlNode → List xmlNode → Int → LoadState →
      Option (Option xmlNodePtr × Int × LoadState)
  | _, [], ret, st => some (none, ret, st)
  | before, cur_node :: next, ret, st =>
    if ret ≠ -1 then
      if cur_node.type = .XML_ELEMENT_NODE then
        if cur_node.name = env.defs.X_NODE_INTENSITY_LIST then
          match ProcessIntensityListElement env cur_node st with
          | none => none
          | some (ret, st) => some (some ⟨before, cur_node, next⟩, ret, st)
        else some ((xmlNodePtr.mk before cur_node next).prev, ret, st)
      else ProcessConfigurationElement_intensity env (cur_node :: before) next ret st
    else some (some ⟨before, cur_node, next⟩, ret, st)

/-- The fourth loop of `ProcessConfigurationElement`,
`for (...; cur_node && ret != -1; cur_node = cur_node->next)`, looking for the
`button_map` child. -/
def ProcessConfigurationElement_button_map (env : Env) :
    List xmlNode → List xmlNode → Int → LoadState →
      Option (Option xmlNodePtr × Int × LoadState)
  | _, [], ret, st => some (none, ret, st)
  | before, cur_node :: next, ret, st =>
    if ret ≠ -1 then
      if cur_node.type = .XML_ELEMENT_NODE then
        if cur_node.name = env.defs.X_NODE_BUTTON_MAP then
          match ProcessButtonMapElement env cur_node st with
          | none => none
          | some (ret, st) => some (some ⟨before, cur_node, next⟩, ret, st)
        else ProcessConfigurationElement_button_map env (cur_node :: before) next (-1) st
      else ProcessConfigurationElement_button_map env (cur_node :: before) next ret st
    else some (some ⟨before, cur_node, next⟩, ret, st)

/-- The fifth loop of `ProcessConfigurationElement`,
`for (...; cur_node && ret != -1; cur_node = cur_node->next)`, looking for the
`axis_map` child. -/
def ProcessConfigurationElement_axis_map (env : Env) :
    List xmlNode → List xmlNode → Int → LoadState →
      Option (Option xmlNodePtr × Int × LoadState)
  | _, [], ret, st => some (none, ret, st)
  | before, cur_node :: next, ret, st =>
    if ret ≠ -1 then
      if cur_node.type = .XML_ELEMENT_NODE then
        if cur_node.name = env.defs.X_NODE_AXIS_MAP then
          match ProcessAxisMapElement env cur_node st with
          | none => none
          | some (ret, st) => some (some ⟨before, cur_node, next⟩, ret, st)
        else ProcessConfigurationElement_axis_map env (cur_node :: before) next (-1) st
      else ProcessConfigurationElement_axis_map env (cur_node :: before) next ret st
    else some (some ⟨before, cur_node, next⟩, ret, st)

/-- The id check at the head of `ProcessConfigurationElement`: the status and
`entry.config_id` afterwards. -/
def ProcessConfigurationElement_id (env : Env) (a_node : xmlNode) (st : LoadState) :
    Int × LoadState :=
  let (ret, id) := GetUnsignedIntProp env a_node env.defs.X_ATTR_ID st.entry.config_id
  if ret ≠ -1 then
    let id := unsigned_decr id
    let st := { st with entry := { st.entry with config_id := id } }
    if id ≥ env.MAX_CONFIGURATIONS then (-1, st) else (ret, st)
  else (ret, st)

/-- `ProcessConfigurationElement(a_node)`; `none` when a `next` link is taken
on a null pointer or a nested handler stops on a null pointer. -/
def ProcessConfigurationElement (env : Env) (a_node : xmlNode) (st : LoadState) :
    Option (Int × LoadState) :=
  let (ret, st) := ProcessConfigurationElement_id env a_node st
  let (cur_node, ret, st) := ProcessConfigurationElement_trigger env [] a_node.children ret st
  let ret := if cur_node.isNone then -1 else ret
  match cur_node with
  | none => none
  | some p =>
    let (cur_node, ret, st) :=
      ProcessConfigurationElement_mouse_options env (p.node :: p.before) p.after ret st
    match cur_node with
    | none => none
    | some p =>
      match ProcessConfigurationElement_intensity env (p.node :: p.before) p.after ret st with
      | none => none
      | some (none, _, _) => none
      | some (some p, ret, st) =>
        match ProcessConfigurationElement_button_map env (p.node :: p.before) p.after ret st with
        | none => none
        | some (none, _, _) => none
        | some (some p, ret, st) =>
          match ProcessConfigurationElement_axis_map env (p.node :: p.before) p.after ret st with
          | none => none
          | some (cur_node, ret, st) => some (if cur_node.isNone then -1 else ret, st)

/-- The loop of `ProcessControllerElement`,
`for (...; cur_node && ret != -1; cur_node = cur_node->next)`. -/
def ProcessControllerElement_loop (env : Env) :
    List xmlNode → Int → LoadState → Option (Int × LoadState)
  | [], ret, st => some (ret, st)
  | cur_node :: next, ret, st =>
    if ret ≠ -1 then
      if cur_node.type = .XML_ELEMENT_NODE then
        if cur_node.name = env.defs.X_NODE_CONFIGURATION then
          match ProcessConfigurationElement env cur_node st with
          | none => none
          | some (ret, st) => ProcessControllerElement_loop env next ret st
        else ProcessControllerElement_loop env next (-1) st
      else ProcessControllerElement_loop env next ret st
    else some (ret, st)

/-- The id check at the head of `ProcessControllerElement`: the status and
`entry.controller_id` afterwards. -/
def ProcessControllerElement_id (env : Env) (a_node : xmlNode) (st : LoadState) :
    Int × LoadState :=
  let (ret, id) := GetUnsignedIntProp env a_node env.defs.X_ATTR_ID st.entry.controller_id
  if ret ≠ -1 then
    let id := unsigned_decr id
    let st := { st with entry := { st.entry with controller_id := id } }
    if id ≥ env.MAX_CONTROLLERS then (-1, st) else (ret, st)
  else (ret, st)

/-- `ProcessControllerElement(a_node)`. -/
def ProcessControllerElement (env : Env) (a_node : xmlNode) (st : LoadState) :
    Option (Int × LoadState) :=
  let (ret, st) := ProcessControllerElement_id env a_node st
  let st :=
    if ret ≠ -1 then
      let (ret_dpi, dpi) := GetUnsignedIntProp env a_node env.defs.X_ATTR_DPI 0
      if ret_dpi ≠ -1 then st.call (.cfg_set_controller_dpi st.entry.controller_id dpi) else st
    else st
  ProcessControllerElement_loop env a_node.children ret st

/-- The loop of `ProcessRootElement`,
`for (...; cur_node && ret != -1; cur_node = cur_node->next)`. -/
def ProcessRootElement_loop (env : Env) :
    List xmlNode → Int → LoadState → Option (Int × LoadState)
  | [], ret, st => some (ret, st)
  | cur_node :: next, ret, st =>
    if ret ≠ -1 then
      if cur_node.type = .XML_ELEMENT_NODE then
        if cur_node.name = env.defs.X_NODE_CONTROLLER then
          match ProcessControllerElement env cur_node st with
          | none => none
          | some (ret, st) => ProcessRootElement_loop env next ret st
        else ProcessRootElement_loop env next (-1) st
      else ProcessRootElement_loop env next ret st
    else some (ret, st)

/-- `ProcessRootElement(a_node)`. -/
def ProcessRootElement (env : Env) (a_node : xmlNode) (st : LoadState) :
    Option (Int × LoadState) :=
  if a_node.type = .XML_ELEMENT_NODE then
    if a_node.name = env.defs.X_NODE_ROOT then
      ProcessRootElement_loop env a_node.children 0 st
    else some (-1, st)
  else some (0, st)

/-- What `xmlReadFile` and `xmlDocGetRootElement` give for a configuration
file: no document (the file cannot be parsed), a document without a root
element, or a document with its root element. -/
inductive xmlDoc
  | unreadable
  | empty
  | root (root_element : xmlNode)

/-- `read_file(file_path)`, on what the file parses to. -/
def read_file (env : Env) (doc : xmlDoc) (st : LoadState) : Option (Int × LoadState) :=
  match doc with
  | .root root_element => ProcessRootElement env root_element st
  | .empty => some (-1, st)
  | .unreadable => some (-1, st)

/-- `read_config_file(file)`, on what the file parses to. -/
def read_config_file (env : Env) (doc : xmlDoc) (st : LoadState) : Option (Int × LoadState) :=
  match read_file env doc st with
  | none => none
  | some (ret, st) => if ret = -1 then some (-1, st) else some (0, st)


/-! ### A concrete environment -/

/-- The names of `xml_defs.h` as GIMX configuration files use them. -/
def gimx_defs : xml_defs where
  X_NODE_ROOT := "root"
  X_NODE_CONTROLLER := "controller"
  X_NODE_CONFIGURATION := "configuration"
  X_NODE_TRIGGER := "trigger"
  X_NODE_MOUSE_OPTIONS_LIST := "mouse_options_list"
  X_NODE_MOUSE := "mouse"
  X_NODE_INTENSITY_LIST := "intensity_list"
  X_NODE_INTENSITY := "intensity"
  X_NODE_UP := "up"
  X_NODE_DOWN := "down"
  X_NODE_BUTTON_MAP := "button_map"
  X_NODE_AXIS_MAP := "axis_map"
  X_NODE_BUTTON := "button"
  X_NODE_AXIS := "axis"
  X_NODE_DEVICE := "device"
  X_NODE_EVENT := "event"
  X_ATTR_ID := "id"
  X_ATTR_DPI := "dpi"
  X_ATTR_TYPE := "type"
  X_ATTR_NAME := "name"
  X_ATTR_BUTTON_ID := "button_id"
  X_ATTR_THRESHOLD := "threshold"
  X_ATTR_DEADZONE := "dead_zone"
  X_ATTR_MULTIPLIER := "multiplier"
  X_ATTR_EXPONENT := "exponent"
  X_ATTR_SHAPE := "shape"
  X_ATTR_BUFFERSIZE := "buffer_size"
  X_ATTR_FILTER := "filter"
  X_ATTR_SWITCH_BACK := "switch_back"
  X_ATTR_DELAY := "delay"
  X_ATTR_STEPS := "steps"
  X_ATTR_CONTROL := "control"
  X_ATTR_MODE := "mode"
  X_ATTR_VALUE_KEYBOARD := "keyboard"
  X_ATTR_VALUE_MOUSE := "mouse"
  X_ATTR_VALUE_JOYSTICK := "joystick"
  X_ATTR_VALUE_BUTTON := "button"
  X_ATTR_VALUE_AXIS := "axis"
  X_ATTR_VALUE_AXIS_DOWN := "axis down"
  X_ATTR_VALUE_AXIS_UP := "axis up"
  X_ATTR_VALUE_RECTANGLE := "Rectangle"
  X_ATTR_VALUE_YES := "yes"
  X_ATTR_VALUE_AIMING := "Aiming"
  X_ATTR_VALUE_DRIVING := "Driving"

/-- The number read from the leading decimal digits of a text. -/
def decimal_digits : List Char → Nat → Nat
  | [], acc => acc
  | c :: cs, acc =>
    if 48 ≤ c.toNat ∧ c.toNat ≤ 57 then decimal_digits cs (10 * acc + (c.toNat - 48)) else acc

/-- A reading of `atoi` on texts made of an optional minus sign and digits. -/
def atoi_decimal (s : String) : Int :=
  match s.data with
  | '-' :: cs => - (decimal_digits cs 0 : Int)
  | cs => (decimal_digits cs 0 : Int)

/-- An environment with 7 controllers, 8 configurations, one joystick named
`pad` (virtual id 0), no enumerated mouse or keyboard, key and button names
read as numbers, and `cfg_add_binding` always returning 0. -/
def env_example : Env where
  defs := gimx_defs
  MAX_CONTROLLERS := 7
  MAX_CONFIGURATIONS := 8
  MAX_DEVICES := 256
  AXIS_PROP_TOGGLE := 1
  rel_axis_lstick_x := 0
  rel_axis_lstick_y := 1
  rel_axis_rstick_x := 2
  rel_axis_rstick_y := 3
  atoi := atoi_decimal
  GE_JoystickName := fun i => if i = 0 then some "pad" else none
  GE_JoystickVirtualId := fun _ => 0
  GE_MouseName := fun _ => none
  GE_MouseVirtualId := fun _ => 0
  GE_KeyboardName := fun _ => none
  GE_KeyboardVirtualId := fun _ => 0
  GE_KeyId := atoi_decimal
  GE_MouseButtonId := atoi_decimal
  controller_get_axis_index_from_name := fun _ => ⟨0, 0⟩
  control_get_index := fun _ => -1
  adapter_type := fun _ => 0
  cfg_add_binding := fun _ _ => 0
  cal_get_mouse_buffer_size := fun _ _ _ => 0
  intensity_on_entry :=
    ⟨.E_DEVICE_TYPE_UNKNOWN, -1, 0, .E_DEVICE_TYPE_UNKNOWN, -1, 0, .ofInt 0, .E_SHAPE_CIRCLE,
      .ofInt 0, .ofInt 0⟩

/-- The static `entry` at program start (all members zero). -/
def entry_zero : s_config_entry :=
  ⟨0, 0, .E_DEVICE_TYPE_UNKNOWN, 0, .E_EVENT_TYPE_UNKNOWN, 0, 0, 0, .ofInt 0, .ofInt 0,
    .E_SHAPE_CIRCLE, 0, 0, ⟨0, 0⟩, .E_MOUSE_MODE_AIMING, 0, .ofInt 0, 0, 0⟩

/-- The state before the first file is read, in multiple-inputs mode. -/
def state_zero : LoadState := ⟨entry_zero, "", .GE_MK_MODE_MULTIPLE_INPUTS, []⟩

/-- An element node. -/
def element (name : String) (properties : List (String × String)) (children : List xmlNode) :
    xmlNode :=
  .mk .XML_ELEMENT_NODE name properties children


/-- A `mouse` element with an empty mode text. -/
def mouse_empty_mode : xmlNode :=
  element "mouse" [("name", ""), ("id", "0"), ("mode", ""), ("buffer_size", "1"),
    ("filter", "0.00")] []

/-- A text node between two elements. -/
def text_node : xmlNode := .mk .XML_TEXT_NODE "text" [] []

/-- An axis element bound to a joystick that is not plugged in. -/
def axis_wheel : xmlNode :=
  element "axis" [("id", "rstick x")]
    [text_node, element "device" [("type", "joystick"), ("id", "0"), ("name", "wheel")] [],
      text_node, element "event" [("type", "axis"), ("id", "0")] [], text_node]

/-- An axis element bound to a key. -/
def axis_key : xmlNode :=
  element "axis" [("id", "lstick x")]
    [text_node, element "device" [("type", "keyboard"), ("id", "0"), ("name", "")] [],
      text_node, element "event" [("type", "button"), ("id", "100")] [], text_node]

/-- A trigger element that names no device. -/
def trigger_none : xmlNode :=
  element "trigger" [("type", ""), ("name", ""), ("id", ""), ("button_id", "")] []

/-- A configuration file with the two axis elements, laid out with text nodes
between the elements. -/
def doc_wheel : xmlDoc :=
  .root (element "root" []
    [text_node, element "controller" [("id", "1")]
      [text_node, element "configuration" [("id", "1")]
        [text_node, trigger_none, text_node, element "button_map" [] [text_node], text_node,
          element "axis_map" [] [text_node, axis_key, text_node, axis_wheel, text_node],
          text_node],
        text_node],
      text_node])

/-- A configuration element with the id 0, its children following each other
without text nodes. -/
def configuration_id_zero : xmlNode :=
  element "configuration" [("id", "0")]
    [trigger_none, element "mouse_options_list" [] [], element "button_map" [] [],
      element "axis_map" [] []]

/-- A trigger element without the `name` attribute. -/
def trigger_no_name : xmlNode :=
  element "trigger" [("type", "keyboard"), ("id", "0"), ("button_id", "1")] []

/-- A `mouse` element without the `mode` attribute. -/
def mouse_no_mode : xmlNode :=
  element "mouse" [("name", ""), ("id", "0"), ("buffer_size", "1"), ("filter", "0.00")] []

/-- A configuration file whose trigger element fails and whose mouse options
list holds a failing `mouse` element followed by a good one. -/
def doc_trigger_fails : xmlDoc :=
  .root (element "root" []
    [text_node, element "controller" [("id", "1")]
      [text_node, element "configuration" [("id", "1")]
        [text_node, trigger_no_name, text_node,
          element "mouse_options_list" [] [text_node, mouse_no_mode, text_node,
            mouse_empty_mode, text_node],
          text_node, element "button_map" [] [text_node], text_node,
          element "axis_map" [] [text_node], text_node],
        text_node],
      text_node])

/-- A button element bound to a key. -/
def button_key : xmlNode :=
  element "button" [("id", "cross")]
    [text_node, element "device" [("type", "keyboard"), ("id", "0"), ("name", "")] [],
      text_node, element "event" [("type", "button"), ("id", "32")] [], text_node]

/-- The index `i` answers the search of `GetDeviceId` for `r_device_name` and
`id`: it is below `MAX_DEVICES`, every index up to it has a name, its name is
`r_device_name` and its virtual id is `id`. -/
def device_candidate (Name : Nat → Option String) (VirtualId : Nat → Int) (MAX_DEVICES : Nat)
    (r_device_name : String) (id : Int) (i : Nat) : Prop :=
  i < MAX_DEVICES ∧ (∀ j, j ≤ i → Name j ≠ none) ∧ Name i = some r_device_name ∧
    id = VirtualId i

/-! ## gimx.c -/

/-- The calls that `process_event` makes into the configuration, the
calibration and the macro modules, with their arguments.  `cal_skip_event` is
the guard of the default branch; its result is given by the environment. -/
inductive gimx_call
  | cfg_process_motion_event (event : GE_Event)
  | cfg_process_rumble_event (event : GE_Event)
  | cal_skip_event (event : GE_Event)
  | cfg_process_event (event : GE_Event)
  | cfg_trigger_lookup (event : GE_Event)
  | cfg_intensity_lookup (event : GE_Event)
  | cal_button (which : Int) (button : Int)
  | cal_key (which : Int) (keysym : Int) (down : Int)
  | macro_lookup (event : GE_Event)
  deriving DecidableEq, Repr

/-- The calls of the mapping step: `cfg_process_motion_event`,
`cfg_process_rumble_event` and `cfg_process_event`. -/
def gimx_call.is_mapping : gimx_call → Bool
  | .cfg_process_motion_event _ => true
  | .cfg_process_rumble_event _ => true
  | .cfg_process_event _ => true
  | _ => false

/-- The calls to `cfg_trigger_lookup`, whatever the argument. -/
def gimx_call.is_trigger_lookup : gimx_call → Bool
  | .cfg_trigger_lookup _ => true
  | _ => false

/-- The calls to `macro_lookup`, whatever the argument. -/
def gimx_call.is_macro_lookup : gimx_call → Bool
  | .macro_lookup _ => true
  | _ => false

/-- The first `switch` of `process_event`: the mapping step. -/
def process_event_mapping (cal_skip_event : GE_Event → Int) (event : GE_Event) : List gimx_call :=
  match event.type with
  | .GE_MOUSEMOTION => [.cfg_process_motion_event event]
  | .GE_JOYRUMBLE => [.cfg_process_rumble_event event]
  | _ =>
    if cal_skip_event event = 0 then [.cal_skip_event event, .cfg_process_event event]
    else [.cal_skip_event event]

/-- The second `switch` of `process_event`: the calibration hooks. -/
def process_event_calibration : GE_Event → List gimx_call
  | .button true which button => [.cal_button which button]
  | .key true which keysym => [.cal_key which keysym 1]
  | .key false which keysym => [.cal_key which keysym 0]
  | _ => []

/-- The function `process_event` of `gimx.c`: the returned value and the calls
made, in order.  The callees receive the event by pointer and are taken to leave
it as it is. -/
def process_event (cal_skip_event : GE_Event → Int) (event : GE_Event) : Int × List gimx_call :=
  let mapping := process_event_mapping cal_skip_event event
  let lookups : List gimx_call := [.cfg_trigger_lookup event, .cfg_intensity_lookup event]
  let calibration := process_event_calibration event
  let macros : List gimx_call :=
    if event.type ≠ .GE_MOUSEMOTION then [.macro_lookup event] else []
  (0, mapping ++ lookups ++ calibration ++ macros)

/-! ## gpp_con.c -/

/-- The enumeration `e_controller_type`, declared in a header outside the
sources at hand; a controller type is kept as its integer value. -/
abbrev e_controller_type := Nat

/-- Reduction of a mathematical integer to `int` (32 bits, two's complement):
the value that a wrapping signed operation leaves. -/
def wrap_int (x : Int) : Int :=
  if -2147483648 ≤ x ∧ x ≤ 2147483647 then x
  else (x + 2147483648) % 4294967296 - 2147483648

/-- Conversion of an `int` to `int8_t`: values out of range are reduced modulo
256. -/
def to_int8 (x : Int) : Int :=
  if -128 ≤ x ∧ x ≤ 127 then x else (x + 128) % 256 - 128

/-- Division of two `int` values as C does it, truncating toward zero.  A zero
divisor and the quotient `INT_MIN / -1` trap: there is no result. -/
def int_div (a b : Int) : Option Int :=
  if b = 0 then none
  else if a = -2147483648 ∧ b = -1 then none
  else some (Int.tdiv a b)

/-- The function `scale_axis`: `axis[index] * 100 / controller_get_max_signed(type, index)`
computed on `int` and returned as `int8_t`.  The table behind
`controller_get_max_signed` is outside the sources at hand and is a parameter;
the axis state is a function of the axis index. -/
def scale_axis (controller_get_max_signed : e_controller_type → Nat → Int)
    (type : e_controller_type) (index : Nat) (axis : Nat → Int) : Option Int :=
  (int_div (wrap_int (axis index * 100)) (controller_get_max_signed type index)).map to_int8

/-- Modelled from the spec: the macro `clamp(min, value, max)`, whose definition
is in a header outside the sources at hand.  The spec says "Clamp to
[-100, 100]": a value below `min` gives `min`, a value above `max` gives `max`,
any other value is unchanged. -/
def clamp (min value max : Int) : Int :=
  if value < min then min else if max < value then max else value

/-- The constants of `pcprog.h` that `gpp_send` uses: the size of the output
array and the positions of the entries in it. -/
structure gcapi_defs where
  GCAPI_INPUT_TOTAL : Nat
  PS3_UP : Nat
  PS3_DOWN : Nat
  PS3_LEFT : Nat
  PS3_RIGHT : Nat
  PS3_START : Nat
  PS3_SELECT : Nat
  PS3_L3 : Nat
  PS3_R3 : Nat
  PS3_L1 : Nat
  PS3_R1 : Nat
  PS3_PS : Nat
  PS3_CROSS : Nat
  PS3_CIRCLE : Nat
  PS3_SQUARE : Nat
  PS3_TRIANGLE : Nat
  PS3_L2 : Nat
  PS3_R2 : Nat
  PS3_LX : Nat
  PS3_LY : Nat
  PS3_RX : Nat
  PS3_RY : Nat
  PS3_ACCX : Nat
  PS3_ACCY : Nat
  PS3_ACCZ : Nat
  PS3_GYRO : Nat
  PS4_TOUCH : Nat
  PS4_TOUCHX : Nat
  PS4_TOUCHY : Nat

/-- The axis indexes (`sa_...` of the sixaxis, `ds4a_...` of the DS4) that
`gpp_send` reads, declared in headers outside the sources at hand. -/
structure axis_index_defs where
  sa_up : Nat
  sa_down : Nat
  sa_left : Nat
  sa_right : Nat
  sa_start : Nat
  sa_select : Nat
  sa_l3 : Nat
  sa_r3 : Nat
  sa_l1 : Nat
  sa_r1 : Nat
  sa_ps : Nat
  sa_cross : Nat
  sa_circle : Nat
  sa_square : Nat
  sa_triangle : Nat
  sa_l2 : Nat
  sa_r2 : Nat
  sa_lstick_x : Nat
  sa_lstick_y : Nat
  sa_rstick_x : Nat
  sa_rstick_y : Nat
  sa_acc_x : Nat
  sa_acc_y : Nat
  sa_acc_z : Nat
  sa_gyro : Nat
  ds4a_finger1 : Nat
  ds4a_finger1_x : Nat
  ds4a_finger1_y : Nat

/-- The three forms of assignment to `output` in `gpp_send`, each with the
position `out` written and the axis index read:
`scaled` is `output[out] = scale_axis(type, index, axis);`,
`digital` is `output[out] = axis[index] ? 100 : 0;`,
`clamped` is `axis_value = scale_axis(type, index, axis);
output[out] = clamp(-100, axis_value, 100);`. -/
inductive gpp_statement
  | scaled (out : Nat) (index : Nat)
  | digital (out : Nat) (index : Nat)
  | clamped (out : Nat) (index : Nat)
  deriving DecidableEq, Repr

/-- The position of `output` that a statement writes. -/
def gpp_statement.out : gpp_statement → Nat
  | .scaled out _ => out
  | .digital out _ => out
  | .clamped out _ => out

/-- The axis index that a statement reads. -/
def gpp_statement.index : gpp_statement → Nat
  | .scaled _ index => index
  | .digital _ index => index
  | .clamped _ index => index

/-- The assignments of `gpp_send`, in the order of the source. -/
def gpp_send_statements (g : gcapi_defs) (a : axis_index_defs) : List gpp_statement :=
  [ .scaled g.PS3_UP a.sa_up,
    .scaled g.PS3_DOWN a.sa_down,
    .scaled g.PS3_LEFT a.sa_left,
    .scaled g.PS3_RIGHT a.sa_right,
    .digital g.PS3_START a.sa_start,
    .digital g.PS3_SELECT a.sa_select,
    .scaled g.PS3_L3 a.sa_l3,
    .scaled g.PS3_R3 a.sa_r3,
    .scaled g.PS3_L1 a.sa_l1,
    .scaled g.PS3_R1 a.sa_r1,
    .digital g.PS3_PS a.sa_ps,
    .scaled g.PS3_CROSS a.sa_cross,
    .scaled g.PS3_CIRCLE a.sa_circle,
    .scaled g.PS3_SQUARE a.sa_square,
    .scaled g.PS3_TRIANGLE a.sa_triangle,
    .scaled g.PS3_L2 a.sa_l2,
    .scaled g.PS3_R2 a.sa_r2,
    .clamped g.PS3_LX a.sa_lstick_x,
    .clamped g.PS3_LY a.sa_lstick_y,
    .clamped g.PS3_RX a.sa_rstick_x,
    .clamped g.PS3_RY a.sa_rstick_y,
    .clamped g.PS3_ACCX a.sa_acc_x,
    .clamped g.PS3_ACCY a.sa_acc_y,
    .clamped g.PS3_ACCZ a.sa_acc_z,
    .clamped g.PS3_GYRO a.sa_gyro,
    .digital g.PS4_TOUCH a.ds4a_finger1,
    .scaled g.PS4_TOUCHX a.ds4a_finger1_x,
    .scaled g.PS4_TOUCHY a.ds4a_finger1_y ]

/-- The `int8_t` value that a statement stores. -/
def gpp_value (controller_get_max_signed : e_controller_type → Nat → Int)
    (type : e_controller_type) (axis : Nat → Int) : gpp_statement → Option Int
  | .scaled _ index => scale_axis controller_get_max_signed type index axis
  | .digital _ index => some (to_int8 (if axis index ≠ 0 then 100 else 0))
  | .clamped _ index =>
    (scale_axis controller_get_max_signed type index axis).map
      (fun axis_value => to_int8 (clamp (-100) axis_value 100))

/-- The statements run in order on the array `output`. -/
def gpp_run (controller_get_max_signed : e_controller_type → Nat → Int)
    (type : e_controller_type) (axis : Nat → Int) :
    List gpp_statement → List Int → Option (List Int)
  | [], output => some output
  | s :: rest, output =>
    match gpp_value controller_get_max_signed type axis s with
    | none => none
    | some v => gpp_run controller_get_max_signed type axis rest (output.set s.out v)

/-- The function `gpp_send`: the array `output` starts as zeroes, the
assignments are run, and the array is handed to `gpppcprog_output`, whose
result decides the returned value.  The result is the returned value and the
array handed over; there is none when a division traps. -/
def gpp_send (g : gcapi_defs) (a : axis_index_defs)
    (controller_get_max_signed : e_controller_type → Nat → Int)
    (gpppcprog_output : Int → List Int → Int)
    (id : Int) (type : e_controller_type) (axis : Nat → Int) : Option (Int × List Int) :=
  match gpp_run controller_get_max_signed type axis (gpp_send_statements g a)
      (List.replicate g.GCAPI_INPUT_TOTAL 0) with
  | none => none
  | some output => some (if gpppcprog_output id output = 0 then -1 else 0, output)

/-- The positions of the Gtuner API for a PS3 and PS4 controller. -/
def gcapi_example : gcapi_defs :=
  { GCAPI_INPUT_TOTAL := 30, PS3_PS := 0, PS3_SELECT := 1, PS3_START := 2, PS3_R1 := 3,
    PS3_R2 := 4, PS3_R3 := 5, PS3_L1 := 6, PS3_L2 := 7, PS3_L3 := 8, PS3_RX := 9,
    PS3_RY := 10, PS3_LX := 11, PS3_LY := 12, PS3_UP := 13, PS3_DOWN := 14,
    PS3_LEFT := 15, PS3_RIGHT := 16, PS3_TRIANGLE := 17, PS3_CIRCLE := 18,
    PS3_CROSS := 19, PS3_SQUARE := 20, PS3_ACCX := 21, PS3_ACCY := 22, PS3_ACCZ := 23,
    PS3_GYRO := 24, PS4_TOUCH := 27, PS4_TOUCHX := 28, PS4_TOUCHY := 29 }

/-- An assignment of axis indexes: the eight relative axes first, then the
buttons. -/
def axis_index_example : axis_index_defs :=
  { sa_lstick_x := 0, sa_lstick_y := 1, sa_rstick_x := 2, sa_rstick_y := 3, sa_acc_x := 4,
    sa_acc_y := 5, sa_acc_z := 6, sa_gyro := 7, sa_select := 8, sa_start := 9, sa_ps := 10,
    sa_up := 11, sa_right := 12, sa_down := 13, sa_left := 14, sa_triangle := 15,
    sa_circle := 16, sa_cross := 17, sa_square := 18, sa_l1 := 19, sa_r1 := 20, sa_l2 := 21,
    sa_r2 := 22, sa_l3 := 23, sa_r3 := 24, ds4a_finger1 := 25, ds4a_finger1_x := 26,
    ds4a_finger1_y := 27 }

/-- A table of maxima: 127 for the eight relative axes, 255 for the others. -/
def max_signed_example : e_controller_type → Nat → Int :=
  fun _ index => if index < 8 then 127 else 255

/-- An axis state with one non-zero entry. -/
def axis_single (index : Nat) (value : Int) : Nat → Int :=
  fun i => if i = index then value else 0

/-- The statements of the form `output[out] = scale_axis(type, index, axis);`,
which store the scaled value without clamping it. -/
def gpp_statement.is_scaled : gpp_statement → Bool
  | .scaled _ _ => true
  | _ => false

/-! ## events.c: the pump of mouse and keyboard events -/

/-- The tags of a `ManyMouseEvent` that `ev_pump_events` tells apart; `other`
stands for every remaining tag of `manymouse.h`. -/
inductive ManyMouseEventType
  | MANYMOUSE_EVENT_RELMOTION
  | MANYMOUSE_EVENT_BUTTON
  | MANYMOUSE_EVENT_SCROLL
  | MANYMOUSE_EVENT_KEY
  | other
  deriving DecidableEq, Repr

/-- The members of a `ManyMouseEvent` that `ev_pump_events` reads. -/
structure ManyMouseEvent where
  type : ManyMouseEventType
  device : Nat
  item : Nat
  value : Int
  scancode : Int
  deriving DecidableEq, Repr

/-- The `SDL_Event` union, with the members that `events.c` reads and writes.
`ev_pump_events` hands to `SDL_PushEvent` the `button` view
(`SDL_MOUSEBUTTONDOWN` when `down`, else `SDL_MOUSEBUTTONUP`), the `key` view
(`SDL_KEYDOWN` when `down`, else `SDL_KEYUP`) and the `motion` view
(`SDL_MOUSEMOTION`); the conversions also know the joystick views `jbutton`,
`jaxis`, `jhat` and the game controller views `cbutton`, `caxis`; `other`
stands for an event of any other type.  Members of an unsigned type are
natural numbers. -/
inductive SDL_Event
  | button (down : Bool) (which : Nat) (button : Nat)
  | key (down : Bool) (padding2 : Nat) (sym : Int)
  | motion (which : Nat) (xrel : Int) (yrel : Int)
  | jbutton (down : Bool) (which : Int) (button : Nat)
  | cbutton (down : Bool) (which : Int) (button : Nat)
  | jaxis (which : Int) (axis : Nat) (value : Int)
  | caxis (which : Int) (axis : Nat) (value : Int)
  | jhat (which : Int) (hat : Nat) (value : Nat)
  | other (type : Nat)
  deriving DecidableEq, Repr

/-- The events of type `SDL_MOUSEMOTION`. -/
def SDL_Event.is_motion : SDL_Event → Bool
  | .motion _ _ _ => true
  | _ => false

/-- The button numbers of SDL and of `GE.h` that `ev_pump_events` uses. -/
structure sdl_button_defs where
  SDL_BUTTON_LEFT : Nat
  SDL_BUTTON_RIGHT : Nat
  SDL_BUTTON_MIDDLE : Nat
  SDL_BUTTON_X1 : Nat
  SDL_BUTTON_X2 : Nat
  SDL_BUTTON_WHEELUP : Nat
  SDL_BUTTON_WHEELDOWN : Nat
  SDL_BUTTON_X3 : Nat
  SDL_BUTTON_X4 : Nat

/-- Conversion of an `int` to `short`: values out of range are reduced modulo
65536. -/
def to_int16 (x : Int) : Int :=
  if -32768 ≤ x ∧ x ≤ 32767 then x else (x + 32768) % 65536 - 32768

/-- The function `ev_mouse_name`: the name that ManyMouse gives for `id`, and
`m_num` afterwards, raised to `id + 1` when there is a name and `id + 1` is
larger. -/
def ev_mouse_name (ManyMouse_MouseName : Int → Option String) (id : Int) (m_num : Int) :
    Option String × Int :=
  match ManyMouse_MouseName id with
  | some name => (some name, if id + 1 > m_num then id + 1 else m_num)
  | none => (none, m_num)

/-- The state of `ev_pump_events`: the static accumulators `m_x` and `m_y`
(arrays of `short` indexed by the device), the local variable `button`, and
the events handed to `SDL_PushEvent` so far, oldest first. -/
structure PumpState where
  m_x : Nat → Int
  m_y : Nat → Int
  button : Nat
  pushed : List SDL_Event

/-- The `switch` on `event.item` of the button branch: the new value of the
variable `button`, which keeps its value when no case applies. -/
def button_of_item (sdl : sdl_button_defs) (item : Nat) (button : Nat) : Nat :=
  match item with
  | 0 => sdl.SDL_BUTTON_LEFT
  | 1 => sdl.SDL_BUTTON_RIGHT
  | 2 => sdl.SDL_BUTTON_MIDDLE
  | 3 => sdl.SDL_BUTTON_X1
  | 4 => sdl.SDL_BUTTON_X2
  | _ => button

/-- The body of the `while` loop of `ev_pump_events` for one polled event.
`m_x[event.device] += event.value` adds as `int` and stores a `short` (the
device is taken to be an index of the arrays); `se.key.padding2` is a byte. -/
def pump_event (sdl : sdl_button_defs) (st : PumpState) (event : ManyMouseEvent) : PumpState :=
  match event.type with
  | .MANYMOUSE_EVENT_RELMOTION =>
    if event.item = 0 then
      { st with m_x := fun i =>
          if i = event.device then to_int16 (wrap_int (st.m_x event.device + event.value))
          else st.m_x i }
    else
      { st with m_y := fun i =>
          if i = event.device then to_int16 (wrap_int (st.m_y event.device + event.value))
          else st.m_y i }
  | .MANYMOUSE_EVENT_BUTTON =>
    let button := button_of_item sdl event.item st.button
    { st with
      button := button
      pushed := st.pushed ++ [.button (decide (event.value ≠ 0)) event.device button] }
  | .MANYMOUSE_EVENT_SCROLL =>
    if event.item = 0 then
      let b := if event.value > 0 then sdl.SDL_BUTTON_WHEELUP else sdl.SDL_BUTTON_WHEELDOWN
      { st with pushed := st.pushed ++ [.button true event.device b, .button false event.device b] }
    else
      let b := if event.value < 0 then sdl.SDL_BUTTON_X3 else sdl.SDL_BUTTON_X4
      { st with pushed := st.pushed ++ [.button true event.device b, .button false event.device b] }
  | .MANYMOUSE_EVENT_KEY =>
    { st with
      pushed := st.pushed ++ [.key (decide (event.value ≠ 0)) (event.device % 256) event.scancode] }
  | .other => st

/-- The `while` loop of `ev_pump_events` over the events that
`ManyMouse_PollEvent` delivers, in order. -/
def pump_poll (sdl : sdl_button_defs) : List ManyMouseEvent → PumpState → PumpState
  | [], st => st
  | event :: rest, st => pump_poll sdl rest (pump_event sdl st event)

/-- The body of the `for` loop of `ev_pump_events` for the device `i`. -/
def pump_flush_device (st : PumpState) (i : Nat) : PumpState :=
  if st.m_x i ≠ 0 ∨ st.m_y i ≠ 0 then
    { st with
      pushed := st.pushed ++ [.motion i (st.m_x i) (st.m_y i)]
      m_x := fun j => if j = i then 0 else st.m_x j
      m_y := fun j => if j = i then 0 else st.m_y j }
  else st

/-- The `for` loop of `ev_pump_events` over the devices listed. -/
def pump_flush : List Nat → PumpState → PumpState
  | [], st => st
  | i :: rest, st => pump_flush rest (pump_flush_device st i)

/-- The function `ev_pump_events`: from the accumulators at entry, the
events polled and `m_num`, the accumulators at exit and the events pushed.
`button` starts at 0; the loop over `i` runs from 0 below `m_num`. -/
def ev_pump_events (sdl : sdl_button_defs) (m_num : Int) (polled : List ManyMouseEvent)
    (m_x m_y : Nat → Int) : PumpState :=
  pump_flush (List.range m_num.toNat)
    (pump_poll sdl polled { m_x := m_x, m_y := m_y, button := 0, pushed := [] })

/-- The sum of the relative-motion deltas polled for the device `device`, on
the x axis (`item = 0`) when `x` is true and on the y axis otherwise. -/
def motion_sum (x : Bool) (device : Nat) (polled : List ManyMouseEvent) : Int :=
  ((polled.filter (fun e => decide (e.type = .MANYMOUSE_EVENT_RELMOTION ∧ e.device = device ∧
    (decide (e.item = 0)) = x))).map (fun e => e.value)).sum

/-- A choice of button numbers: those of SDL 2 for the five buttons, further
numbers for the wheel and the extra buttons. -/
def sdl_button_example : sdl_button_defs :=
  { SDL_BUTTON_LEFT := 1, SDL_BUTTON_MIDDLE := 2, SDL_BUTTON_RIGHT := 3, SDL_BUTTON_X1 := 4,
    SDL_BUTTON_X2 := 5, SDL_BUTTON_WHEELUP := 8, SDL_BUTTON_WHEELDOWN := 9, SDL_BUTTON_X3 := 10,
    SDL_BUTTON_X4 := 11 }

/-- A poll with motion of two mice, a button and a key. -/
def polled_example : List ManyMouseEvent :=
  [ ⟨.MANYMOUSE_EVENT_RELMOTION, 0, 0, 30000, 0⟩,
    ⟨.MANYMOUSE_EVENT_BUTTON, 0, 1, 1, 0⟩,
    ⟨.MANYMOUSE_EVENT_RELMOTION, 0, 0, 30000, 0⟩,
    ⟨.MANYMOUSE_EVENT_RELMOTION, 1, 1, 5, 0⟩,
    ⟨.MANYMOUSE_EVENT_RELMOTION, 1, 1, -5, 0⟩,
    ⟨.MANYMOUSE_EVENT_KEY, 0, 0, 1, 30⟩,
    ⟨.MANYMOUSE_EVENT_RELMOTION, 2, 0, 7, 0⟩ ]

/-! ## hidasync.c -/

/-- The calls that `hidasync_open_ids` makes into the `async` layer and the
kernel, with their arguments. -/
inductive hid_call
  | async_open_path (path : String) (print : Int)
  | ioctl_HIDIOCGRAWINFO (device : Int)
  | async_close (device : Int)
  deriving DecidableEq, Repr

/-- The answers of the `async` layer and of the kernel: the identifier that
`async_open_path` returns for a path (negative on failure), and the vendor and
product ids that `ioctl(..., HIDIOCGRAWINFO, ...)` reports for the device
opened from a path (`none` when `ioctl` returns -1).  Every device that
`hidasync_open_ids` opens and does not return is closed before the next one
is opened, so the answers are taken not to depend on the calls made before. -/
structure hid_env where
  async_open_path : String → Int
  HIDIOCGRAWINFO : String → Option (Nat × Nat)

/-- The outcome of `open_path`: the returned identifier, the ids stored in
`devices[device].hid` when the device stays open, and the calls made. -/
structure open_result where
  device : Int
  vendor : Nat
  product : Nat
  calls : List hid_call
  deriving DecidableEq, Repr

/-- The function `open_path`. -/
def open_path (env : hid_env) (path : String) (print : Int) : open_result :=
  let device := env.async_open_path path
  if device ≥ 0 then
    match env.HIDIOCGRAWINFO path with
    | some (vendor, product) =>
      { device := device, vendor := vendor, product := product,
        calls := [.async_open_path path print, .ioctl_HIDIOCGRAWINFO device] }
    | none =>
      { device := -1, vendor := 0, product := 0,
        calls := [.async_open_path path print, .ioctl_HIDIOCGRAWINFO device,
          .async_close device] }
  else
    { device := device, vendor := 0, product := 0, calls := [.async_open_path path print] }

/-- The filter `is_hidraw_device`: `strncmp("hidraw", dir->d_name, 6) == 0`. -/
def is_hidraw_device (d_name : String) : Bool := begins "hidraw".data d_name.data

/-- The path that `snprintf(path, sizeof(path), "%s/%s", DEV, d_name)` leaves
in the buffer of `sizeof("/dev/hidraw255")` bytes: at most 14 characters. -/
def hidraw_path (d_name : String) : String := String.mk (("/dev/" ++ d_name).data.take 14)

/-- The first `for` loop of `hidasync_open_ids` over the names that `scandir`
returned: the value of `ret` at the end and the calls made, after `calls`. -/
def hidasync_open_ids_loop (env : hid_env) (vendor product : Nat) :
    List String → List hid_call → Int × List hid_call
  | [], calls => (-1, calls)
  | d_name :: rest, calls =>
    let r := open_path env (hidraw_path d_name) 0
    if r.device ≥ 0 then
      if r.vendor = vendor ∧ r.product = product then (r.device, calls ++ r.calls)
      else
        hidasync_open_ids_loop env vendor product rest
          (calls ++ r.calls ++ [.async_close r.device])
    else hidasync_open_ids_loop env vendor product rest (calls ++ r.calls)

/-- The function `hidasync_open_ids`.  The parameter `dev` is the content of
`/dev` in the order of `alphasort`, or `none` when `scandir` fails; `scandir`
keeps the names that `is_hidraw_device` accepts.  The result is the returned
value and the calls made. -/
def hidasync_open_ids (env : hid_env) (dev : Option (List String)) (vendor product : Nat) :
    Int × List hid_call :=
  match dev with
  | none => (-1, [])
  | some names =>
    hidasync_open_ids_loop env vendor product (names.filter is_hidraw_device) []

/-- The entry `d_name` opens and has the ids asked for. -/
def hid_matches (env : hid_env) (vendor product : Nat) (d_name : String) : Bool :=
  decide (env.async_open_path (hidraw_path d_name) ≥ 0) &&
    decide (env.HIDIOCGRAWINFO (hidraw_path d_name) = some (vendor, product))

/-- The effect of one call on the list of the devices that are open. -/
def hid_track (env : hid_env) (opened : List Int) : hid_call → List Int
  | .async_open_path path _ =>
    if env.async_open_path path ≥ 0 then env.async_open_path path :: opened else opened
  | .ioctl_HIDIOCGRAWINFO _ => opened
  | .async_close device => opened.erase device

/-- The devices opened and not closed again by a sequence of calls. -/
def still_open (env : hid_env) (calls : List hid_call) : List Int :=
  calls.foldl (hid_track env) []

/-- An environment with three raw hid devices: the first does not open, the
second and the third open as device 0, with different ids; the entry `event0`
of `/dev` opens as device 5 and reports the ids of the third. -/
def hid_env_example : hid_env :=
  { async_open_path := fun path =>
      if path = "/dev/hidraw1" ∨ path = "/dev/hidraw2" then 0
      else if path = "/dev/event0" then 5 else -1
    HIDIOCGRAWINFO := fun path =>
      if path = "/dev/hidraw1" then some (1356, 616)
      else if path = "/dev/hidraw2" ∨ path = "/dev/event0" then some (1356, 1476) else none }

/-! ## config_reader.c: further example documents -/

/-- An event element whose type text begins with none of the keywords. -/
def event_bad_type : xmlNode := element "event" [("type", "buton"), ("id", "33")] []

/-- A button element bound to a key, with the event element of unknown
type. -/
def button_bad_type : xmlNode :=
  element "button" [("id", "circle")]
    [text_node, element "device" [("type", "keyboard"), ("id", "0"), ("name", "")] [],
      text_node, event_bad_type, text_node]

/-- A configuration file with a good button binding followed by the button
element whose event has an unknown type. -/
def doc_bad_type : xmlDoc :=
  .root (element "root" []
    [text_node, element "controller" [("id", "1")]
      [text_node, element "configuration" [("id", "1")]
        [text_node, trigger_none, text_node,
          element "button_map" [] [text_node, button_key, text_node, button_bad_type, text_node],
          text_node, element "axis_map" [] [text_node], text_node],
        text_node],
      text_node])

/-- An intensity element with an `up` key, a dead zone, the rectangle shape
and steps. -/
def intensity_rectangle : xmlNode :=
  element "intensity" [("control", "lstick"), ("dead_zone", "10"), ("shape", "Rectangle"),
      ("steps", "4")]
    [text_node, element "up" [("type", "keyboard"), ("name", ""), ("id", "0"),
      ("button_id", "5")] [], text_node]

/-- A trigger element that names a joystick that is not plugged in. -/
def trigger_wheel : xmlNode :=
  element "trigger" [("type", "joystick"), ("name", "wheel"), ("id", "0"), ("button_id", "3")] []

/-- An axis element without children. -/
def axis_no_child : xmlNode := element "axis" [("id", "lstick x")] []

/-- A button element that holds a text node only. -/
def button_text_only : xmlNode := element "button" [("id", "cross")] [text_node]

/-- A configuration element that holds a text node only. -/
def configuration_text_only : xmlNode := element "configuration" [("id", "1")] [text_node]

/-- A trigger element bound to a key, with `switch_back` and `delay`. -/
def trigger_key : xmlNode :=
  element "trigger" [("type", "keyboard"), ("name", ""), ("id", "0"), ("button_id", "41"),
    ("switch_back", "yes"), ("delay", "250")] []

/-- The calls to `cfg_add_binding`. -/
def Call.is_cfg_add_binding : Call → Bool
  | .cfg_add_binding _ => true
  | _ => false

/-- The values of `report.console` that `gpp_connect` tells apart; `other`
stands for every remaining value of the member. -/
inductive gcapi_console
  | CONSOLE_DISCONNECTED
  | CONSOLE_PS3
  | CONSOLE_XB360
  | CONSOLE_PS4
  | CONSOLE_XB1
  | other (value : Nat)
  deriving DecidableEq, Repr

/-- The controller types that `gpp_connect` returns, constants of a header
outside the sources at hand. -/
structure controller_type_defs where
  C_TYPE_SIXAXIS : e_controller_type
  C_TYPE_360_PAD : e_controller_type
  C_TYPE_DS4 : e_controller_type
  C_TYPE_XONE_PAD : e_controller_type

/-- The loop `for(i = 0; i < 10; ++i)` of `gpp_connect`, from the index `i`
with `n` indexes left below 10.  The parameter `gpppcprog_input` gives, for
the attempt number, the value returned by `gpppcprog_input(id, &report, 100)`
and the console it leaves in `report`.  The result is the number of attempts
made and the console of the report when an attempt returned 1 (`none` when the
loop ended with `i == 10`). -/
def gpp_connect_loop (gpppcprog_input : Nat → Int × gcapi_console) :
    Nat → Nat → Nat × Option gcapi_console
  | 0, i => (i, none)
  | n + 1, i =>
    if (gpppcprog_input i).1 = 1 then (i + 1, some (gpppcprog_input i).2)
    else gpp_connect_loop gpppcprog_input n (i + 1)

/-- The `switch(report.console)` of `gpp_connect`: the value of `ret` after
it, `ret` being -1 before. -/
def gpp_connect_switch (c : controller_type_defs) : gcapi_console → Int
  | .CONSOLE_DISCONNECTED => -1
  | .CONSOLE_PS3 => (c.C_TYPE_SIXAXIS : Int)
  | .CONSOLE_XB360 => (c.C_TYPE_360_PAD : Int)
  | .CONSOLE_PS4 => (c.C_TYPE_DS4 : Int)
  | .CONSOLE_XB1 => (c.C_TYPE_XONE_PAD : Int)
  | .other _ => -1

/-- The function `gpp_connect`: the returned value and the number of calls to
`gpppcprog_input` made.  The parameter `gppcprog_connect` is the value that
`gppcprog_connect(id, device)` returns. -/
def gpp_connect (c : controller_type_defs) (gppcprog_connect : Int)
    (gpppcprog_input : Nat → Int × gcapi_console) : Int × Nat :=
  if gppcprog_connect ≠ 1 then (-1, 0)
  else
    match gpp_connect_loop gpppcprog_input 10 0 with
    | (attempts, none) => (-1, attempts)
    | (attempts, some console) => (gpp_connect_switch c console, attempts)

/-- A numbering of the controller types. -/
def controller_type_example : controller_type_defs :=
  { C_TYPE_SIXAXIS := 1, C_TYPE_360_PAD := 2, C_TYPE_DS4 := 5, C_TYPE_XONE_PAD := 7 }

/-! ## events.c: conversions between SDL events and GE events -/

/-- Conversion of an `int` to `Uint8`. -/
def to_uint8 (x : Int) : Nat := (x % 256).toNat

/-- The static tables `instanceIdToIndex` and `joysticks` (the latter as the
indexes that hold a non-null pointer), filled in by `ev_init`. -/
structure JoyIndex where
  instanceIdToIndex : Int → Int
  joysticks : Int → Bool

/-- The function `convert_g2s(se, ge)`: the content of `*se` afterwards, `se`
being its content before (the `switch` has no `default`, an event of another
type leaves `*se` as it is).  The members of a GE event are kept as integers;
they are stored into the members of the SDL event, of type `Uint8`
(`padding2`, `button`, `axis`, `hat`, `value` of a hat), `Uint32` (`which` of
a mouse), `Sint32` (`sym`, `xrel`, `yrel`, `which` of a joystick) and `Sint16`
(`value` of an axis). -/
def convert_g2s (se : SDL_Event) (ge : GE_Event) : SDL_Event :=
  match ge with
  | .key down which keysym => .key down (to_uint8 which) (wrap_int keysym)
  | .button down which button => .button down (to_unsigned which) (to_uint8 button)
  | .jbutton down which button => .jbutton down (wrap_int which) (to_uint8 button)
  | .motion which xrel yrel => .motion (to_unsigned which) (wrap_int xrel) (wrap_int yrel)
  | .jaxis which axis value => .jaxis (wrap_int which) (to_uint8 axis) (to_int16 value)
  | .jhat which hat value => .jhat (wrap_int which) (hat % 256) (value % 256)
  | .jrumble _ => se

/-- The function `ev_push_event(ge)`: the event handed to `SDL_PushEvent` and
the returned value, which is the one of `SDL_PushEvent`; `se` is the content
of the local variable before the conversion (it is not initialised). -/
def ev_push_event (SDL_PushEvent : SDL_Event → Int) (se : SDL_Event) (ge : GE_Event) :
    SDL_Event × Int :=
  (convert_g2s se ge, SDL_PushEvent (convert_g2s se ge))

/-- The function `convert_s2g(se, ge)`: the returned value and the content of
`*ge` afterwards, `ge` being its content before.  A joystick event of an
instance whose index holds no joystick returns 0; the `switch` has no
`default`, an event of another type returns 1 and leaves `*ge` as it is. -/
def convert_s2g (t : JoyIndex) (se : SDL_Event) (ge : GE_Event) : Int × GE_Event :=
  match se with
  | .key down padding2 sym => (1, .key down (padding2 : Int) sym)
  | .button down which button => (1, .button down (which : Int) (button : Int))
  | .jbutton down which button =>
    let index := t.instanceIdToIndex which
    if t.joysticks index = false then (0, ge) else (1, .jbutton down index (button : Int))
  | .cbutton down which button => (1, .jbutton down (t.instanceIdToIndex which) (button : Int))
  | .motion which xrel yrel => (1, .motion (which : Int) xrel yrel)
  | .jaxis which axis value =>
    let index := t.instanceIdToIndex which
    if t.joysticks index = false then (0, ge) else (1, .jaxis index (axis : Int) value)
  | .caxis which axis value => (1, .jaxis (t.instanceIdToIndex which) (axis : Int) value)
  | .jhat which hat value =>
    let index := t.instanceIdToIndex which
    if t.joysticks index = false then (0, ge) else (1, .jhat index hat value)
  | .other _ => (1, ge)

/-- The members of a GE event fit the members of the SDL event that
`convert_g2s` stores them in. -/
def fits_sdl : GE_Event → Bool
  | .key _ which keysym =>
    decide (0 ≤ which ∧ which ≤ 255 ∧ -2147483648 ≤ keysym ∧ keysym ≤ 2147483647)
  | .button _ which button =>
    decide (0 ≤ which ∧ which ≤ 4294967295 ∧ 0 ≤ button ∧ button ≤ 255)
  | .motion which xrel yrel =>
    decide (0 ≤ which ∧ which ≤ 4294967295 ∧ -2147483648 ≤ xrel ∧ xrel ≤ 2147483647 ∧
      -2147483648 ≤ yrel ∧ yrel ≤ 2147483647)
  | .jbutton _ which button =>
    decide (-2147483648 ≤ which ∧ which ≤ 2147483647 ∧ 0 ≤ button ∧ button ≤ 255)
  | .jaxis which axis value =>
    decide (-2147483648 ≤ which ∧ which ≤ 2147483647 ∧ 0 ≤ axis ∧ axis ≤ 255 ∧
      -32768 ≤ value ∧ value ≤ 32767)
  | .jhat which hat value =>
    decide (-2147483648 ≤ which ∧ which ≤ 2147483647 ∧ hat ≤ 255 ∧ value ≤ 255)
  | .jrumble _ => true

/-- Tables with two joysticks, the instance `i` being the joystick `i`. -/
def joy_index_example : JoyIndex :=
  { instanceIdToIndex := fun i => i, joysticks := fun i => decide (i = 0 ∨ i = 1) }

/-! ## events.c: the slots of the buffer that `preprocess_events` touches -/

/-- The slots that `memmove(events + dst, events + src, n * sizeof(GE_Event))`
reads and writes. -/
def memmove_slots (dst src n : Nat) : List Nat := List.range' src n ++ List.range' dst n

/-- The slots touched by the insertion of a button event in state `s`:
`memmove(event+1, event, (events + numevents - event)*sizeof(GE_Event))`, the
writes to the members of `*event` and the reads of `*(event+1)`. -/
def insert_button_slots (s : PPState) : List Nat :=
  memmove_slots (s.pos + 1) s.pos (s.events.length - s.pos) ++
    [s.pos, s.pos + 1, s.pos, s.pos + 1, s.pos]

/-- The slots touched by one run of the body of the loop over the hat
directions: `event->jhat.value` and `get_joystick_hat(event)` read the slot
under the cursor, an insertion touches the slots of `insert_button_slots`. -/
def hat_dir_body_slots (jt : JoyTables) (which : Int) (hat value : Nat) (hat_dir : Nat)
    (s : PPState) : List Nat :=
  if value &&& hat_dir ≠ 0 then
    if ¬ (get_joystick_hat jt s.joystickHat which hat &&& hat_dir ≠ 0) then
      [s.pos, s.pos] ++ insert_button_slots s
    else [s.pos, s.pos]
  else
    if get_joystick_hat jt s.joystickHat which hat &&& hat_dir ≠ 0 then
      [s.pos, s.pos] ++ insert_button_slots s
    else [s.pos, s.pos]

/-- The slots touched by the loop over the hat directions (the test
`event < events + numevents` compares pointers and touches none). -/
def hat_loop_slots (EVENT_BUFFER_SIZE : Nat) (jt : JoyTables) (which : Int) (hat value : Nat) :
    List Nat → PPState → List Nat
  | [], _ => []
  | hat_dir :: dirs, s =>
    if s.pos < s.events.length then
      hat_dir_body_slots jt which hat value hat_dir s ++
        match hat_dir_body EVENT_BUFFER_SIZE jt which hat value hat_dir s with
        | .full _ => []
        | .cont s1 => hat_loop_slots EVENT_BUFFER_SIZE jt which hat value dirs s1
    else []

/-- The slots touched by the loop over the events, with the bound on the
number of iterations of `events_loop`: `event->type` reads the slot under the
cursor; after the loop over the directions `set_joystick_hat(event)` reads it
again and `memmove(event, event+1, (events + numevents - event - 1)*sizeof(GE_Event))`
removes the hat event. -/
def events_loop_slots (EVENT_BUFFER_SIZE : Nat) (jt : JoyTables) :
    Nat → PPState → Option (List Nat)
  | 0, s => if s.pos < s.events.length then none else some []
  | fuel + 1, s =>
    match s.events[s.pos]? with
    | none => some []
    | some (.jhat which hat value) =>
      match hat_loop EVENT_BUFFER_SIZE jt which hat value hat_dirs s with
      | .full _ =>
        some (s.pos :: hat_loop_slots EVENT_BUFFER_SIZE jt which hat value hat_dirs s)
      | .cont s1 =>
        (events_loop_slots EVENT_BUFFER_SIZE jt fuel
          { events := s1.events.eraseIdx s1.pos
            pos := s1.pos
            joystickHat := set_joystick_hat jt s1.joystickHat which hat value }).map
          (fun slots => s.pos :: hat_loop_slots EVENT_BUFFER_SIZE jt which hat value hat_dirs s ++
            s1.pos :: memmove_slots s1.pos (s1.pos + 1) (s1.events.length - s1.pos - 1) ++ slots)
    | some _ =>
      (events_loop_slots EVENT_BUFFER_SIZE jt fuel { s with pos := s.pos + 1 }).map
        (fun slots => s.pos :: slots)

/-- The slots of the buffer that `preprocess_events(events, numevents)`
touches: none when it returns at once. -/
def preprocess_events_slots (EVENT_BUFFER_SIZE : Nat) (jt : JoyTables) (joystickHat : HatTable)
    (events : List GE_Event) : Option (List Nat) :=
  if events.length = EVENT_BUFFER_SIZE then some []
  else
    events_loop_slots EVENT_BUFFER_SIZE jt events.length
      { events := events, pos := 0, joystickHat := joystickHat }

/-- The loop of `ev_peep_events` over the events that `SDL_PeepEvents`
delivered: `convert_s2g(events+i, ev+j)` writes the slot `j` of the buffer
`ev` of the caller, `j` being the number of events converted so far (the
length of `converted`), and `j++` follows when it returns a non-zero value. -/
def ev_peep_convert (t : JoyIndex) (ev : Nat → GE_Event) :
    List SDL_Event → List GE_Event → List GE_Event
  | [], converted => converted
  | se :: rest, converted =>
    if (convert_s2g t se (ev converted.length)).1 ≠ 0 then
      ev_peep_convert t ev rest (converted ++ [(convert_s2g t se (ev converted.length)).2])
    else ev_peep_convert t ev rest converted

/-- The function `ev_peep_events(ev, size)`.  The parameter `SDL_PeepEvents`
gives, for the number of events asked for, the events that SDL delivers
(`none` when it returns -1, the loop is not entered then); `ev` is the content
of the buffer of the caller on entry. -/
def ev_peep_events (EVENT_BUFFER_SIZE : Nat) (jt : JoyTables) (joystickHat : HatTable)
    (t : JoyIndex) (SDL_PeepEvents : Int → Option (List SDL_Event)) (ev : Nat → GE_Event)
    (size : Int) : Option PPResult :=
  let size := if size > (EVENT_BUFFER_SIZE : Int) then (EVENT_BUFFER_SIZE : Int) else size
  let peeped :=
    match SDL_PeepEvents size with
    | some events => events
    | none => []
  preprocess_events EVENT_BUFFER_SIZE jt joystickHat (ev_peep_convert t ev peeped [])

/-! ## Theorems on events.c -/

theorem hat_dir_body_eq (EBS : Nat) (jt : JoyTables) (w : Int) (h v d : Nat)
    (pre rest : List GE_Event) (hats : HatTable) :
    (∃ s1, hat_dir_body EBS jt w h v d ⟨pre ++ .jhat w h v :: rest, pre.length, hats⟩ = .full s1) ∨
    hat_dir_body EBS jt w h v d ⟨pre ++ .jhat w h v :: rest, pre.length, hats⟩ =
      .cont ⟨(pre ++ hat_edge jt hats w h v d) ++ .jhat w h v :: rest,
        (pre ++ hat_edge jt hats w h v d).length, hats⟩ := by
  unfold hat_dir_body hat_edge insert_button
  by_cases hv : v &&& d ≠ 0 <;> by_cases hp : get_joystick_hat jt hats w h &&& d ≠ 0 <;>
    simp [hv, hp]
  all_goals split_ifs <;> simp_all

theorem hat_loop_eq (EBS : Nat) (jt : JoyTables) (w : Int) (h v : Nat)
    (rest : List GE_Event) (hats : HatTable) :
    ∀ (dirs : List Nat) (pre : List GE_Event),
    (∃ s1, hat_loop EBS jt w h v dirs ⟨pre ++ .jhat w h v :: rest, pre.length, hats⟩ = .full s1) ∨
    hat_loop EBS jt w h v dirs ⟨pre ++ .jhat w h v :: rest, pre.length, hats⟩ =
      .cont ⟨(pre ++ hat_edges jt hats w h v dirs) ++ .jhat w h v :: rest,
        (pre ++ hat_edges jt hats w h v dirs).length, hats⟩ := by
  intro dirs
  induction dirs with
  | nil => intro pre; right; simp [hat_loop, hat_edges]
  | cons d ds ih =>
    intro pre
    have hpos : pre.length < (pre ++ GE_Event.jhat w h v :: rest).length := by simp
    rcases hat_dir_body_eq EBS jt w h v d pre rest hats with ⟨s1, hs1⟩ | hc
    · left; exact ⟨s1, by simp [hat_loop, hs1]⟩
    · rcases ih (pre ++ hat_edge jt hats w h v d) with ⟨s1, hs1⟩ | hc2
      · left; refine ⟨s1, ?_⟩
        rw [hat_loop, if_pos hpos, hc]; exact hs1
      · right
        rw [hat_loop, if_pos hpos, hc]
        simpa [hat_edges, List.append_assoc] using hc2

theorem events_loop_eq (EBS : Nat) (jt : JoyTables) :
    ∀ (rest pre : List GE_Event) (hats : HatTable) (fuel : Nat), rest.length ≤ fuel →
    (∃ evs h1, events_loop EBS jt fuel ⟨pre ++ rest, pre.length, hats⟩ = some (.full evs h1)) ∨
    events_loop EBS jt fuel ⟨pre ++ rest, pre.length, hats⟩ =
      some (.done (pre ++ translate jt hats rest).length (pre ++ translate jt hats rest)
        (hats_after jt hats rest)) := by
  intro rest
  induction rest with
  | nil =>
    intro pre hats fuel _
    right
    cases fuel <;> simp [events_loop, translate, hats_after]
  | cons e rest ih =>
    intro pre hats fuel hfuel
    obtain ⟨fuel, rfl⟩ : ∃ f, fuel = f + 1 := ⟨fuel - 1, by simp at hfuel; omega⟩
    have hfuel1 : rest.length ≤ fuel := by simpa using hfuel
    have hget : (pre ++ e :: rest)[pre.length]? = some e := by
      rw [List.getElem?_append_right (le_refl _)]; simp
    by_cases hhat : ∃ w h v, e = GE_Event.jhat w h v
    · obtain ⟨w, h, v, rfl⟩ := hhat
      rw [events_loop]
      simp only [hget]
      rcases hat_loop_eq EBS jt w h v rest hats hat_dirs pre with ⟨s1, hs1⟩ | hc
      · left; exact ⟨s1.events, s1.joystickHat, by rw [hs1]⟩
      · rw [hc]
        have herase : ((pre ++ hat_edges jt hats w h v hat_dirs) ++ GE_Event.jhat w h v :: rest).eraseIdx
            (pre ++ hat_edges jt hats w h v hat_dirs).length
            = (pre ++ hat_edges jt hats w h v hat_dirs) ++ rest := by
          rw [List.eraseIdx_append_of_length_le (le_refl _)]
          simp
        simp only [herase]
        have := ih (pre ++ hat_edges jt hats w h v hat_dirs) (set_joystick_hat jt hats w h v) fuel hfuel1
        simpa [translate, replacement, hats_after, hat_after] using this
    · have hstep : events_loop EBS jt (fuel + 1) ⟨pre ++ e :: rest, pre.length, hats⟩ =
          events_loop EBS jt fuel ⟨(pre ++ [e]) ++ rest, (pre ++ [e]).length, hats⟩ := by
        rw [events_loop]
        simp only [hget]
        cases e
        case jhat w h v => exact absurd ⟨_, _, _, rfl⟩ hhat
        all_goals simp
      have htr : translate jt hats (e :: rest) = e :: translate jt hats rest := by
        cases e
        case jhat w h v => exact absurd ⟨_, _, _, rfl⟩ hhat
        all_goals simp [translate, replacement, hat_after]
      have hha : hats_after jt hats (e :: rest) = hats_after jt hats rest := by
        cases e
        case jhat w h v => exact absurd ⟨_, _, _, rfl⟩ hhat
        all_goals simp [hats_after, hat_after]
      rw [hstep, htr, hha]
      have := ih (pre ++ [e]) hats fuel hfuel1
      simpa using this


theorem mem_hat_edge (jt : JoyTables) (hats : HatTable) (w : Int) (h v d : Nat) (e : GE_Event) :
    e ∈ hat_edge jt hats w h v d ↔
      (e = .jbutton true w (joystick_hat_button jt w h d) ∧
          v &&& d ≠ 0 ∧ get_joystick_hat jt hats w h &&& d = 0) ∨
      (e = .jbutton false w (joystick_hat_button jt w h d) ∧
          v &&& d = 0 ∧ get_joystick_hat jt hats w h &&& d ≠ 0) := by
  unfold hat_edge
  by_cases hv : v &&& d = 0 <;> by_cases hp : get_joystick_hat jt hats w h &&& d = 0 <;>
    simp [hv, hp]

theorem mem_hat_edges (jt : JoyTables) (hats : HatTable) (w : Int) (h v : Nat) (e : GE_Event) :
    ∀ dirs : List Nat, e ∈ hat_edges jt hats w h v dirs ↔
      ∃ d ∈ dirs, e ∈ hat_edge jt hats w h v d := by
  intro dirs
  induction dirs with
  | nil => simp [hat_edges]
  | cons d ds ih => simp [hat_edges, ih]

theorem translate_no_hat (jt : JoyTables) :
    ∀ (evs : List GE_Event) (hats : HatTable), ∀ e ∈ translate jt hats evs,
      e.type ≠ .GE_JOYHATMOTION := by
  intro evs
  induction evs with
  | nil => intro hats e he; simp [translate] at he
  | cons x rest ih =>
    intro hats e he
    rw [translate, List.mem_append] at he
    rcases he with he | he
    · cases x
      case jhat w h v =>
        obtain ⟨d, _, hed⟩ := (mem_hat_edges jt hats w h v e hat_dirs).1 he
        rcases (mem_hat_edge jt hats w h v d e).1 hed with ⟨rfl, _⟩ | ⟨rfl, _⟩ <;>
          simp [GE_Event.type]
      case jrumble w =>
        simp only [replacement, List.mem_singleton] at he
        subst he
        simp [GE_Event.type]
      all_goals
        simp only [replacement, List.mem_singleton] at he
        subst he
        rename_i a b c
        cases a <;> simp [GE_Event.type]
    · exact ih _ e he

theorem translate_sublist (jt : JoyTables) :
    ∀ (evs : List GE_Event) (hats : HatTable),
      (evs.filter (fun e => decide (e.type ≠ .GE_JOYHATMOTION))).Sublist (translate jt hats evs) := by
  intro evs
  induction evs with
  | nil => intro hats; simp [translate]
  | cons x rest ih =>
    intro hats
    by_cases hx : x.type = .GE_JOYHATMOTION
    · rw [List.filter_cons_of_neg (by simp [hx]), translate]
      exact (ih _).trans (List.sublist_append_right _ _)
    · rw [List.filter_cons_of_pos (by simp [hx])]
      have hr : translate jt hats (x :: rest) = x :: translate jt hats rest := by
        cases x
        case jhat w h v => exact absurd rfl hx
        all_goals simp [translate, replacement, hat_after]
      rw [hr]
      exact (ih _).cons₂ x

theorem translate_length (jt : JoyTables) :
    ∀ (evs : List GE_Event) (hats : HatTable),
      (translate jt hats evs).length + hat_count evs =
        evs.length + synthetic_count jt hats evs := by
  intro evs
  induction evs with
  | nil => intro hats; simp [translate, hat_count, synthetic_count]
  | cons x rest ih =>
    intro hats
    cases x
    case jhat w h v =>
      have := ih (set_joystick_hat jt hats w h v)
      simp only [translate, replacement, hat_after, hat_count, synthetic_count,
        List.length_append, List.length_cons]
      omega
    all_goals
      have := ih hats
      simp only [translate, replacement, hat_after, hat_count, synthetic_count,
        List.length_append, List.length_cons, List.length_nil]
      omega

theorem hat_count_le (evs : List GE_Event) : hat_count evs ≤ evs.length := by
  induction evs with
  | nil => simp [hat_count]
  | cons x rest ih => cases x <;> simp [hat_count] <;> omega

theorem preprocess_events_eq (EBS : Nat) (jt : JoyTables) (hats : HatTable)
    (evs : List GE_Event) :
    (∃ out h1, preprocess_events EBS jt hats evs = some (.full out h1)) ∨
    preprocess_events EBS jt hats evs =
      some (.done (translate jt hats evs).length (translate jt hats evs)
        (hats_after jt hats evs)) := by
  unfold preprocess_events
  split_ifs with hfull
  · left; exact ⟨_, _, rfl⟩
  · simpa using events_loop_eq EBS jt evs [] hats evs.length (le_refl _)

/-- C2: when `preprocess_events` does not come back through a return of
`EVENT_BUFFER_SIZE`, it returns, and the buffer then holds the input sequence
with every hat event replaced at its own position by its button events in
ascending direction order: no hat event is left, the other events are kept in
order, and the count is the input count minus the hat events plus the
synthetic events. -/
theorem preprocess_events_translates (EVENT_BUFFER_SIZE : Nat) (jt : JoyTables)
    (joystickHat : HatTable) (events : List GE_Event)
    (hroom : ∀ r, preprocess_events EVENT_BUFFER_SIZE jt joystickHat events = some r →
      r.isFull = false) :
    ∃ r, preprocess_events EVENT_BUFFER_SIZE jt joystickHat events = some r ∧
      r.events = translate jt joystickHat events ∧
      r.count EVENT_BUFFER_SIZE = r.events.length ∧
      (∀ e ∈ r.events, e.type ≠ .GE_JOYHATMOTION) ∧
      (events.filter (fun e => decide (e.type ≠ .GE_JOYHATMOTION))).Sublist r.events ∧
      r.count EVENT_BUFFER_SIZE =
        events.length - hat_count events + synthetic_count jt joystickHat events := by
  rcases preprocess_events_eq EVENT_BUFFER_SIZE jt joystickHat events with ⟨out, h1, hf⟩ | hd
  · have := hroom _ hf
    simp [PPResult.isFull] at this
  · refine ⟨_, hd, rfl, rfl, translate_no_hat jt events joystickHat,
      translate_sublist jt events joystickHat, ?_⟩
    have h1 := translate_length jt events joystickHat
    have h2 := hat_count_le events
    simp only [PPResult.count]
    omega

/-- A key event, the hat event 1 -> 3 and an axis event: three events come back. -/
theorem preprocess_events_translates_witness :
    ∃ r, preprocess_events 256 jt_example (fun _ _ => 1)
        [.key true 0 5, .jhat 0 0 3, .jaxis 0 1 7] = some r ∧
      r.events = [.key true 0 5, .jbutton true 0 11, .jaxis 0 1 7] ∧
      r.count 256 = 3 := by
  obtain ⟨r, hr, hev, hc, _, _, _⟩ :=
    preprocess_events_translates 256 jt_example (fun _ _ => 1)
      [.key true 0 5, .jhat 0 0 3, .jaxis 0 1 7]
      (by intro r hr; cases Option.some.inj hr; rfl)
  exact ⟨r, hr, by rw [hev]; rfl, by rw [hc, hev]; rfl⟩

/-! ## Theorems on config_reader.c -/

theorem GetDoubleProp_status (a_node : xmlNode) (a_attr : String) (cur : CDouble) :
    (GetDoubleProp a_node a_attr cur).1 = 0 ∨ (GetDoubleProp a_node a_attr cur).1 = -1 := by
  unfold GetDoubleProp
  cases xmlGetProp a_node a_attr <;> simp

theorem length_eq_zero_iff (s : String) : s.length = 0 ↔ s = "" := by
  constructor
  · intro h
    have : s.data = [] := List.length_eq_zero.mp h
    exact String.ext this
  · rintro rfl; rfl

theorem GetIntProp_status (env : Env) (a_node : xmlNode) (a_attr : String) (cur : Int) :
    ((GetIntProp env a_node a_attr cur).1 = -1 ↔
      xmlGetProp a_node a_attr = none ∨ xmlGetProp a_node a_attr = some "") ∧
    ((GetIntProp env a_node a_attr cur).1 ≠ -1 → (GetIntProp env a_node a_attr cur).1 = 0) := by
  unfold GetIntProp
  cases h : xmlGetProp a_node a_attr with
  | none => simp
  | some val =>
    by_cases hv : val.length = 0
    · simp [hv, (length_eq_zero_iff val).1 hv]
    · have : val ≠ "" := fun hc => hv ((length_eq_zero_iff val).2 hc)
      simp [hv, this]

/-- What `GetDeviceId` leaves untouched and which calls it makes. -/
theorem GetDeviceId_frame (env : Env) (a_node : xmlNode) (st : LoadState) :
    ((GetDeviceId env a_node st).1 = -1 ↔
      xmlGetProp a_node env.defs.X_ATTR_ID = none ∨ xmlGetProp a_node env.defs.X_ATTR_ID = some "") ∧
    (∃ added, (GetDeviceId env a_node st).2.calls = st.calls ++ added ∧
      ∀ c ∈ added, (∃ i, c = .GE_SetJoystickUsed i) ∨ (∃ m, c = .GE_SetMKMode m)) ∧
    (GetDeviceId env a_node st).2.entry.mouse_options_mode = st.entry.mouse_options_mode ∧
    (GetDeviceId env a_node st).2.entry.mouse_options_buffer_size =
      st.entry.mouse_options_buffer_size ∧
    (GetDeviceId env a_node st).2.entry.mouse_options_filter = st.entry.mouse_options_filter := by
  obtain ⟨h1, h2⟩ := GetIntProp_status env a_node env.defs.X_ATTR_ID st.entry.device_id
  unfold GetDeviceId
  generalize GetIntProp env a_node env.defs.X_ATTR_ID st.entry.device_id = r at h1 h2
  obtain ⟨ret, id⟩ := r
  simp only at h1 h2 ⊢
  by_cases hr : ret = -1
  · subst hr
    simp only [ne_eq, not_true_eq_false, if_false]
    exact ⟨by simpa using h1, ⟨[], by simp⟩, by trivial, by trivial, by trivial⟩
  · have h0 := h2 hr
    subst h0
    have hno : ¬ (xmlGetProp a_node env.defs.X_ATTR_ID = none ∨
        xmlGetProp a_node env.defs.X_ATTR_ID = some "") := fun hc => hr (h1.2 hc)
    simp only [ne_eq, hr, not_false_eq_true, if_true]
    split_ifs
    · split
      · refine ⟨by simpa using hno, ⟨_, rfl, ?_⟩, by trivial, by trivial, by trivial⟩
        intro c hc; left; rw [List.mem_singleton] at hc; exact ⟨_, hc⟩
      · exact ⟨by simpa using hno, ⟨[], by simp⟩, by trivial, by trivial, by trivial⟩
    · exact ⟨by simpa using hno, ⟨[], by simp⟩, by trivial, by trivial, by trivial⟩
    · refine ⟨by simpa using hno, ⟨_, rfl, ?_⟩, by trivial, by trivial, by trivial⟩
      intro c hc; right; rw [List.mem_singleton] at hc; exact ⟨_, hc⟩
    · split
      · exact ⟨by simpa using hno, ⟨[], by simp⟩, by trivial, by trivial, by trivial⟩
      · exact ⟨by simpa using hno, ⟨[], by simp⟩, by trivial, by trivial, by trivial⟩
    · split
      · exact ⟨by simpa using hno, ⟨[], by simp⟩, by trivial, by trivial, by trivial⟩
      · exact ⟨by simpa using hno, ⟨[], by simp⟩, by trivial, by trivial, by trivial⟩
    · exact ⟨by simpa using hno, ⟨[], by simp⟩, by trivial, by trivial, by trivial⟩

/-- C10: in single-input mode, `GetDeviceId` on a keyboard or mouse device
with a present, non-empty `id` attribute stores device id 0 and returns 0,
whatever the id text and the device name; on a joystick device it still
searches the enumerated joysticks for the name and the virtual id, returning
0 with the index found, or 1 with the id as parsed. -/
theorem single_input_collapses_id (env : Env) (a_node : xmlNode) (val : String) (st : LoadState)
    (hid : xmlGetProp a_node env.defs.X_ATTR_ID = some val) (hval : val ≠ "")
    (hmode : st.mk_mode = .GE_MK_MODE_SINGLE_INPUT) :
    ((st.entry.device_type = .E_DEVICE_TYPE_KEYBOARD ∨
        st.entry.device_type = .E_DEVICE_TYPE_MOUSE) →
      GetDeviceId env a_node st = (0, { st with entry := { st.entry with device_id := 0 } })) ∧
    (st.entry.device_type = .E_DEVICE_TYPE_JOYSTICK →
      GetDeviceId env a_node st =
        match device_search env.GE_JoystickName env.GE_JoystickVirtualId st.r_device_name
            (env.atoi val) env.MAX_DEVICES 0 with
        | some i =>
          (0, { st with
            entry := { st.entry with device_id := (i : Int) }
            calls := st.calls ++ [.GE_SetJoystickUsed i] })
        | none => (1, { st with entry := { st.entry with device_id := env.atoi val } })) := by
  have hlen : val.length ≠ 0 := fun hc => hval ((length_eq_zero_iff val).1 hc)
  constructor
  · intro htype
    unfold GetDeviceId GetIntProp
    rcases htype with h | h <;> simp [hid, hlen, h, hmode]
  · intro htype
    unfold GetDeviceId GetIntProp
    simp [hid, hlen, htype]
    split <;> simp [LoadState.call]

/-- Keyboard `kbd` with id 3 in single-input mode: id 0, status 0. -/
theorem single_input_collapses_id_witness :
    GetDeviceId env_example
        (element "device" [("type", "keyboard"), ("id", "3"), ("name", "kbd")] [])
        { state_zero with
          entry := { entry_zero with device_type := .E_DEVICE_TYPE_KEYBOARD }
          mk_mode := .GE_MK_MODE_SINGLE_INPUT, r_device_name := "kbd" } =
      (0, { state_zero with
          entry := { entry_zero with device_type := .E_DEVICE_TYPE_KEYBOARD, device_id := 0 }
          mk_mode := .GE_MK_MODE_SINGLE_INPUT, r_device_name := "kbd" }) :=
  (single_input_collapses_id env_example
    (element "device" [("type", "keyboard"), ("id", "3"), ("name", "kbd")] []) "3"
    { state_zero with
      entry := { entry_zero with device_type := .E_DEVICE_TYPE_KEYBOARD }
      mk_mode := .GE_MK_MODE_SINGLE_INPUT, r_device_name := "kbd" }
    (by decide) (by decide) rfl).1 (Or.inl rfl)

theorem GetDeviceName_calls (env : Env) (a_node : xmlNode) (st : LoadState) :
    (GetDeviceName env a_node st).2.calls = st.calls := by
  unfold GetDeviceName
  cases xmlGetProp a_node env.defs.X_ATTR_NAME <;> rfl

theorem GetDeviceTypeProp_calls (env : Env) (a_node : xmlNode) (st : LoadState) :
    (GetDeviceTypeProp env a_node st).2.calls = st.calls := by
  unfold GetDeviceTypeProp
  cases xmlGetProp a_node env.defs.X_ATTR_TYPE with
  | none => rfl
  | some type => simp only; split_ifs <;> rfl

theorem GetDeviceId_not_found_calls (env : Env) (a_node : xmlNode) (st : LoadState)
    (h : (GetDeviceId env a_node st).1 = 1) : (GetDeviceId env a_node st).2.calls = st.calls := by
  obtain ⟨h1, h2⟩ := GetIntProp_status env a_node env.defs.X_ATTR_ID st.entry.device_id
  revert h
  unfold GetDeviceId
  generalize GetIntProp env a_node env.defs.X_ATTR_ID st.entry.device_id = r at h1 h2
  obtain ⟨ret, id⟩ := r
  simp only at h1 h2 ⊢
  by_cases hr : ret = -1
  · subst hr; simp
  · have h0 := h2 hr
    subst h0
    simp only [ne_eq, hr, not_false_eq_true, if_true]
    split_ifs
    · split <;> simp
    · simp
    · simp
    · split <;> simp
    · split <;> simp
    · simp

theorem ProcessDeviceElement_not_found_calls (env : Env) (a_node : xmlNode) (st : LoadState)
    (h : (ProcessDeviceElement env a_node st).1 = 1) :
    (ProcessDeviceElement env a_node st).2.calls = st.calls := by
  revert h
  unfold ProcessDeviceElement
  have h1 := GetDeviceTypeProp_calls env a_node st
  generalize GetDeviceTypeProp env a_node st = r1 at h1
  obtain ⟨ret1, st1⟩ := r1
  simp only at h1 ⊢
  by_cases hr1 : ret1 = -1
  · simp [hr1]
  · simp only [ne_eq, hr1, not_false_eq_true, if_true]
    have h2 := GetDeviceName_calls env a_node st1
    generalize GetDeviceName env a_node st1 = r2 at h2
    obtain ⟨ret2, st2⟩ := r2
    simp only at h2 ⊢
    by_cases hr2 : ret2 = -1
    · simp [hr2]
    · simp only [hr2, not_false_eq_true, if_true]
      intro h
      rw [GetDeviceId_not_found_calls env a_node st2 h, h2, h1]

theorem ProcessAxisElement_device_skip (env : Env) (device : xmlNode) (next : List xmlNode)
    (hdevice : device.type = .XML_ELEMENT_NODE ∧ device.name = env.defs.X_NODE_DEVICE) :
    ∀ (skipped : List xmlNode) (st : LoadState),
      (∀ n ∈ skipped, n.type ≠ .XML_ELEMENT_NODE) →
      ProcessAxisElement_device env (skipped ++ device :: next) 0 st =
        (device :: next, ProcessDeviceElement env device st) := by
  intro skipped
  induction skipped with
  | nil => intro st _; simp [ProcessAxisElement_device, hdevice.1, hdevice.2]
  | cons n ns ih =>
    intro st hs
    have hn : n.type ≠ .XML_ELEMENT_NODE := hs n (by simp)
    rw [List.cons_append, ProcessAxisElement_device]
    simp only [hn, if_false]
    simpa using ih st (fun m hm => hs m (by simp [hm]))

theorem ProcessButtonElement_device_skip (env : Env) (device : xmlNode) (next : List xmlNode)
    (hdevice : device.type = .XML_ELEMENT_NODE ∧ device.name = env.defs.X_NODE_DEVICE) :
    ∀ (skipped : List xmlNode) (st : LoadState),
      (∀ n ∈ skipped, n.type ≠ .XML_ELEMENT_NODE) →
      ProcessButtonElement_device env (skipped ++ device :: next) 0 st =
        (device :: next, ProcessDeviceElement env device st) := by
  intro skipped
  induction skipped with
  | nil => intro st _; simp [ProcessButtonElement_device, hdevice.1, hdevice.2]
  | cons n ns ih =>
    intro st hs
    have hn : n.type ≠ .XML_ELEMENT_NODE := hs n (by simp)
    rw [List.cons_append, ProcessButtonElement_device]
    simp only [hn, if_false]
    exact ih st (fun m hm => hs m (by simp [hm]))

theorem Process_after_device_not_found (env : Env) (device : xmlNode) (next : List xmlNode)
    (st : LoadState) (hnext : next ≠ []) :
    Process_after_device env (device :: next) 1 st = some (1, st) := by
  cases next with
  | nil => exact absurd rfl hnext
  | cons n ns => simp [Process_after_device, Process_event_child]

/-- C6: when the `device` child of an axis or button element is followed by
another child and `ProcessDeviceElement` returns 1 for it (which it does only
when `GetDeviceId` reports the device as not found), the element returns 1,
not -1, the event child is not processed (no call is made, so no
`cfg_add_binding`), the loop of the enclosing `axis_map` or `button_map` goes
on with the next element, and a load that ends with a status other than -1
makes `read_config_file` return 0. -/
theorem device_not_found_is_not_fatal (env : Env) (a_node : xmlNode)
    (skipped : List xmlNode) (device : xmlNode) (next : List xmlNode) (st : LoadState)
    (hchildren : a_node.children = skipped ++ device :: next)
    (hskipped : ∀ n ∈ skipped, n.type ≠ .XML_ELEMENT_NODE)
    (hdevice : device.type = .XML_ELEMENT_NODE ∧ device.name = env.defs.X_NODE_DEVICE)
    (hnext : next ≠ []) :
    (∀ st1, ProcessDeviceElement env device
        { st with entry := { st.entry with mapper_axis_props :=
            env.controller_get_axis_index_from_name (xmlGetProp a_node env.defs.X_ATTR_ID) } } =
          (1, st1) →
      ProcessAxisElement env a_node st = some (1, st1) ∧ st1.calls = st.calls ∧
      ∀ rest, a_node.type = .XML_ELEMENT_NODE → a_node.name = env.defs.X_NODE_AXIS →
        ProcessAxisMapElement_loop env (a_node :: rest) 0 st =
          ProcessAxisMapElement_loop env rest 1 st1) ∧
    (∀ st2, ProcessDeviceElement env device
        { st with entry := { st.entry with mapper_axis_props :=
            { env.controller_get_axis_index_from_name (xmlGetProp a_node env.defs.X_ATTR_ID) with
              props := env.AXIS_PROP_TOGGLE } } } = (1, st2) →
      ProcessButtonElement env a_node st = some (1, st2) ∧ st2.calls = st.calls ∧
      ∀ rest, a_node.type = .XML_ELEMENT_NODE → a_node.name = env.defs.X_NODE_BUTTON →
        ProcessButtonMapElement_loop env (a_node :: rest) 0 st =
          ProcessButtonMapElement_loop env rest 1 st2) ∧
    (∀ doc s ret s1, read_file env doc s = some (ret, s1) → ret ≠ -1 →
      read_config_file env doc s = some (0, s1)) := by
  refine ⟨?_, ?_, ?_⟩
  · intro st1 haxis
    have ha : ProcessAxisElement env a_node st = some (1, st1) := by
      unfold ProcessAxisElement
      simp only [hchildren,
        ProcessAxisElement_device_skip env device next hdevice skipped _ hskipped, haxis]
      exact Process_after_device_not_found env device next st1 hnext
    refine ⟨ha, ?_, ?_⟩
    · have := ProcessDeviceElement_not_found_calls env device _ (by rw [haxis])
      rw [haxis] at this
      exact this
    · intro rest ht hn
      rw [ProcessAxisMapElement_loop]
      simp [ht, hn, ha]
  · intro st2 hbutton
    have hb : ProcessButtonElement env a_node st = some (1, st2) := by
      unfold ProcessButtonElement
      simp only [hchildren,
        ProcessButtonElement_device_skip env device next hdevice skipped _ hskipped, hbutton]
      exact Process_after_device_not_found env device next st2 hnext
    refine ⟨hb, ?_, ?_⟩
    · have := ProcessDeviceElement_not_found_calls env device _ (by rw [hbutton])
      rw [hbutton] at this
      exact this
    · intro rest ht hn
      rw [ProcessButtonMapElement_loop]
      simp [ht, hn, hb]
  · intro doc s ret s1 hrf hret
    simp [read_config_file, hrf, hret]

theorem GetDeviceTypeProp_status (env : Env) (a_node : xmlNode) (st : LoadState) :
    (GetDeviceTypeProp env a_node st).1 = 0 ∨ (GetDeviceTypeProp env a_node st).1 = -1 := by
  unfold GetDeviceTypeProp
  cases xmlGetProp a_node env.defs.X_ATTR_TYPE with
  | none => simp
  | some type => simp only; split_ifs <;> simp

theorem GetDeviceName_status (env : Env) (a_node : xmlNode) (st : LoadState) :
    (GetDeviceName env a_node st).1 = 0 ∨ (GetDeviceName env a_node st).1 = -1 := by
  unfold GetDeviceName
  cases xmlGetProp a_node env.defs.X_ATTR_NAME <;> simp

/-- `ProcessDeviceElement` returns 1 only when it reaches `GetDeviceId` and
`GetDeviceId` returns 1. -/
theorem ProcessDeviceElement_not_found (env : Env) (a_node : xmlNode) (st : LoadState)
    (h : (ProcessDeviceElement env a_node st).1 = 1) :
    ∃ s, ProcessDeviceElement env a_node st = GetDeviceId env a_node s ∧
      (GetDeviceId env a_node s).1 = 1 := by
  revert h
  unfold ProcessDeviceElement
  have h1 := GetDeviceTypeProp_status env a_node st
  generalize GetDeviceTypeProp env a_node st = r1 at h1 ⊢
  obtain ⟨ret1, s1⟩ := r1
  simp only at h1 ⊢
  have h2 := GetDeviceName_status env a_node s1
  generalize GetDeviceName env a_node s1 = r2 at h2 ⊢
  obtain ⟨ret2, s2⟩ := r2
  simp only at h2 ⊢
  rcases h1 with rfl | rfl <;> rcases h2 with rfl | rfl <;> simp
  exact fun h => ⟨s2, rfl, h⟩

/-- The joystick `wheel` is not enumerated: its axis element returns 1 without a
call, and the file that ends with it loads with status 0 and the three calls
of the key binding. -/
theorem device_not_found_is_not_fatal_witness :
    (ProcessAxisElement env_example axis_wheel state_zero).map (fun r => (r.1, r.2.calls)) =
      some (1, []) ∧
    (read_config_file env_example doc_wheel state_zero).map (fun r => (r.1, r.2.calls.length)) =
      some (0, 3) := by
  have h := device_not_found_is_not_fatal env_example axis_wheel [text_node]
    (element "device" [("type", "joystick"), ("id", "0"), ("name", "wheel")] [])
    [text_node, element "event" [("type", "axis"), ("id", "0")] [], text_node]
    state_zero rfl (by decide) (by decide) (by simp)
  have ha := h.1
    (ProcessDeviceElement env_example
      (element "device" [("type", "joystick"), ("id", "0"), ("name", "wheel")] [])
      { state_zero with entry := { entry_zero with mapper_axis_props := ⟨0, 0⟩ } }).2 rfl
  refine ⟨by rw [ha.1]; rfl, ?_⟩
  have hret : (read_file env_example doc_wheel state_zero).map (fun r => (r.1, r.2.calls.length)) =
      some (1, 3) := by decide
  rcases hrf : read_file env_example doc_wheel state_zero with _ | ⟨ret, s1⟩
  · rw [hrf] at hret; cases hret
  · rw [hrf] at hret
    simp only [Option.map_some', Option.some.injEq, Prod.mk.injEq] at hret
    rw [h.2.2 doc_wheel state_zero ret s1 hrf (by rw [hret.1]; decide)]
    simp [hret.2]

/-- The id check of `ProcessControllerElement`: a present id `n` (an `int`)
passes iff `1 <= n <= MAX_CONTROLLERS`, the stored id is then `n - 1`, and a
rejected id makes `ProcessControllerElement` return -1. -/
theorem ProcessControllerElement_id_range (env : Env) (a_node : xmlNode) (val : String)
    (st : LoadState)
    (hid : xmlGetProp a_node env.defs.X_ATTR_ID = some val)
    (hint : -2147483648 ≤ env.atoi val ∧ env.atoi val ≤ 2147483647)
    (hmax : env.MAX_CONTROLLERS ≤ 2147483647) :
    ((ProcessControllerElement_id env a_node st).1 ≠ -1 ↔
      1 ≤ env.atoi val ∧ env.atoi val ≤ env.MAX_CONTROLLERS) ∧
    ((ProcessControllerElement_id env a_node st).1 ≠ -1 →
      ((ProcessControllerElement_id env a_node st).2.entry.controller_id : Int) =
        env.atoi val - 1) ∧
    ((ProcessControllerElement_id env a_node st).1 = -1 →
      ∃ st1, ProcessControllerElement env a_node st = some (-1, st1)) := by
  have hdec : ((unsigned_decr (to_unsigned (env.atoi val)) : Nat) : Int) =
      (env.atoi val % 4294967296 + 4294967295) % 4294967296 := by
    unfold unsigned_decr to_unsigned
    split_ifs <;> omega
  have hcmp : unsigned_decr (to_unsigned (env.atoi val)) ≥ env.MAX_CONTROLLERS ↔
      ¬ (1 ≤ env.atoi val ∧ env.atoi val ≤ env.MAX_CONTROLLERS) := by
    have : (unsigned_decr (to_unsigned (env.atoi val)) ≥ env.MAX_CONTROLLERS) ↔
        ((unsigned_decr (to_unsigned (env.atoi val)) : Nat) : Int) ≥ env.MAX_CONTROLLERS := by
      omega
    rw [this, hdec]
    omega
  refine ⟨?_, ?_, ?_⟩
  · unfold ProcessControllerElement_id GetUnsignedIntProp
    simp only [hid]
    by_cases hc : unsigned_decr (to_unsigned (env.atoi val)) ≥ env.MAX_CONTROLLERS
    · simp [hc, hcmp.1 hc]
    · have := not_not.1 (mt hcmp.2 hc)
      simp [hc, this]
  · unfold ProcessControllerElement_id GetUnsignedIntProp
    simp only [hid]
    by_cases hc : unsigned_decr (to_unsigned (env.atoi val)) ≥ env.MAX_CONTROLLERS
    · simp [hc]
    · have := not_not.1 (mt hcmp.2 hc)
      simp [hc]
      rw [hdec]
      omega
  · intro hrej
    unfold ProcessControllerElement
    generalize ProcessControllerElement_id env a_node st = r at hrej
    obtain ⟨ret, s⟩ := r
    simp only at hrej
    subst hrej
    cases hch : a_node.children <;> simp [ProcessControllerElement_loop]

/-- The id check of `ProcessConfigurationElement`: a present id `n` (an
`int`) passes iff `1 <= n <= MAX_CONFIGURATIONS`, and the stored id is then
`n - 1`. -/
theorem ProcessConfigurationElement_id_range (env : Env) (a_node : xmlNode) (val : String)
    (st : LoadState)
    (hid : xmlGetProp a_node env.defs.X_ATTR_ID = some val)
    (hint : -2147483648 ≤ env.atoi val ∧ env.atoi val ≤ 2147483647)
    (hmax : env.MAX_CONFIGURATIONS ≤ 2147483647) :
    ((ProcessConfigurationElement_id env a_node st).1 ≠ -1 ↔
      1 ≤ env.atoi val ∧ env.atoi val ≤ env.MAX_CONFIGURATIONS) ∧
    ((ProcessConfigurationElement_id env a_node st).1 ≠ -1 →
      ((ProcessConfigurationElement_id env a_node st).2.entry.config_id : Int) =
        env.atoi val - 1) := by
  have hdec : ((unsigned_decr (to_unsigned (env.atoi val)) : Nat) : Int) =
      (env.atoi val % 4294967296 + 4294967295) % 4294967296 := by
    unfold unsigned_decr to_unsigned
    split_ifs <;> omega
  have hcmp : unsigned_decr (to_unsigned (env.atoi val)) ≥ env.MAX_CONFIGURATIONS ↔
      ¬ (1 ≤ env.atoi val ∧ env.atoi val ≤ env.MAX_CONFIGURATIONS) := by
    have : (unsigned_decr (to_unsigned (env.atoi val)) ≥ env.MAX_CONFIGURATIONS) ↔
        ((unsigned_decr (to_unsigned (env.atoi val)) : Nat) : Int) ≥ env.MAX_CONFIGURATIONS := by
      omega
    rw [this, hdec]
    omega
  refine ⟨?_, ?_⟩
  · unfold ProcessConfigurationElement_id GetUnsignedIntProp
    simp only [hid]
    by_cases hc : unsigned_decr (to_unsigned (env.atoi val)) ≥ env.MAX_CONFIGURATIONS
    · simp [hc, hcmp.1 hc]
    · have := not_not.1 (mt hcmp.2 hc)
      simp [hc, this]
  · unfold ProcessConfigurationElement_id GetUnsignedIntProp
    simp only [hid]
    by_cases hc : unsigned_decr (to_unsigned (env.atoi val)) ≥ env.MAX_CONFIGURATIONS
    · simp [hc]
    · have := not_not.1 (mt hcmp.2 hc)
      simp [hc]
      rw [hdec]
      omega

/-- C3, at the failing input: the configuration element with id 0 whose
`trigger` child is directly followed by a `mouse_options_list` child fails the
id check (status -1, stored id 4294967295), yet `ProcessConfigurationElement`
returns 0 for it: the loop over the mouse options list does not look at the
status and overwrites it. -/
theorem configuration_id_zero_returns_zero :
    (ProcessConfigurationElement_id env_example configuration_id_zero state_zero).1 = -1 ∧
    (ProcessConfigurationElement env_example configuration_id_zero state_zero).map
      (fun r => (r.1, r.2.entry.config_id)) = some (0, 4294967295) := by
  decide

/-- C4, at the failing input: the trigger element of `doc_trigger_fails`
returns -1 and so does the first `mouse` element of its mouse options list,
yet the mouse options list returns 0 and `read_config_file` returns 0: the
loops over the mouse options do not look at the status, a later element that
parses overwrites the failure. -/
theorem failed_trigger_is_overwritten :
    (ProcessTriggerElement env_example trigger_no_name state_zero).1 = -1 ∧
    (ProcessMouseOptionsListElement_mouse env_example mouse_no_mode state_zero).1 = -1 ∧
    (ProcessMouseOptionsListElement env_example
      (element "mouse_options_list" [] [mouse_no_mode, mouse_empty_mode]) state_zero).1 = 0 ∧
    (read_config_file env_example doc_trigger_fails state_zero).map (fun r => r.1) = some 0 := by
  decide

theorem device_search_some (Name : Nat → Option String) (VirtualId : Nat → Int)
    (name : String) (id : Int) :
    ∀ (n i0 i : Nat), device_search Name VirtualId name id n i0 = some i →
      i0 ≤ i ∧ i < i0 + n ∧ Name i = some name ∧ id = VirtualId i ∧
      (∀ j, i0 ≤ j → j ≤ i → Name j ≠ none) ∧
      (∀ j, i0 ≤ j → j < i → ¬ (Name j = some name ∧ id = VirtualId j)) := by
  intro n
  induction n with
  | zero => intro i0 i h; simp [device_search] at h
  | succ n ih =>
    intro i0 i h
    rw [device_search] at h
    cases hN : Name i0 with
    | none => rw [hN] at h; cases h
    | some nm =>
      rw [hN] at h
      simp only [] at h
      by_cases hc : name = nm ∧ id = VirtualId i0
      · rw [if_pos hc] at h
        cases h
        refine ⟨le_refl _, by omega, by rw [hN, hc.1], hc.2, ?_, ?_⟩
        · intro j h1 h2
          have : j = i0 := by omega
          subst this
          rw [hN]; simp
        · intro j h1 h2; omega
      · rw [if_neg hc] at h
        obtain ⟨h1, h2, h3, h4, h5, h6⟩ := ih (i0 + 1) i h
        refine ⟨by omega, by omega, h3, h4, ?_, ?_⟩
        · intro j hj1 hj2
          by_cases hj : j = i0
          · subst hj; rw [hN]; simp
          · exact h5 j (by omega) hj2
        · intro j hj1 hj2
          by_cases hj : j = i0
          · subst hj
            rw [hN]
            intro hh
            exact hc ⟨(Option.some.inj hh.1).symm, hh.2⟩
          · exact h6 j (by omega) hj2

theorem device_search_none (Name : Nat → Option String) (VirtualId : Nat → Int)
    (name : String) (id : Int) :
    ∀ (n i0 : Nat), device_search Name VirtualId name id n i0 = none →
      ∀ i, i0 ≤ i → i < i0 + n → (∀ j, i0 ≤ j → j ≤ i → Name j ≠ none) →
        ¬ (Name i = some name ∧ id = VirtualId i) := by
  intro n
  induction n with
  | zero => intro i0 _ i h1 h2; omega
  | succ n ih =>
    intro i0 h i h1 h2 h3
    rw [device_search] at h
    cases hN : Name i0 with
    | none => exact absurd hN (h3 i0 (le_refl _) h1)
    | some nm =>
      rw [hN] at h
      simp only [] at h
      by_cases hc : name = nm ∧ id = VirtualId i0
      · rw [if_pos hc] at h; cases h
      · rw [if_neg hc] at h
        by_cases hi : i = i0
        · subst hi
          rw [hN]
          intro hh
          exact hc ⟨(Option.some.inj hh.1).symm, hh.2⟩
        · exact ih (i0 + 1) h i (by omega) (by omega) (fun j hj1 hj2 => h3 j (by omega) hj2)

/-- `GetDeviceId` on a joystick device with a present, non-empty id. -/
theorem GetDeviceId_joystick (env : Env) (a_node : xmlNode) (val : String) (st : LoadState)
    (hid : xmlGetProp a_node env.defs.X_ATTR_ID = some val) (hval : val ≠ "")
    (htype : st.entry.device_type = .E_DEVICE_TYPE_JOYSTICK) :
    GetDeviceId env a_node st =
      match device_search env.GE_JoystickName env.GE_JoystickVirtualId st.r_device_name
          (env.atoi val) env.MAX_DEVICES 0 with
      | some i =>
        (0, { st with
          entry := { st.entry with device_id := (i : Int) }
          calls := st.calls ++ [.GE_SetJoystickUsed i] })
      | none => (1, { st with entry := { st.entry with device_id := env.atoi val } }) := by
  have hlen : val.length ≠ 0 := fun hc => hval ((length_eq_zero_iff val).1 hc)
  unfold GetDeviceId GetIntProp
  simp [hid, hlen, htype]
  split <;> simp [LoadState.call]

/-- C11: for a joystick device with a present, non-empty id, `GetDeviceId`
stores the smallest index that answers the search (below `MAX_DEVICES`, every
index up to it having a name, same name, same virtual id as the parsed id),
marks that joystick as used and returns 0; it returns 1 iff no index answers
the search, and then the stored id is the parsed one and no call is made. -/
theorem joystick_id_is_first_match (env : Env) (a_node : xmlNode) (val : String)
    (st : LoadState)
    (hid : xmlGetProp a_node env.defs.X_ATTR_ID = some val) (hval : val ≠ "")
    (htype : st.entry.device_type = .E_DEVICE_TYPE_JOYSTICK) :
    (∀ i, device_candidate env.GE_JoystickName env.GE_JoystickVirtualId env.MAX_DEVICES
          st.r_device_name (env.atoi val) i →
        (∀ j, j < i → ¬ device_candidate env.GE_JoystickName env.GE_JoystickVirtualId
          env.MAX_DEVICES st.r_device_name (env.atoi val) j) →
        GetDeviceId env a_node st =
          (0, { st with
            entry := { st.entry with device_id := (i : Int) }
            calls := st.calls ++ [.GE_SetJoystickUsed i] })) ∧
    ((GetDeviceId env a_node st).1 = 1 ↔
      ¬ ∃ i, device_candidate env.GE_JoystickName env.GE_JoystickVirtualId env.MAX_DEVICES
        st.r_device_name (env.atoi val) i) ∧
    ((GetDeviceId env a_node st).1 = 1 →
      (GetDeviceId env a_node st).2 =
        { st with entry := { st.entry with device_id := env.atoi val } }) ∧
    ((GetDeviceId env a_node st).1 = 0 ∨ (GetDeviceId env a_node st).1 = 1) := by
  have hG := GetDeviceId_joystick env a_node val st hid hval htype
  cases hs : device_search env.GE_JoystickName env.GE_JoystickVirtualId st.r_device_name
      (env.atoi val) env.MAX_DEVICES 0 with
  | none =>
    simp only [hs] at hG
    have hnone := device_search_none _ _ _ _ _ _ hs
    have hno : ¬ ∃ i, device_candidate env.GE_JoystickName env.GE_JoystickVirtualId
        env.MAX_DEVICES st.r_device_name (env.atoi val) i := by
      rintro ⟨i, h1, h2, h3, h4⟩
      exact hnone i (Nat.zero_le _) (by omega) (fun j _ hj => h2 j hj) ⟨h3, h4⟩
    refine ⟨fun i hc _ => absurd ⟨i, hc⟩ hno, ?_, ?_, ?_⟩
    · rw [hG]; simp [hno]
    · intro _; rw [hG]
    · rw [hG]; simp
  | some k =>
    simp only [hs] at hG
    obtain ⟨-, h2, h3, h4, h5, h6⟩ := device_search_some _ _ _ _ _ _ _ hs
    have hk : device_candidate env.GE_JoystickName env.GE_JoystickVirtualId env.MAX_DEVICES
        st.r_device_name (env.atoi val) k :=
      ⟨by omega, fun j hj => h5 j (Nat.zero_le _) hj, h3, h4⟩
    refine ⟨?_, ?_, ?_, ?_⟩
    · intro i hc hmin
      have hik : i = k := by
        rcases Nat.lt_trichotomy i k with h | h | h
        · exact absurd ⟨hc.2.2.1, hc.2.2.2⟩ (h6 i (Nat.zero_le _) h)
        · exact h
        · exact absurd hk (hmin k h)
      subst hik
      rw [hG]
    · rw [hG]
      simp only [show ((0 : Int) = 1) = False by decide, false_iff, not_not]
      exact ⟨k, hk⟩
    · rw [hG]; intro h; simp at h
    · rw [hG]; left; trivial

/-- The joystick `pad` with virtual id 0 is found at index 0 and marked as
used. -/
theorem joystick_id_is_first_match_witness :
    GetDeviceId env_example
        (element "device" [("type", "joystick"), ("id", "0"), ("name", "pad")] [])
        { state_zero with
          entry := { entry_zero with device_type := .E_DEVICE_TYPE_JOYSTICK }
          r_device_name := "pad" } =
      (0, { state_zero with
          entry := { entry_zero with device_type := .E_DEVICE_TYPE_JOYSTICK, device_id := 0 }
          r_device_name := "pad", calls := [.GE_SetJoystickUsed 0] }) :=
  (joystick_id_is_first_match env_example
    (element "device" [("type", "joystick"), ("id", "0"), ("name", "pad")] []) "0"
    { state_zero with
      entry := { entry_zero with device_type := .E_DEVICE_TYPE_JOYSTICK }
      r_device_name := "pad" }
    (by decide) (by decide) rfl).1 0
    ⟨by decide, fun j hj => by
      have : j = 0 := by omega
      subst this; decide, by decide, by decide⟩
    (fun j hj => absurd hj (Nat.not_lt_zero j))

/-! ## Further theorems on events.c -/

theorem translate_append (jt : JoyTables) :
    ∀ (pre post : List GE_Event) (hats : HatTable),
      translate jt hats (pre ++ post) =
        translate jt hats pre ++ translate jt (hats_after jt hats pre) post := by
  intro pre
  induction pre with
  | nil => intro post hats; simp [translate, hats_after]
  | cons e rest ih =>
    intro post hats
    simp [translate, hats_after, ih]

theorem hats_after_append (jt : JoyTables) :
    ∀ (pre post : List GE_Event) (hats : HatTable),
      hats_after jt hats (pre ++ post) = hats_after jt (hats_after jt hats pre) post := by
  intro pre
  induction pre with
  | nil => intro post hats; simp [hats_after]
  | cons e rest ih =>
    intro post hats
    simp [hats_after, ih]

theorem set_joystick_hat_in_range (jt : JoyTables) (hats : HatTable) (w : Int) (h v : Nat)
    (hw : 0 ≤ w) (hh : (h : Int) < jt.joystickNbHat w.toNat) :
    set_joystick_hat jt hats w h v w.toNat h = v % 256 ∧
    (∀ w1 h1, ¬ (w1 = w.toNat ∧ h1 = h) → set_joystick_hat jt hats w h v w1 h1 = hats w1 h1) ∧
    get_joystick_hat jt (set_joystick_hat jt hats w h v) w h = v % 256 := by
  have hc : w ≥ 0 ∧ (h : Int) < jt.joystickNbHat w.toNat := ⟨hw, hh⟩
  refine ⟨?_, ?_, ?_⟩
  · simp [set_joystick_hat, hc]
  · intro w1 h1 hne
    simp [set_joystick_hat, hc, hne]
  · simp [get_joystick_hat, set_joystick_hat, hc]

theorem hat_edges_same (jt : JoyTables) (hats : HatTable) (w : Int) (h v : Nat)
    (hprev : get_joystick_hat jt hats w h = v) :
    ∀ dirs, hat_edges jt hats w h v dirs = [] := by
  intro dirs
  induction dirs with
  | nil => rfl
  | cons d ds ih =>
    rw [hat_edges, ih, List.append_nil]
    unfold hat_edge
    simp only [hprev]
    by_cases hd : v &&& d = 0 <;> simp [hd]

/-- C20: when `preprocess_events` has gone through a buffer that ends with a
hat event for joystick `which` and hat `hat` in range, the stored state of
that hat is the value of the event and every other stored hat state is as it
was before the event; a second hat event with the same value then adds no
button event. -/
theorem hat_state_is_saved (EVENT_BUFFER_SIZE : Nat) (jt : JoyTables) (joystickHat : HatTable)
    (pre : List GE_Event) (which : Int) (hat value : Nat)
    (hwhich : 0 ≤ which) (hhat : (hat : Int) < jt.joystickNbHat which.toNat)
    (hvalue : value < 256)
    (hroom : ∀ r, preprocess_events EVENT_BUFFER_SIZE jt joystickHat
      (pre ++ [.jhat which hat value]) = some r → r.isFull = false) :
    ∃ r, preprocess_events EVENT_BUFFER_SIZE jt joystickHat (pre ++ [.jhat which hat value]) =
        some r ∧
      r.joystickHat which.toNat hat = value ∧
      (∀ w h, ¬ (w = which.toNat ∧ h = hat) →
        r.joystickHat w h = hats_after jt joystickHat pre w h) ∧
      get_joystick_hat jt r.joystickHat which hat = value ∧
      hat_edges jt r.joystickHat which hat value hat_dirs = [] ∧
      (∀ r2, preprocess_events EVENT_BUFFER_SIZE jt joystickHat
          (pre ++ [.jhat which hat value, .jhat which hat value]) = some r2 →
        r2.isFull = false → r2.events = r.events ∧ r2.joystickHat = r.joystickHat) := by
  have hmod : value % 256 = value := Nat.mod_eq_of_lt hvalue
  obtain ⟨hs1, hs2, hs3⟩ := set_joystick_hat_in_range jt (hats_after jt joystickHat pre)
    which hat value hwhich hhat
  rw [hmod] at hs1 hs3
  have hafter : hats_after jt joystickHat (pre ++ [.jhat which hat value]) =
      set_joystick_hat jt (hats_after jt joystickHat pre) which hat value := by
    rw [hats_after_append]; rfl
  rcases preprocess_events_eq EVENT_BUFFER_SIZE jt joystickHat (pre ++ [.jhat which hat value])
    with ⟨out, h1, hf⟩ | hd
  · have := hroom _ hf
    simp [PPResult.isFull] at this
  · refine ⟨_, hd, ?_, ?_, ?_, ?_, ?_⟩
    · simp only [PPResult.joystickHat, hafter]; exact hs1
    · intro w h hne
      simp only [PPResult.joystickHat, hafter]; exact hs2 w h hne
    · simp only [PPResult.joystickHat, hafter]; exact hs3
    · simp only [PPResult.joystickHat, hafter]
      exact hat_edges_same jt _ which hat value hs3 hat_dirs
    · intro r2 hr2 hnf
      rcases preprocess_events_eq EVENT_BUFFER_SIZE jt joystickHat
        (pre ++ [.jhat which hat value, .jhat which hat value]) with ⟨out, h1, hf⟩ | hd2
      · rw [hf] at hr2
        cases hr2
        simp [PPResult.isFull] at hnf
      · rw [hd2] at hr2
        cases hr2
        have hsplit : pre ++ [GE_Event.jhat which hat value, .jhat which hat value] =
            (pre ++ [.jhat which hat value]) ++ [.jhat which hat value] := by simp
        have htr2 := translate_append jt (pre ++ [.jhat which hat value])
          [.jhat which hat value] joystickHat
        have hha2 := hats_after_append jt (pre ++ [.jhat which hat value])
          [.jhat which hat value] joystickHat
        rw [hafter] at htr2 hha2
        simp only [PPResult.events, PPResult.joystickHat]
        rw [hsplit, htr2, hha2, hafter]
        constructor
        · simp only [translate, replacement, List.append_nil]
          rw [hat_edges_same jt _ which hat value hs3 hat_dirs, List.append_nil]
        · simp only [hats_after, hat_after]
          funext w h
          by_cases hwh : w = which.toNat ∧ h = hat
          · obtain ⟨hw1, hh1⟩ := hwh
            rw [hw1, hh1]
            have := (set_joystick_hat_in_range jt
              (set_joystick_hat jt (hats_after jt joystickHat pre) which hat value)
              which hat value hwhich hhat).1
            rw [this, hmod, hs1]
          · rw [(set_joystick_hat_in_range jt
              (set_joystick_hat jt (hats_after jt joystickHat pre) which hat value)
              which hat value hwhich hhat).2.1 w h hwh]

/-- Two hat events with the value 3 after the stored state 1: one button press,
and the stored state is 3. -/
theorem hat_state_is_saved_witness :
    ∃ r, preprocess_events 256 jt_example (fun _ _ => 1) ([] ++ [.jhat 0 0 3]) = some r ∧
      r.joystickHat 0 0 = 3 ∧ hat_edges jt_example r.joystickHat 0 0 3 hat_dirs = [] := by
  obtain ⟨r, hr, h1, _, _, h4, _⟩ :=
    hat_state_is_saved 256 jt_example (fun _ _ => 1) [] 0 0 3 (by decide) (by decide)
      (by decide) (by intro r hr; cases Option.some.inj hr; rfl)
  exact ⟨r, hr, h1, h4⟩

/-! ## Theorems on gimx.c -/

theorem process_event_mapping_cases (cal_skip_event : GE_Event → Int) (event : GE_Event) :
    process_event_mapping cal_skip_event event =
      (if event.type = .GE_MOUSEMOTION then [.cfg_process_motion_event event]
       else if event.type = .GE_JOYRUMBLE then [.cfg_process_rumble_event event]
       else if cal_skip_event event = 0 then [.cal_skip_event event, .cfg_process_event event]
       else [.cal_skip_event event]) := by
  unfold process_event_mapping
  cases event <;> try (rename_i a b c; cases a) <;> simp [GE_Event.type]
  all_goals simp [GE_Event.type]

theorem process_event_calibration_plain (event : GE_Event) :
    ∀ c ∈ process_event_calibration event,
      c.is_mapping = false ∧ c.is_trigger_lookup = false ∧ c.is_macro_lookup = false := by
  intro c hc
  unfold process_event_calibration at hc
  split at hc <;> simp at hc <;> subst hc <;> exact ⟨rfl, rfl, rfl⟩

theorem process_event_mapping_plain (cal_skip_event : GE_Event → Int) (event : GE_Event) :
    ∀ c ∈ process_event_mapping cal_skip_event event,
      c.is_trigger_lookup = false ∧ c.is_macro_lookup = false := by
  intro c hc
  rw [process_event_mapping_cases] at hc
  split_ifs at hc <;> simp at hc
  all_goals (first | (subst hc; exact ⟨rfl, rfl⟩) | (rcases hc with rfl | rfl <;> exact ⟨rfl, rfl⟩))

/-- C12: for every event, the calls of `process_event` are the mapping step
(the motion mapping for a mouse motion, the rumble mapping for a rumble event,
otherwise the guard `cal_skip_event` followed by `cfg_process_event` exactly
when the guard returned 0), then `cfg_trigger_lookup` on the same event, then
calls that are neither a mapping call nor a trigger lookup; the trigger lookup
is called exactly once, whatever the guard returned. -/
theorem trigger_lookup_once_after_mapping (cal_skip_event : GE_Event → Int) (event : GE_Event) :
    ∃ rest,
      (process_event cal_skip_event event).2 =
        process_event_mapping cal_skip_event event ++ gimx_call.cfg_trigger_lookup event :: rest ∧
      (∀ c ∈ process_event_mapping cal_skip_event event, c.is_trigger_lookup = false) ∧
      (∀ c ∈ rest, c.is_mapping = false ∧ c.is_trigger_lookup = false) ∧
      ((process_event cal_skip_event event).2.filter gimx_call.is_trigger_lookup).length = 1 ∧
      process_event_mapping cal_skip_event event =
        (if event.type = .GE_MOUSEMOTION then [.cfg_process_motion_event event]
         else if event.type = .GE_JOYRUMBLE then [.cfg_process_rumble_event event]
         else if cal_skip_event event = 0 then [.cal_skip_event event, .cfg_process_event event]
         else [.cal_skip_event event]) := by
  have hm := process_event_mapping_plain cal_skip_event event
  have hc := process_event_calibration_plain event
  refine ⟨gimx_call.cfg_intensity_lookup event :: (process_event_calibration event ++
    (if event.type ≠ .GE_MOUSEMOTION then [gimx_call.macro_lookup event] else [])), ?_, ?_, ?_, ?_,
    process_event_mapping_cases cal_skip_event event⟩
  · simp [process_event]
  · intro c h; exact (hm c h).1
  · intro c h
    simp only [List.mem_cons, List.mem_append] at h
    rcases h with rfl | h | h
    · exact ⟨rfl, rfl⟩
    · exact ⟨(hc c h).1, (hc c h).2.1⟩
    · split_ifs at h <;> simp at h
      subst h; exact ⟨rfl, rfl⟩
  · have h1 : (process_event_mapping cal_skip_event event).filter gimx_call.is_trigger_lookup = [] :=
      List.filter_eq_nil_iff.2 (fun c h => by simp [(hm c h).1])
    have h2 : (process_event_calibration event).filter gimx_call.is_trigger_lookup = [] :=
      List.filter_eq_nil_iff.2 (fun c h => by simp [(hc c h).2.1])
    simp only [process_event, List.filter_append, h1, h2]
    split_ifs <;> simp [List.filter, gimx_call.is_trigger_lookup]

theorem trigger_lookup_once_after_mapping_witness :
    ((process_event (fun _ => 1) (.key true 0 4)).2.filter gimx_call.is_trigger_lookup).length = 1 ∧
      (process_event (fun _ => 1) (.key true 0 4)).2 =
        [.cal_skip_event (.key true 0 4), .cfg_trigger_lookup (.key true 0 4),
          .cfg_intensity_lookup (.key true 0 4), .cal_key 0 4 1, .macro_lookup (.key true 0 4)] := by
  obtain ⟨_, _, _, _, h, _⟩ := trigger_lookup_once_after_mapping (fun _ => 1) (.key true 0 4)
  exact ⟨h, by decide⟩

/-- C13: `process_event` calls `macro_lookup` exactly once when the type of the
event is not `GE_MOUSEMOTION`, as its last call, so that every mapping call and
the trigger lookup of the event come before it; for a `GE_MOUSEMOTION` event it
makes no call to `macro_lookup`. -/
theorem macro_lookup_once_unless_motion (cal_skip_event : GE_Event → Int) (event : GE_Event) :
    ((process_event cal_skip_event event).2.filter gimx_call.is_macro_lookup).length =
        (if event.type = .GE_MOUSEMOTION then 0 else 1) ∧
      (event.type = .GE_MOUSEMOTION →
        ∀ c ∈ (process_event cal_skip_event event).2, c.is_macro_lookup = false) ∧
      (event.type ≠ .GE_MOUSEMOTION →
        ∃ before, (process_event cal_skip_event event).2 = before ++ [gimx_call.macro_lookup event] ∧
          (∀ c ∈ before, c.is_macro_lookup = false) ∧
          gimx_call.cfg_trigger_lookup event ∈ before ∧
          (∀ c ∈ (process_event cal_skip_event event).2, c.is_mapping = true → c ∈ before) ∧
          ∃ c ∈ before, c.is_mapping = true ∨ c = gimx_call.cal_skip_event event) := by
  have hm := process_event_mapping_plain cal_skip_event event
  have hc := process_event_calibration_plain event
  have h1 : (process_event_mapping cal_skip_event event).filter gimx_call.is_macro_lookup = [] :=
    List.filter_eq_nil_iff.2 (fun c h => by simp [(hm c h).2])
  have h2 : (process_event_calibration event).filter gimx_call.is_macro_lookup = [] :=
    List.filter_eq_nil_iff.2 (fun c h => by simp [(hc c h).2.2])
  refine ⟨?_, ?_, ?_⟩
  · simp only [process_event, List.filter_append, h1, h2]
    split_ifs <;> simp_all [List.filter, gimx_call.is_macro_lookup]
  · intro ht c h
    simp only [process_event, ht, ne_eq, not_true_eq_false, if_false, List.append_nil,
      List.mem_append, List.mem_cons, List.mem_singleton, List.not_mem_nil, or_false] at h
    rcases h with (h | h | h) | h
    · exact (hm c h).2
    · subst h; rfl
    · subst h; rfl
    · exact (hc c h).2.2
  · intro ht
    refine ⟨process_event_mapping cal_skip_event event ++
      [gimx_call.cfg_trigger_lookup event, gimx_call.cfg_intensity_lookup event] ++
      process_event_calibration event, ?_, ?_, ?_, ?_, ?_⟩
    · simp [process_event, ht]
    · intro c h
      simp only [List.mem_append, List.mem_cons, List.mem_singleton, List.not_mem_nil,
        or_false] at h
      rcases h with (h | h | h) | h
      · exact (hm c h).2
      · subst h; rfl
      · subst h; rfl
      · exact (hc c h).2.2
    · simp
    · intro c h hmap
      simp only [process_event, ht, ne_eq, not_false_eq_true, if_true, List.mem_append,
        List.mem_cons, List.mem_singleton, List.not_mem_nil, or_false] at h
      rcases h with h | h
      · simp only [List.mem_append, List.mem_cons, List.mem_singleton, List.not_mem_nil,
          or_false]
        exact h
      · subst h; simp [gimx_call.is_mapping] at hmap
    · rw [process_event_mapping_cases]
      split_ifs
      · exact absurd ‹_› ht
      · exact ⟨gimx_call.cfg_process_rumble_event event, by simp, Or.inl rfl⟩
      · exact ⟨gimx_call.cal_skip_event event, by simp, Or.inr rfl⟩
      · exact ⟨gimx_call.cal_skip_event event, by simp, Or.inr rfl⟩

theorem macro_lookup_once_unless_motion_witness :
    ((process_event (fun _ => 0) (.motion 0 3 (-2))).2.filter gimx_call.is_macro_lookup).length = 0 ∧
      ((process_event (fun _ => 0) (.jbutton true 0 2)).2.filter gimx_call.is_macro_lookup).length = 1 ∧
      (process_event (fun _ => 0) (.jbutton true 0 2)).2 =
        [.cal_skip_event (.jbutton true 0 2), .cfg_process_event (.jbutton true 0 2),
          .cfg_trigger_lookup (.jbutton true 0 2), .cfg_intensity_lookup (.jbutton true 0 2),
          .macro_lookup (.jbutton true 0 2)] :=
  ⟨(macro_lookup_once_unless_motion (fun _ => 0) (.motion 0 3 (-2))).1,
    (macro_lookup_once_unless_motion (fun _ => 0) (.jbutton true 0 2)).1, by decide⟩

/-! ## Theorems on gpp_con.c -/

theorem to_int8_range (x : Int) : -128 ≤ to_int8 x ∧ to_int8 x ≤ 127 := by
  unfold to_int8
  split_ifs <;> omega

theorem to_int8_id (x : Int) (h1 : -128 ≤ x) (h2 : x ≤ 127) : to_int8 x = x := by
  unfold to_int8
  rw [if_pos ⟨h1, h2⟩]

theorem wrap_int_id (x : Int) (h1 : -2147483648 ≤ x) (h2 : x ≤ 2147483647) : wrap_int x = x := by
  unfold wrap_int
  rw [if_pos ⟨h1, h2⟩]

theorem clamp_range (min value max : Int) (h : min ≤ max) :
    min ≤ clamp min value max ∧ clamp min value max ≤ max := by
  unfold clamp
  split_ifs <;> omega

theorem tdiv_percent_nonneg (v m : Int) (hm : 0 < m) (h0 : 0 ≤ v) (hv : v ≤ m) :
    0 ≤ Int.tdiv (v * 100) m ∧ Int.tdiv (v * 100) m ≤ 100 := by
  have hp : 0 ≤ v * 100 := by omega
  rw [Int.tdiv_eq_ediv hp (le_of_lt hm)]
  refine ⟨Int.ediv_nonneg hp (le_of_lt hm), ?_⟩
  have : v * 100 / m < 101 := (Int.ediv_lt_iff_lt_mul hm).2 (by omega)
  omega

theorem tdiv_percent (v m : Int) (hm : 0 < m) (hv : |v| ≤ m) :
    -100 ≤ Int.tdiv (v * 100) m ∧ Int.tdiv (v * 100) m ≤ 100 := by
  have habs := abs_le.1 hv
  by_cases h0 : 0 ≤ v
  · have := tdiv_percent_nonneg v m hm h0 habs.2
    omega
  · have h := tdiv_percent_nonneg (-v) m hm (by omega) (by omega)
    rw [neg_mul, Int.neg_tdiv] at h
    omega

theorem scale_axis_some (controller_get_max_signed : e_controller_type → Nat → Int)
    (type : e_controller_type) (index : Nat) (axis : Nat → Int)
    (hpos : 0 < controller_get_max_signed type index) :
    ∃ v, scale_axis controller_get_max_signed type index axis = some v ∧ -128 ≤ v ∧ v ≤ 127 := by
  unfold scale_axis int_div
  rw [if_neg (by omega), if_neg (by omega)]
  exact ⟨_, rfl, to_int8_range _⟩

theorem scale_axis_in_range (controller_get_max_signed : e_controller_type → Nat → Int)
    (type : e_controller_type) (index : Nat) (axis : Nat → Int)
    (hpos : 0 < controller_get_max_signed type index)
    (hfit : controller_get_max_signed type index * 100 ≤ 2147483647)
    (hv : |axis index| ≤ controller_get_max_signed type index) :
    scale_axis controller_get_max_signed type index axis =
      some (Int.tdiv (axis index * 100) (controller_get_max_signed type index)) := by
  have habs := abs_le.1 hv
  have hq := tdiv_percent _ _ hpos hv
  unfold scale_axis int_div
  rw [if_neg (by omega), if_neg (by omega), wrap_int_id _ (by omega) (by omega)]
  simp only [Option.map_some']
  rw [to_int8_id _ (by omega) (by omega)]

/-- C14, as the code has it: with a maximum of 30000000 and the axis value
30000000, which satisfy `max_signed > 0` and `|v| <= max_signed`, the product
`v * 100` does not fit an `int`; the exact quotient is 100 but `scale_axis`
returns -43. -/
theorem scale_axis_overflows :
    0 < (30000000 : Int) ∧ |axis_single 0 30000000 0| ≤ (30000000 : Int) ∧
      Int.tdiv (axis_single 0 30000000 0 * 100) 30000000 = 100 ∧
      scale_axis (fun _ _ => 30000000) 0 0 (axis_single 0 30000000) = some (-43) ∧
      ¬ (scale_axis (fun _ _ => 30000000) 0 0 (axis_single 0 30000000) =
        some (Int.tdiv (axis_single 0 30000000 0 * 100) 30000000)) := by
  decide

/-- C14, amended: when `controller_get_max_signed(type, index)` is positive,
the axis value `v` has `|v|` at most that maximum and the product `v * 100`
fits an `int`, `scale_axis` returns exactly `v * 100 / max_signed` truncated
toward zero, unchanged by the conversion to `int8_t`; the result lies in
`[-100, 100]`, 0 gives 0, the maximum gives 100 and its opposite gives -100. -/
theorem scale_axis_exact (controller_get_max_signed : e_controller_type → Nat → Int)
    (type : e_controller_type) (index : Nat) (axis : Nat → Int)
    (hpos : 0 < controller_get_max_signed type index)
    (hv : |axis index| ≤ controller_get_max_signed type index)
    (hfit : -2147483648 ≤ axis index * 100 ∧ axis index * 100 ≤ 2147483647) :
    scale_axis controller_get_max_signed type index axis =
        some (Int.tdiv (axis index * 100) (controller_get_max_signed type index)) ∧
      to_int8 (Int.tdiv (axis index * 100) (controller_get_max_signed type index)) =
        Int.tdiv (axis index * 100) (controller_get_max_signed type index) ∧
      -100 ≤ Int.tdiv (axis index * 100) (controller_get_max_signed type index) ∧
      Int.tdiv (axis index * 100) (controller_get_max_signed type index) ≤ 100 ∧
      (axis index = 0 → scale_axis controller_get_max_signed type index axis = some 0) ∧
      (axis index = controller_get_max_signed type index →
        scale_axis controller_get_max_signed type index axis = some 100) ∧
      (axis index = - controller_get_max_signed type index →
        scale_axis controller_get_max_signed type index axis = some (-100)) := by
  have hq := tdiv_percent _ _ hpos hv
  have hne : controller_get_max_signed type index ≠ 0 := by omega
  have hs : scale_axis controller_get_max_signed type index axis =
      some (Int.tdiv (axis index * 100) (controller_get_max_signed type index)) := by
    unfold scale_axis int_div
    rw [if_neg (by omega), if_neg (by omega), wrap_int_id _ hfit.1 hfit.2]
    simp only [Option.map_some']
    rw [to_int8_id _ (by omega) (by omega)]
  refine ⟨hs, to_int8_id _ (by omega) (by omega), hq.1, hq.2, ?_, ?_, ?_⟩
  · intro h
    rw [hs, h]
    simp
  · intro h
    rw [hs, h, mul_comm, Int.mul_tdiv_cancel _ hne]
  · intro h
    rw [hs, h, neg_mul, Int.neg_tdiv, mul_comm, Int.mul_tdiv_cancel _ hne]

theorem scale_axis_exact_witness :
    scale_axis max_signed_example 0 0 (axis_single 0 (-100)) = some (-78) ∧
      scale_axis max_signed_example 0 0 (axis_single 0 127) = some 100 := by
  have h1 := scale_axis_exact max_signed_example 0 0 (axis_single 0 (-100))
    (by decide) (by decide) (by decide)
  have h2 := scale_axis_exact max_signed_example 0 0 (axis_single 0 127)
    (by decide) (by decide) (by decide)
  exact ⟨h1.1.trans (by decide), h2.2.2.2.2.2.1 (by decide)⟩

theorem gpp_value_some (controller_get_max_signed : e_controller_type → Nat → Int)
    (type : e_controller_type) (axis : Nat → Int) (s : gpp_statement)
    (hpos : 0 < controller_get_max_signed type s.index) :
    ∃ v, gpp_value controller_get_max_signed type axis s = some v ∧ -128 ≤ v ∧ v ≤ 127 ∧
      (s.is_scaled = false → -100 ≤ v ∧ v ≤ 100) := by
  cases s with
  | scaled out index =>
    obtain ⟨v, hv, h1, h2⟩ := scale_axis_some controller_get_max_signed type index axis hpos
    exact ⟨v, hv, h1, h2, fun h => by simp [gpp_statement.is_scaled] at h⟩
  | digital out index =>
    refine ⟨to_int8 (if axis index ≠ 0 then 100 else 0), rfl, ?_⟩
    split_ifs
    · rw [to_int8_id _ (by omega) (by omega)]; omega
    · rw [to_int8_id _ (by omega) (by omega)]; omega
  | clamped out index =>
    obtain ⟨v, hv, _, _⟩ := scale_axis_some controller_get_max_signed type index axis hpos
    have hc := clamp_range (-100) v 100 (by omega)
    refine ⟨to_int8 (clamp (-100) v 100), by simp [gpp_value, hv], ?_⟩
    rw [to_int8_id _ (by omega) (by omega)]
    omega

theorem gpp_value_digital (controller_get_max_signed : e_controller_type → Nat → Int)
    (type : e_controller_type) (axis : Nat → Int) (out index : Nat) :
    gpp_value controller_get_max_signed type axis (.digital out index) =
      some (if axis index ≠ 0 then 100 else 0) := by
  simp only [gpp_value]
  split_ifs <;> rw [to_int8_id _ (by omega) (by omega)]

theorem gpp_run_some (controller_get_max_signed : e_controller_type → Nat → Int)
    (type : e_controller_type) (axis : Nat → Int) :
    ∀ (stmts : List gpp_statement) (output : List Int),
      (∀ s ∈ stmts, 0 < controller_get_max_signed type s.index) →
      ∃ out, gpp_run controller_get_max_signed type axis stmts output = some out := by
  intro stmts
  induction stmts with
  | nil => intro output _; exact ⟨output, rfl⟩
  | cons s rest ih =>
    intro output hpos
    obtain ⟨v, hv, _⟩ := gpp_value_some controller_get_max_signed type axis s
      (hpos s (List.mem_cons_self _ _))
    obtain ⟨out, hout⟩ := ih (output.set s.out v) (fun t ht => hpos t (List.mem_cons_of_mem _ ht))
    exact ⟨out, by simp only [gpp_run, hv, hout]⟩

theorem gpp_run_length (controller_get_max_signed : e_controller_type → Nat → Int)
    (type : e_controller_type) (axis : Nat → Int) :
    ∀ (stmts : List gpp_statement) (output out : List Int),
      gpp_run controller_get_max_signed type axis stmts output = some out →
      out.length = output.length := by
  intro stmts
  induction stmts with
  | nil => intro output out h; simp only [gpp_run, Option.some.injEq] at h; rw [h]
  | cons s rest ih =>
    intro output out h
    cases hv : gpp_value controller_get_max_signed type axis s with
    | none => simp only [gpp_run, hv] at h; cases h
    | some v =>
      simp only [gpp_run, hv] at h
      rw [ih _ _ h, List.length_set]

theorem gpp_run_mem (controller_get_max_signed : e_controller_type → Nat → Int)
    (type : e_controller_type) (axis : Nat → Int) :
    ∀ (stmts : List gpp_statement) (output out : List Int),
      gpp_run controller_get_max_signed type axis stmts output = some out →
      ∀ x ∈ out, x ∈ output ∨
        ∃ s ∈ stmts, gpp_value controller_get_max_signed type axis s = some x := by
  intro stmts
  induction stmts with
  | nil =>
    intro output out h x hx
    simp only [gpp_run, Option.some.injEq] at h
    rw [h]; exact Or.inl hx
  | cons s rest ih =>
    intro output out h x hx
    cases hv : gpp_value controller_get_max_signed type axis s with
    | none => simp only [gpp_run, hv] at h; cases h
    | some v =>
      simp only [gpp_run, hv] at h
      rcases ih _ _ h x hx with h1 | ⟨t, ht, htv⟩
      · rcases List.mem_or_eq_of_mem_set h1 with h2 | h2
        · exact Or.inl h2
        · exact Or.inr ⟨s, List.mem_cons_self _ _, by rw [hv, h2]⟩
      · exact Or.inr ⟨t, List.mem_cons_of_mem _ ht, htv⟩

theorem gpp_run_untouched (controller_get_max_signed : e_controller_type → Nat → Int)
    (type : e_controller_type) (axis : Nat → Int) (i : Nat) :
    ∀ (stmts : List gpp_statement) (output out : List Int),
      gpp_run controller_get_max_signed type axis stmts output = some out →
      i ∉ stmts.map gpp_statement.out → out[i]? = output[i]? := by
  intro stmts
  induction stmts with
  | nil => intro output out h _; simp only [gpp_run, Option.some.injEq] at h; rw [h]
  | cons s rest ih =>
    intro output out h hi
    simp only [List.map_cons, List.mem_cons, not_or] at hi
    cases hv : gpp_value controller_get_max_signed type axis s with
    | none => simp only [gpp_run, hv] at h; cases h
    | some v =>
      simp only [gpp_run, hv] at h
      rw [ih _ _ h hi.2, List.getElem?_set_ne (Ne.symm hi.1)]

theorem gpp_run_get (controller_get_max_signed : e_controller_type → Nat → Int)
    (type : e_controller_type) (axis : Nat → Int) :
    ∀ (stmts : List gpp_statement) (output out : List Int),
      gpp_run controller_get_max_signed type axis stmts output = some out →
      (stmts.map gpp_statement.out).Nodup →
      ∀ s ∈ stmts, s.out < output.length →
        out[s.out]? = gpp_value controller_get_max_signed type axis s := by
  intro stmts
  induction stmts with
  | nil => intro output out _ _ s hs; cases hs
  | cons t rest ih =>
    intro output out h hnd s hs hlt
    simp only [List.map_cons, List.nodup_cons] at hnd
    cases hv : gpp_value controller_get_max_signed type axis t with
    | none => simp only [gpp_run, hv] at h; cases h
    | some v =>
      simp only [gpp_run, hv] at h
      rcases List.mem_cons.1 hs with rfl | hs
      · rw [gpp_run_untouched controller_get_max_signed type axis s.out _ _ _ h hnd.1,
          List.getElem?_set_self hlt, hv]
      · exact ih _ _ h hnd.2 s hs (by rw [List.length_set]; exact hlt)

theorem gpp_send_eq (g : gcapi_defs) (a : axis_index_defs)
    (controller_get_max_signed : e_controller_type → Nat → Int)
    (gpppcprog_output : Int → List Int → Int) (id : Int) (type : e_controller_type)
    (axis : Nat → Int)
    (hpos : ∀ s ∈ gpp_send_statements g a, 0 < controller_get_max_signed type s.index) :
    ∃ output, gpp_run controller_get_max_signed type axis (gpp_send_statements g a)
        (List.replicate g.GCAPI_INPUT_TOTAL 0) = some output ∧
      gpp_send g a controller_get_max_signed gpppcprog_output id type axis =
        some (if gpppcprog_output id output = 0 then -1 else 0, output) := by
  obtain ⟨output, h⟩ := gpp_run_some controller_get_max_signed type axis
    (gpp_send_statements g a) (List.replicate g.GCAPI_INPUT_TOTAL 0) hpos
  exact ⟨output, h, by simp only [gpp_send, h]⟩

/-- C15, as the code has it: an entry that `gpp_send` stores without clamping
leaves `[-100, 100]`: with a maximum of 255 and the value 306 on the axis of
the up button, the entry `PS3_UP` handed to `gpppcprog_output` is 120. -/
theorem gpp_send_entry_above_100 :
    ∃ ret output, gpp_send gcapi_example axis_index_example max_signed_example (fun _ _ => 1)
        0 0 (axis_single axis_index_example.sa_up 306) = some (ret, output) ∧
      output[gcapi_example.PS3_UP]? = some 120 ∧
      ¬ (∀ x ∈ output, -100 ≤ x ∧ x ≤ 100) :=
  ⟨0, [0,0,0,0,0,0,0,0,0,0,0,0,0,120,0,0,0,0,0,0,0,0,0,0,0,0,0,0,0,0], by decide, by decide,
    by decide⟩

/-- C15, amended: when the maximum of every axis read is positive, `gpp_send`
hands over an array of `GCAPI_INPUT_TOTAL` entries, each in the range of
`int8_t`; every entry is in `[-100, 100]` when the axes stored without clamping
have `|v|` at most their maximum (a hundred times which fits an `int`); and,
the positions written being distinct and inside the array, the entry of every
clamped or digital assignment is in `[-100, 100]` for any axis values. -/
theorem gpp_send_output_bounds (g : gcapi_defs) (a : axis_index_defs)
    (controller_get_max_signed : e_controller_type → Nat → Int)
    (gpppcprog_output : Int → List Int → Int) (id : Int) (type : e_controller_type)
    (axis : Nat → Int)
    (hpos : ∀ s ∈ gpp_send_statements g a, 0 < controller_get_max_signed type s.index) :
    ∃ ret output,
      gpp_send g a controller_get_max_signed gpppcprog_output id type axis = some (ret, output) ∧
      output.length = g.GCAPI_INPUT_TOTAL ∧
      (∀ x ∈ output, -128 ≤ x ∧ x ≤ 127) ∧
      ((∀ s ∈ gpp_send_statements g a, s.is_scaled = true →
          controller_get_max_signed type s.index * 100 ≤ 2147483647 ∧
          |axis s.index| ≤ controller_get_max_signed type s.index) →
        ∀ x ∈ output, -100 ≤ x ∧ x ≤ 100) ∧
      (((gpp_send_statements g a).map gpp_statement.out).Nodup →
        ∀ s ∈ gpp_send_statements g a, s.out < g.GCAPI_INPUT_TOTAL → s.is_scaled = false →
          ∃ x, output[s.out]? = some x ∧ -100 ≤ x ∧ x ≤ 100) := by
  obtain ⟨output, hrun, hsend⟩ := gpp_send_eq g a controller_get_max_signed gpppcprog_output
    id type axis hpos
  have hmem := gpp_run_mem controller_get_max_signed type axis _ _ _ hrun
  refine ⟨_, output, hsend, ?_, ?_, ?_, ?_⟩
  · rw [gpp_run_length controller_get_max_signed type axis _ _ _ hrun, List.length_replicate]
  · intro x hx
    rcases hmem x hx with h0 | ⟨s, hs, hv⟩
    · rw [List.eq_of_mem_replicate h0]; omega
    · obtain ⟨v, hv2, h1, h2, _⟩ := gpp_value_some controller_get_max_signed type axis s (hpos s hs)
      rw [hv] at hv2
      cases hv2
      exact ⟨h1, h2⟩
  · intro hsc x hx
    rcases hmem x hx with h0 | ⟨s, hs, hv⟩
    · rw [List.eq_of_mem_replicate h0]; omega
    · obtain ⟨v, hv2, _, _, h3⟩ := gpp_value_some controller_get_max_signed type axis s (hpos s hs)
      rw [hv] at hv2
      cases hv2
      cases hsc2 : s.is_scaled with
      | false => exact h3 hsc2
      | true =>
        cases s with
        | scaled out index =>
          obtain ⟨hfit, habs⟩ := hsc _ hs hsc2
          have hq := tdiv_percent _ _ (hpos _ hs) habs
          have he := scale_axis_in_range controller_get_max_signed type index axis
            (hpos _ hs) hfit habs
          simp only [gpp_value] at hv
          rw [he] at hv
          cases hv
          exact hq
        | digital out index => simp [gpp_statement.is_scaled] at hsc2
        | clamped out index => simp [gpp_statement.is_scaled] at hsc2
  · intro hnd s hs hlt hsc
    obtain ⟨v, hv, _, _, h3⟩ := gpp_value_some controller_get_max_signed type axis s (hpos s hs)
    refine ⟨v, ?_, h3 hsc⟩
    rw [gpp_run_get controller_get_max_signed type axis _ _ _ hrun hnd s hs
      (by rw [List.length_replicate]; exact hlt), hv]

theorem gpp_send_output_bounds_witness :
    ∃ ret output, gpp_send gcapi_example axis_index_example max_signed_example (fun _ _ => 1)
        0 0 (axis_single axis_index_example.sa_lstick_x 254) = some (ret, output) ∧
      output.length = 30 ∧ ∀ x ∈ output, -128 ≤ x ∧ x ≤ 127 := by
  obtain ⟨ret, output, h1, h2, h3, _⟩ := gpp_send_output_bounds gcapi_example axis_index_example
    max_signed_example (fun _ _ => 1) 0 0 (axis_single axis_index_example.sa_lstick_x 254)
    (by decide)
  exact ⟨ret, output, h1, h2, h3⟩

/-- C16: with a maximum of 127 and the value 254 on the axis of the left stick,
the percentage is 200, which saturates to 100, but the entry `PS3_LX` that
`gpp_send` hands over is -56: `scale_axis` has reduced 200 to an `int8_t`
before `clamp` sees it. -/
theorem gpp_send_stick_wraps :
    gpp_send gcapi_example axis_index_example max_signed_example (fun _ _ => 1) 0 0
        (axis_single axis_index_example.sa_lstick_x 254) =
        some (0, [0,0,0,0,0,0,0,0,0,0,0,-56,0,0,0,0,0,0,0,0,0,0,0,0,0,0,0,0,0,0]) ∧
      gcapi_example.PS3_LX = 11 ∧
      Int.tdiv (axis_single axis_index_example.sa_lstick_x 254 axis_index_example.sa_lstick_x * 100)
        (max_signed_example 0 axis_index_example.sa_lstick_x) = 200 ∧
      clamp (-100) 200 100 = 100 := by
  decide

/-- C17: when `gpp_send` returns (the maximum of every axis read is positive)
and the positions written are distinct and inside the array, the entries
`PS3_START`, `PS3_SELECT`, `PS3_PS` and `PS4_TOUCH` handed over are 100 when
the entry of the axis state at `sa_start`, `sa_select`, `sa_ps` and
`ds4a_finger1` is non-zero, and 0 when it is zero, whatever the controller
type and the other axis entries are. -/
theorem digital_outputs (g : gcapi_defs) (a : axis_index_defs)
    (controller_get_max_signed : e_controller_type → Nat → Int)
    (gpppcprog_output : Int → List Int → Int) (id : Int) (type : e_controller_type)
    (axis : Nat → Int)
    (hpos : ∀ s ∈ gpp_send_statements g a, 0 < controller_get_max_signed type s.index)
    (hnodup : ((gpp_send_statements g a).map gpp_statement.out).Nodup)
    (hrange : ∀ s ∈ gpp_send_statements g a, s.out < g.GCAPI_INPUT_TOTAL) :
    ∃ ret output,
      gpp_send g a controller_get_max_signed gpppcprog_output id type axis = some (ret, output) ∧
      output[g.PS3_START]? = some (if axis a.sa_start ≠ 0 then 100 else 0) ∧
      output[g.PS3_SELECT]? = some (if axis a.sa_select ≠ 0 then 100 else 0) ∧
      output[g.PS3_PS]? = some (if axis a.sa_ps ≠ 0 then 100 else 0) ∧
      output[g.PS4_TOUCH]? = some (if axis a.ds4a_finger1 ≠ 0 then 100 else 0) := by
  obtain ⟨output, hrun, hsend⟩ := gpp_send_eq g a controller_get_max_signed gpppcprog_output
    id type axis hpos
  have hget : ∀ out index, gpp_statement.digital out index ∈ gpp_send_statements g a →
      output[out]? = some (if axis index ≠ 0 then 100 else 0) := by
    intro out index hs
    have h := gpp_run_get controller_get_max_signed type axis _ _ _ hrun hnodup _ hs
      (by rw [List.length_replicate]; exact hrange _ hs)
    rw [gpp_value_digital] at h
    exact h
  refine ⟨_, output, hsend, hget _ _ ?_, hget _ _ ?_, hget _ _ ?_, hget _ _ ?_⟩ <;>
    simp [gpp_send_statements]

theorem digital_outputs_witness :
    ∃ ret output, gpp_send gcapi_example axis_index_example max_signed_example (fun _ _ => 1)
        0 0 (axis_single axis_index_example.sa_start 1) = some (ret, output) ∧
      output[2]? = some 100 ∧ output[1]? = some 0 ∧ output[0]? = some 0 ∧
      output[27]? = some 0 :=
  digital_outputs gcapi_example axis_index_example max_signed_example (fun _ _ => 1) 0 0
    (axis_single axis_index_example.sa_start 1) (by decide) (by decide) (by decide)

/-! ## Theorems on the pump of mouse and keyboard events -/

theorem to_int16_range (x : Int) : -32768 ≤ to_int16 x ∧ to_int16 x ≤ 32767 := by
  unfold to_int16
  split_ifs <;> omega

theorem to_int16_id (x : Int) (h1 : -32768 ≤ x) (h2 : x ≤ 32767) : to_int16 x = x := by
  unfold to_int16
  rw [if_pos ⟨h1, h2⟩]

theorem to_int16_add (a v s : Int) :
    to_int16 (to_int16 (wrap_int (a + v)) + s) = to_int16 (a + (v + s)) := by
  unfold to_int16 wrap_int
  split_ifs <;> omega

theorem pump_event_m_x (sdl : sdl_button_defs) (st : PumpState) (e : ManyMouseEvent) (d : Nat) :
    (pump_event sdl st e).m_x d =
      (if e.type = .MANYMOUSE_EVENT_RELMOTION ∧ e.device = d ∧ decide (e.item = 0) = true
        then to_int16 (wrap_int (st.m_x d + e.value)) else st.m_x d) := by
  unfold pump_event
  cases ht : e.type <;> simp only [] <;> split_ifs <;> simp_all <;>
    (intro h; exact absurd h.symm (by assumption))

theorem pump_event_m_y (sdl : sdl_button_defs) (st : PumpState) (e : ManyMouseEvent) (d : Nat) :
    (pump_event sdl st e).m_y d =
      (if e.type = .MANYMOUSE_EVENT_RELMOTION ∧ e.device = d ∧ decide (e.item = 0) = false
        then to_int16 (wrap_int (st.m_y d + e.value)) else st.m_y d) := by
  unfold pump_event
  cases ht : e.type <;> simp only [] <;> split_ifs <;> simp_all <;>
    (intro h; exact absurd h.symm (by assumption))

theorem motion_sum_cons (x : Bool) (d : Nat) (e : ManyMouseEvent) (rest : List ManyMouseEvent) :
    motion_sum x d (e :: rest) =
      (if e.type = .MANYMOUSE_EVENT_RELMOTION ∧ e.device = d ∧ decide (e.item = 0) = x
        then e.value else 0) + motion_sum x d rest := by
  unfold motion_sum
  rw [List.filter_cons]
  split_ifs with h1 h2 h2
  · simp
  · exact absurd (of_decide_eq_true h1) h2
  · exact absurd (decide_eq_true h2) h1
  · simp

theorem pump_poll_m_x (sdl : sdl_button_defs) (d : Nat) :
    ∀ (polled : List ManyMouseEvent) (st : PumpState),
      -32768 ≤ st.m_x d → st.m_x d ≤ 32767 →
      (pump_poll sdl polled st).m_x d = to_int16 (st.m_x d + motion_sum true d polled) := by
  intro polled
  induction polled with
  | nil =>
    intro st h1 h2
    simp only [pump_poll, motion_sum, List.filter_nil, List.map_nil, List.sum_nil, add_zero]
    rw [to_int16_id _ h1 h2]
  | cons e rest ih =>
    intro st h1 h2
    rw [pump_poll, motion_sum_cons]
    have he := pump_event_m_x sdl st e d
    split_ifs at he ⊢ with hc
    · have hr := to_int16_range (wrap_int (st.m_x d + e.value))
      rw [ih _ (by rw [he]; exact hr.1) (by rw [he]; exact hr.2), he, to_int16_add]
    · rw [ih _ (by rw [he]; exact h1) (by rw [he]; exact h2), he, zero_add]

theorem pump_poll_m_y (sdl : sdl_button_defs) (d : Nat) :
    ∀ (polled : List ManyMouseEvent) (st : PumpState),
      -32768 ≤ st.m_y d → st.m_y d ≤ 32767 →
      (pump_poll sdl polled st).m_y d = to_int16 (st.m_y d + motion_sum false d polled) := by
  intro polled
  induction polled with
  | nil =>
    intro st h1 h2
    simp only [pump_poll, motion_sum, List.filter_nil, List.map_nil, List.sum_nil, add_zero]
    rw [to_int16_id _ h1 h2]
  | cons e rest ih =>
    intro st h1 h2
    rw [pump_poll, motion_sum_cons]
    have he := pump_event_m_y sdl st e d
    split_ifs at he ⊢ with hc
    · have hr := to_int16_range (wrap_int (st.m_y d + e.value))
      rw [ih _ (by rw [he]; exact hr.1) (by rw [he]; exact hr.2), he, to_int16_add]
    · rw [ih _ (by rw [he]; exact h1) (by rw [he]; exact h2), he, zero_add]

theorem pump_event_pushed (sdl : sdl_button_defs) (st : PumpState) (e : ManyMouseEvent) :
    ∃ more, (pump_event sdl st e).pushed = st.pushed ++ more ∧
      ∀ x ∈ more, x.is_motion = false := by
  unfold pump_event
  cases ht : e.type <;> simp only []
  · split_ifs <;> exact ⟨[], by simp, by simp⟩
  · exact ⟨_, rfl, by simp [SDL_Event.is_motion]⟩
  · split_ifs <;> exact ⟨_, rfl, by simp [SDL_Event.is_motion]⟩
  · exact ⟨_, rfl, by simp [SDL_Event.is_motion]⟩
  · exact ⟨[], by simp, by simp⟩

theorem pump_poll_pushed (sdl : sdl_button_defs) :
    ∀ (polled : List ManyMouseEvent) (st : PumpState),
      ∃ more, (pump_poll sdl polled st).pushed = st.pushed ++ more ∧
        ∀ x ∈ more, x.is_motion = false := by
  intro polled
  induction polled with
  | nil => intro st; exact ⟨[], by simp [pump_poll], by simp⟩
  | cons e rest ih =>
    intro st
    obtain ⟨m1, h1, h1m⟩ := pump_event_pushed sdl st e
    obtain ⟨m2, h2, h2m⟩ := ih (pump_event sdl st e)
    refine ⟨m1 ++ m2, by rw [pump_poll, h2, h1, List.append_assoc], ?_⟩
    intro x hx
    rcases List.mem_append.1 hx with h | h
    · exact h1m x h
    · exact h2m x h

theorem pump_flush_device_m_x (st : PumpState) (i j : Nat) :
    (pump_flush_device st i).m_x j = if j = i then 0 else st.m_x j := by
  unfold pump_flush_device
  by_cases h : st.m_x i ≠ 0 ∨ st.m_y i ≠ 0
  · rw [if_pos h]
  · rw [if_neg h]
    have h0 : st.m_x i = 0 := by
      by_contra hx
      exact h (Or.inl hx)
    split_ifs with hj
    · rw [hj, h0]
    · rfl

theorem pump_flush_device_m_y (st : PumpState) (i j : Nat) :
    (pump_flush_device st i).m_y j = if j = i then 0 else st.m_y j := by
  unfold pump_flush_device
  by_cases h : st.m_x i ≠ 0 ∨ st.m_y i ≠ 0
  · rw [if_pos h]
  · rw [if_neg h]
    have h0 : st.m_y i = 0 := by
      by_contra hy
      exact h (Or.inr hy)
    split_ifs with hj
    · rw [hj, h0]
    · rfl

theorem pump_flush_device_pushed (st : PumpState) (i : Nat) :
    (pump_flush_device st i).pushed = st.pushed ++
      (if st.m_x i ≠ 0 ∨ st.m_y i ≠ 0 then [SDL_Event.motion i (st.m_x i) (st.m_y i)] else []) := by
  unfold pump_flush_device
  split_ifs <;> simp

theorem pump_flush_spec :
    ∀ (devices : List Nat) (st : PumpState), devices.Nodup →
      (pump_flush devices st).pushed = st.pushed ++
          (devices.filter (fun i => decide (st.m_x i ≠ 0 ∨ st.m_y i ≠ 0))).map
            (fun i => SDL_Event.motion i (st.m_x i) (st.m_y i)) ∧
        (∀ j, (pump_flush devices st).m_x j = if j ∈ devices then 0 else st.m_x j) ∧
        (∀ j, (pump_flush devices st).m_y j = if j ∈ devices then 0 else st.m_y j) := by
  intro devices
  induction devices with
  | nil => intro st _; simp [pump_flush]
  | cons i rest ih =>
    intro st hnd
    rw [List.nodup_cons] at hnd
    obtain ⟨hp, hx, hy⟩ := ih (pump_flush_device st i) hnd.2
    have hne : ∀ j ∈ rest, j ≠ i := fun j hj hji => hnd.1 (hji ▸ hj)
    have hxj : ∀ j ∈ rest, (pump_flush_device st i).m_x j = st.m_x j := fun j hj => by
      rw [pump_flush_device_m_x, if_neg (hne j hj)]
    have hyj : ∀ j ∈ rest, (pump_flush_device st i).m_y j = st.m_y j := fun j hj => by
      rw [pump_flush_device_m_y, if_neg (hne j hj)]
    refine ⟨?_, ?_, ?_⟩
    · rw [pump_flush, hp, pump_flush_device_pushed, List.append_assoc]
      have hf : rest.filter (fun j => decide ((pump_flush_device st i).m_x j ≠ 0 ∨
          (pump_flush_device st i).m_y j ≠ 0)) =
          rest.filter (fun j => decide (st.m_x j ≠ 0 ∨ st.m_y j ≠ 0)) :=
        List.filter_congr (fun j hj => by rw [hxj j hj, hyj j hj])
      have hm : (rest.filter (fun j => decide (st.m_x j ≠ 0 ∨ st.m_y j ≠ 0))).map
          (fun j => SDL_Event.motion j ((pump_flush_device st i).m_x j)
            ((pump_flush_device st i).m_y j)) =
          (rest.filter (fun j => decide (st.m_x j ≠ 0 ∨ st.m_y j ≠ 0))).map
            (fun j => SDL_Event.motion j (st.m_x j) (st.m_y j)) :=
        List.map_congr_left (fun j hj => by
          rw [hxj j (List.mem_filter.1 hj).1, hyj j (List.mem_filter.1 hj).1])
      rw [hf, hm, List.filter_cons]
      by_cases h : st.m_x i ≠ 0 ∨ st.m_y i ≠ 0
      · rw [if_pos h, if_pos (decide_eq_true h)]
        rfl
      · rw [if_neg h, if_neg (by simpa using h)]
        rfl
    · intro j
      rw [pump_flush, hx j, pump_flush_device_m_x]
      by_cases hj : j = i
      · simp [hj]
      · simp [hj]
    · intro j
      rw [pump_flush, hy j, pump_flush_device_m_y]
      by_cases hj : j = i
      · simp [hj]
      · simp [hj]

/-- C18: in one call of `ev_pump_events` on accumulators that hold `short`
values, after the polling loop the x and y accumulators of every device are
the sums, reduced to 16 bits, of their value at entry and the relative-motion
deltas polled for that device and axis; the events pushed are those of the
polling loop, none of them a motion, followed by exactly one `SDL_MOUSEMOTION`
event, carrying both sums, for each device below `m_num` of which a sum is
non-zero, in increasing order, and none for a device whose sums are both
zero; at exit both accumulators of every device below `m_num` are 0. -/
theorem mouse_motion_is_accumulated (sdl : sdl_button_defs) (m_num : Int)
    (polled : List ManyMouseEvent) (m_x m_y : Nat → Int)
    (hx : ∀ i, -32768 ≤ m_x i ∧ m_x i ≤ 32767) (hy : ∀ i, -32768 ≤ m_y i ∧ m_y i ≤ 32767) :
    (∀ i, (pump_poll sdl polled ⟨m_x, m_y, 0, []⟩).m_x i =
          to_int16 (m_x i + motion_sum true i polled) ∧
        (pump_poll sdl polled ⟨m_x, m_y, 0, []⟩).m_y i =
          to_int16 (m_y i + motion_sum false i polled)) ∧
      (∀ e ∈ (pump_poll sdl polled ⟨m_x, m_y, 0, []⟩).pushed, e.is_motion = false) ∧
      (ev_pump_events sdl m_num polled m_x m_y).pushed =
        (pump_poll sdl polled ⟨m_x, m_y, 0, []⟩).pushed ++
          ((List.range m_num.toNat).filter (fun i => decide
            (to_int16 (m_x i + motion_sum true i polled) ≠ 0 ∨
              to_int16 (m_y i + motion_sum false i polled) ≠ 0))).map
            (fun i => SDL_Event.motion i (to_int16 (m_x i + motion_sum true i polled))
              (to_int16 (m_y i + motion_sum false i polled))) ∧
      (∀ i : Nat, (i : Int) < m_num →
        (ev_pump_events sdl m_num polled m_x m_y).m_x i = 0 ∧
        (ev_pump_events sdl m_num polled m_x m_y).m_y i = 0) := by
  have hax : ∀ i, (pump_poll sdl polled ⟨m_x, m_y, 0, []⟩).m_x i =
      to_int16 (m_x i + motion_sum true i polled) := fun i =>
    pump_poll_m_x sdl i polled ⟨m_x, m_y, 0, []⟩ (hx i).1 (hx i).2
  have hay : ∀ i, (pump_poll sdl polled ⟨m_x, m_y, 0, []⟩).m_y i =
      to_int16 (m_y i + motion_sum false i polled) := fun i =>
    pump_poll_m_y sdl i polled ⟨m_x, m_y, 0, []⟩ (hy i).1 (hy i).2
  obtain ⟨hp, hfx, hfy⟩ := pump_flush_spec (List.range m_num.toNat)
    (pump_poll sdl polled ⟨m_x, m_y, 0, []⟩) (List.nodup_range _)
  refine ⟨fun i => ⟨hax i, hay i⟩, ?_, ?_, ?_⟩
  · obtain ⟨more, hm, hno⟩ := pump_poll_pushed sdl polled ⟨m_x, m_y, 0, []⟩
    intro e he
    rw [hm] at he
    exact hno e (by simpa using he)
  · unfold ev_pump_events
    rw [hp]
    simp only [hax, hay]
  · intro i hi
    have hmem : i ∈ List.range m_num.toNat := List.mem_range.2 (by omega)
    unfold ev_pump_events
    rw [hfx i, hfy i, if_pos hmem, if_pos hmem]
    exact ⟨rfl, rfl⟩

theorem mouse_motion_is_accumulated_witness :
    (ev_pump_events sdl_button_example 2 polled_example (fun _ => 0) (fun _ => 0)).pushed =
        [.button true 0 3, .key true 0 30, .motion 0 (-5536) 0] ∧
      (ev_pump_events sdl_button_example 2 polled_example (fun _ => 0) (fun _ => 0)).m_x 0 = 0 := by
  have h := mouse_motion_is_accumulated sdl_button_example 2 polled_example (fun _ => 0)
    (fun _ => 0) (fun _ => ⟨by norm_num, by norm_num⟩) (fun _ => ⟨by norm_num, by norm_num⟩)
  exact ⟨by decide, (h.2.2.2 0 (by decide)).1⟩

/-! ## Theorems on hidasync.c -/

theorem open_path_failed (env : hid_env) (path : String) (print : Int)
    (hd : ¬ env.async_open_path path ≥ 0) :
    open_path env path print =
      ⟨env.async_open_path path, 0, 0, [.async_open_path path print]⟩ := by
  unfold open_path
  simp only []
  rw [if_neg hd]

theorem open_path_no_info (env : hid_env) (path : String) (print : Int)
    (hd : env.async_open_path path ≥ 0) (hinfo : env.HIDIOCGRAWINFO path = none) :
    open_path env path print =
      ⟨-1, 0, 0, [.async_open_path path print,
        .ioctl_HIDIOCGRAWINFO (env.async_open_path path),
        .async_close (env.async_open_path path)]⟩ := by
  unfold open_path
  simp only []
  rw [if_pos hd, hinfo]

theorem open_path_opened (env : hid_env) (path : String) (print : Int) (v p : Nat)
    (hd : env.async_open_path path ≥ 0) (hinfo : env.HIDIOCGRAWINFO path = some (v, p)) :
    open_path env path print =
      ⟨env.async_open_path path, v, p, [.async_open_path path print,
        .ioctl_HIDIOCGRAWINFO (env.async_open_path path)]⟩ := by
  unfold open_path
  simp only []
  rw [if_pos hd, hinfo]

theorem hidasync_open_ids_loop_spec (env : hid_env) (vendor product : Nat) :
    ∀ (names : List String) (calls : List hid_call),
      (hidasync_open_ids_loop env vendor product names calls).1 =
          (match names.find? (hid_matches env vendor product) with
            | some d_name => env.async_open_path (hidraw_path d_name)
            | none => -1) ∧
        (hidasync_open_ids_loop env vendor product names calls).2.foldl (hid_track env) [] =
          (match names.find? (hid_matches env vendor product) with
            | some d_name =>
              env.async_open_path (hidraw_path d_name) :: calls.foldl (hid_track env) []
            | none => calls.foldl (hid_track env) []) := by
  intro names
  induction names with
  | nil => intro calls; exact ⟨rfl, rfl⟩
  | cons name rest ih =>
    intro calls
    rw [hidasync_open_ids_loop, List.find?_cons]
    by_cases hd : env.async_open_path (hidraw_path name) ≥ 0
    · cases hinfo : env.HIDIOCGRAWINFO (hidraw_path name) with
      | none =>
        have hm : hid_matches env vendor product name = false := by
          simp [hid_matches, hinfo]
        rw [open_path_no_info env _ 0 hd hinfo, hm]
        simp only [ge_iff_le, Int.reduceNeg, Left.nonneg_neg_iff, Int.reduceLE, if_false]
        rw [(ih _).1, (ih _).2]
        simp [List.foldl_append, hid_track, hd]
      | some vp =>
        obtain ⟨v, p⟩ := vp
        rw [open_path_opened env _ 0 v p hd hinfo]
        simp only [hd, if_true]
        by_cases hvp : v = vendor ∧ p = product
        · have hm : hid_matches env vendor product name = true := by
            simp [hid_matches, hinfo, hd, hvp.1, hvp.2]
          rw [if_pos hvp, hm]
          simp [List.foldl_append, hid_track, hd]
        · have hm : hid_matches env vendor product name = false := by
            simp only [hid_matches, hinfo, Option.some.injEq, Prod.mk.injEq]
            simp [hvp]
          rw [if_neg hvp, hm]
          simp only []
          rw [(ih _).1, (ih _).2]
          simp [List.foldl_append, hid_track, hd]
    · have hm : hid_matches env vendor product name = false := by
        simp [hid_matches, hd]
      rw [open_path_failed env _ 0 hd, hm]
      simp only [hd, if_false]
      rw [(ih _).1, (ih _).2]
      simp [List.foldl_append, hid_track, hd]

theorem hidraw_path_short (d_name : String) (h : d_name.length ≤ 9) :
    hidraw_path d_name = "/dev/" ++ d_name := by
  unfold hidraw_path
  rw [List.take_of_length_le]
  simp only [String.length, String.data_append, List.length_append, List.length_cons,
    List.length_nil] at h ⊢
  omega

theorem begins_eq_prefix : ∀ (kw s : List Char), begins kw s = decide (kw <+: s) := by
  intro kw
  induction kw with
  | nil => intro s; simp [begins]
  | cons k kw ih =>
    intro s
    cases s with
    | nil => simp [begins]
    | cons c s =>
      rw [begins, ih s]
      by_cases hkc : k = c
      · subst hkc
        by_cases hp : kw <+: s
        · simp [hp, List.cons_prefix_cons]
        · simp [hp, List.cons_prefix_cons]
      · simp [hkc, List.cons_prefix_cons]

theorem is_hidraw_device_eq :
    is_hidraw_device = fun d_name => decide ("hidraw".data <+: d_name.data) := by
  funext d_name
  exact begins_eq_prefix _ _

/-- C19: `hidasync_open_ids` returns the identifier of the first entry of
`/dev`, in the order of `alphasort` and among the names of which `hidraw` is
a prefix, whose path opens, answers `HIDIOCGRAWINFO` and has the vendor and
product ids asked for; it returns -1 when there is no such entry or `scandir`
fails; of the devices it opened, the one returned, if any, is the only one
not closed again; and the path opened for a name of at most 9 characters
(`hidraw0` to `hidraw999`) is `/dev/` followed by the name. -/
theorem hidasync_open_ids_first_match (env : hid_env) (dev : Option (List String))
    (vendor product : Nat) :
    (hidasync_open_ids env dev vendor product).1 =
        (match dev with
          | none => -1
          | some names =>
            match (names.filter (fun d_name => decide ("hidraw".data <+: d_name.data))).find?
                (fun d_name => decide (0 ≤ env.async_open_path (hidraw_path d_name)) &&
                  decide (env.HIDIOCGRAWINFO (hidraw_path d_name) = some (vendor, product))) with
            | some d_name => env.async_open_path (hidraw_path d_name)
            | none => -1) ∧
      still_open env (hidasync_open_ids env dev vendor product).2 =
        (if 0 ≤ (hidasync_open_ids env dev vendor product).1
          then [(hidasync_open_ids env dev vendor product).1] else []) ∧
      (∀ d_name : String, d_name.length ≤ 9 → hidraw_path d_name = "/dev/" ++ d_name) := by
  have hmatch : (fun d_name => decide (0 ≤ env.async_open_path (hidraw_path d_name)) &&
      decide (env.HIDIOCGRAWINFO (hidraw_path d_name) = some (vendor, product))) =
      hid_matches env vendor product := rfl
  rw [hmatch, ← is_hidraw_device_eq]
  cases dev with
  | none => exact ⟨rfl, rfl, hidraw_path_short⟩
  | some names =>
    obtain ⟨h1, h2⟩ := hidasync_open_ids_loop_spec env vendor product
      (names.filter is_hidraw_device) []
    refine ⟨h1, ?_, hidraw_path_short⟩
    unfold still_open
    simp only [hidasync_open_ids]
    rw [h2, h1]
    cases hf : (names.filter is_hidraw_device).find? (hid_matches env vendor product) with
    | none => simp
    | some d_name =>
      have hm := List.find?_some hf
      simp only [hid_matches, Bool.and_eq_true, decide_eq_true_eq] at hm
      simp only [List.foldl_nil]
      rw [if_pos hm.1]

/-- The entry `event0` comes first in `/dev`, opens and reports the ids asked
for, but `hidraw` is not a prefix of its name: it is not opened, and the
device returned is the one of `hidraw2`. -/
theorem hidasync_open_ids_first_match_witness :
    hid_env_example.async_open_path (hidraw_path "event0") = 5 ∧
      hid_env_example.HIDIOCGRAWINFO (hidraw_path "event0") = some (1356, 1476) ∧
      (hidasync_open_ids hid_env_example
        (some ["event0", "hidraw0", "hidraw1", "hidraw2", "null"]) 1356 1476).1 = 0 ∧
      (hidasync_open_ids hid_env_example
        (some ["event0", "hidraw0", "hidraw1", "hidraw2", "null"]) 1356 1476).2 =
        [.async_open_path "/dev/hidraw0" 0, .async_open_path "/dev/hidraw1" 0,
          .ioctl_HIDIOCGRAWINFO 0, .async_close 0, .async_open_path "/dev/hidraw2" 0,
          .ioctl_HIDIOCGRAWINFO 0] ∧
      still_open hid_env_example (hidasync_open_ids hid_env_example
        (some ["event0", "hidraw0", "hidraw1", "hidraw2", "null"]) 1356 1476).2 = [0] :=
  ⟨by decide, by decide,
    (hidasync_open_ids_first_match hid_env_example
      (some ["event0", "hidraw0", "hidraw1", "hidraw2", "null"]) 1356 1476).1.trans (by decide),
    by decide,
    (hidasync_open_ids_first_match hid_env_example
      (some ["event0", "hidraw0", "hidraw1", "hidraw2", "null"]) 1356 1476).2.1.trans
      (by decide)⟩

/-! ## Further theorems on config_reader.c -/

theorem GetEventId_calls (env : Env) (a_node : xmlNode) (attr_label : String) (st : LoadState) :
    (GetEventId env a_node attr_label st).2.calls = st.calls := by
  unfold GetEventId
  split
  · rfl
  · split <;> rfl

theorem GetIntProp_value (env : Env) (a_node : xmlNode) (a_attr : String) :
    (GetIntProp env a_node a_attr 0).2 =
      (match xmlGetProp a_node a_attr with
        | some val => if val = "" then 0 else env.atoi val
        | none => 0) := by
  unfold GetIntProp
  cases xmlGetProp a_node a_attr with
  | none => rfl
  | some val =>
    simp only []
    by_cases h : val = ""
    · subst h; simp
    · have : val.length ≠ 0 := fun h0 => h ((length_eq_zero_iff val).1 h0)
      simp [h, this]

theorem GetDeviceTypeProp_type (env : Env) (a_node : xmlNode) (st : LoadState) (type : String)
    (htype : xmlGetProp a_node env.defs.X_ATTR_TYPE = some type) :
    (GetDeviceTypeProp env a_node st).1 = 0 ∧
      ((GetDeviceTypeProp env a_node st).2.entry.device_type ≠ .E_DEVICE_TYPE_UNKNOWN ↔
        (strncmp_strlen type env.defs.X_ATTR_VALUE_KEYBOARD = true ∨
          strncmp_strlen type env.defs.X_ATTR_VALUE_MOUSE = true ∨
          strncmp_strlen type env.defs.X_ATTR_VALUE_JOYSTICK = true)) := by
  unfold GetDeviceTypeProp
  rw [htype]
  simp only []
  split_ifs <;> simp_all

theorem ProcessTriggerElement_inner (env : Env) (a_node : xmlNode) (st : LoadState)
    (h1 : (GetDeviceTypeProp env a_node st).1 ≠ -1)
    (h2 : (GetDeviceTypeProp env a_node st).2.entry.device_type ≠ .E_DEVICE_TYPE_UNKNOWN) :
    ∃ inner : Int × LoadState,
      (∃ added, inner.2.calls = st.calls ++ added ∧
        ∀ c ∈ added, (∃ i, c = .GE_SetJoystickUsed i) ∨ (∃ m, c = .GE_SetMKMode m)) ∧
      ProcessTriggerElement env a_node st =
        (if inner.1 ≠ -1 then
          (inner.1, ({ inner.2 with entry := { inner.2.entry with
              trigger_switch_back :=
                (match xmlGetProp a_node env.defs.X_ATTR_SWITCH_BACK with
                  | some r_switch_back =>
                    if strncmp_sizeof r_switch_back env.defs.X_ATTR_VALUE_YES then 1 else 0
                  | none => 0)
              trigger_delay := (GetIntProp env a_node env.defs.X_ATTR_DELAY 0).2 } }).call
            (.cfg_set_trigger { inner.2.entry with
              trigger_switch_back :=
                (match xmlGetProp a_node env.defs.X_ATTR_SWITCH_BACK with
                  | some r_switch_back =>
                    if strncmp_sizeof r_switch_back env.defs.X_ATTR_VALUE_YES then 1 else 0
                  | none => 0)
              trigger_delay := (GetIntProp env a_node env.defs.X_ATTR_DELAY 0).2 }))
        else
          (inner.1, { inner.2 with entry := { inner.2.entry with
              trigger_switch_back :=
                (match xmlGetProp a_node env.defs.X_ATTR_SWITCH_BACK with
                  | some r_switch_back =>
                    if strncmp_sizeof r_switch_back env.defs.X_ATTR_VALUE_YES then 1 else 0
                  | none => 0)
              trigger_delay := (GetIntProp env a_node env.defs.X_ATTR_DELAY 0).2 } })) := by
  have c0 := GetDeviceTypeProp_calls env a_node st
  have c1 := GetDeviceName_calls env a_node (GetDeviceTypeProp env a_node st).2
  obtain ⟨added, c2, c2m⟩ := (GetDeviceId_frame env a_node
    (GetDeviceName env a_node (GetDeviceTypeProp env a_node st).2).2).2.1
  have c3 := GetEventId_calls env a_node env.defs.X_ATTR_BUTTON_ID
    (GetDeviceId env a_node (GetDeviceName env a_node (GetDeviceTypeProp env a_node st).2).2).2
  refine ⟨(if (GetDeviceName env a_node (GetDeviceTypeProp env a_node st).2).1 ≠ -1 then
      if (GetDeviceId env a_node (GetDeviceName env a_node (GetDeviceTypeProp env a_node st).2).2).1
          ≠ -1 then
        GetEventId env a_node env.defs.X_ATTR_BUTTON_ID
          (GetDeviceId env a_node (GetDeviceName env a_node (GetDeviceTypeProp env a_node st).2).2).2
      else GetDeviceId env a_node (GetDeviceName env a_node (GetDeviceTypeProp env a_node st).2).2
    else GetDeviceName env a_node (GetDeviceTypeProp env a_node st).2), ?_, ?_⟩
  · split_ifs
    · exact ⟨added, by rw [c3, c2, c1, c0], c2m⟩
    · exact ⟨added, by rw [c2, c1, c0], c2m⟩
    · exact ⟨[], by rw [c1, c0]; simp, by simp⟩
  · unfold ProcessTriggerElement
    simp only []
    rw [if_pos ⟨h1, h2⟩]

/-- C24: for a trigger element whose `type` attribute begins with one of the
three device keywords, the entry left by `ProcessTriggerElement`, which is the
one of every `cfg_set_trigger` call it makes (it makes one, as its last call,
whenever it does not return -1), has `switch_back` 1 when the attribute
`switch_back` is present and is the whole keyword `yes` and 0 otherwise, and
has `delay` 0 when the attribute `delay` is absent or empty and its integer
value otherwise; for a type that begins with none of the keywords the function
returns 0 and makes no call. -/
theorem trigger_switch_back_and_delay (env : Env) (a_node : xmlNode) (st : LoadState)
    (type : String) (htype : xmlGetProp a_node env.defs.X_ATTR_TYPE = some type) :
    ((strncmp_strlen type env.defs.X_ATTR_VALUE_KEYBOARD = true ∨
        strncmp_strlen type env.defs.X_ATTR_VALUE_MOUSE = true ∨
        strncmp_strlen type env.defs.X_ATTR_VALUE_JOYSTICK = true) →
      (ProcessTriggerElement env a_node st).2.entry.trigger_switch_back =
          (if xmlGetProp a_node env.defs.X_ATTR_SWITCH_BACK = some env.defs.X_ATTR_VALUE_YES
            then 1 else 0) ∧
        (ProcessTriggerElement env a_node st).2.entry.trigger_delay =
          (match xmlGetProp a_node env.defs.X_ATTR_DELAY with
            | some val => if val = "" then 0 else env.atoi val
            | none => 0) ∧
        ((ProcessTriggerElement env a_node st).1 ≠ -1 →
          (ProcessTriggerElement env a_node st).2.calls.getLast? =
            some (.cfg_set_trigger (ProcessTriggerElement env a_node st).2.entry)) ∧
        (∀ added, (ProcessTriggerElement env a_node st).2.calls = st.calls ++ added →
          ∀ e, Call.cfg_set_trigger e ∈ added →
            e = (ProcessTriggerElement env a_node st).2.entry)) ∧
      (¬ (strncmp_strlen type env.defs.X_ATTR_VALUE_KEYBOARD = true ∨
          strncmp_strlen type env.defs.X_ATTR_VALUE_MOUSE = true ∨
          strncmp_strlen type env.defs.X_ATTR_VALUE_JOYSTICK = true) →
        (ProcessTriggerElement env a_node st).1 = 0 ∧
          (ProcessTriggerElement env a_node st).2.calls = st.calls) := by
  obtain ⟨ht1, ht2⟩ := GetDeviceTypeProp_type env a_node st type htype
  have hsb : (match xmlGetProp a_node env.defs.X_ATTR_SWITCH_BACK with
      | some r_switch_back =>
        if strncmp_sizeof r_switch_back env.defs.X_ATTR_VALUE_YES then (1 : Int) else 0
      | none => 0) =
      (if xmlGetProp a_node env.defs.X_ATTR_SWITCH_BACK = some env.defs.X_ATTR_VALUE_YES
        then 1 else 0) := by
    cases xmlGetProp a_node env.defs.X_ATTR_SWITCH_BACK with
    | none => simp
    | some r => simp [strncmp_sizeof]
  constructor
  · intro hrec
    obtain ⟨inner, ⟨added0, hc, hm⟩, hP⟩ := ProcessTriggerElement_inner env a_node st
      (by rw [ht1]; decide) (ht2.2 hrec)
    rw [hP]
    by_cases hr : inner.1 ≠ -1
    · rw [if_pos hr]
      refine ⟨?_, ?_, ?_, ?_⟩
      · exact hsb
      · exact GetIntProp_value env a_node env.defs.X_ATTR_DELAY
      · intro _
        simp [LoadState.call]
      · intro added hadd e he
        simp only [LoadState.call] at hadd ⊢
        rw [hc, List.append_assoc] at hadd
        have := List.append_cancel_left hadd
        rw [← this] at he
        rcases List.mem_append.1 he with h | h
        · rcases hm _ h with ⟨i, hi⟩ | ⟨m, hmm⟩
          · cases hi
          · cases hmm
        · simp only [List.mem_singleton, Call.cfg_set_trigger.injEq] at h
          exact h
    · rw [if_neg hr]
      refine ⟨?_, ?_, ?_, ?_⟩
      · exact hsb
      · exact GetIntProp_value env a_node env.defs.X_ATTR_DELAY
      · intro h; exact absurd h hr
      · intro added hadd e he
        simp only at hadd
        rw [hc] at hadd
        have := List.append_cancel_left hadd
        rw [← this] at he
        rcases hm _ he with ⟨i, hi⟩ | ⟨m, hmm⟩
        · cases hi
        · cases hmm
  · intro hnot
    have hun : (GetDeviceTypeProp env a_node st).2.entry.device_type = .E_DEVICE_TYPE_UNKNOWN := by
      by_contra h
      exact hnot (ht2.1 h)
    unfold ProcessTriggerElement
    simp only []
    rw [if_neg (fun h => h.2 hun)]
    exact ⟨ht1, GetDeviceTypeProp_calls env a_node st⟩

theorem trigger_switch_back_and_delay_witness :
    (ProcessTriggerElement env_example trigger_key state_zero).2.entry.trigger_switch_back = 1 ∧
      (ProcessTriggerElement env_example trigger_key state_zero).2.entry.trigger_delay = 250 := by
  have h := (trigger_switch_back_and_delay env_example trigger_key state_zero "keyboard"
    (by decide)).1 (by decide)
  exact ⟨h.1.trans (by decide), h.2.1.trans (by decide)⟩

/-- C21, at the failing input: the type text `buton` begins with none of the
four keywords; on the entry as it is at program start `ProcessEventElement`
returns -1 without a call, but after the button element `button_key` has been
read it returns 0 for the same event element and adds a second binding, with
the event type left by the element before; `read_config_file` returns 0 on
`doc_bad_type` with two bindings added. -/
theorem unknown_event_type_adds_binding :
    strncmp_strlen "buton" gimx_defs.X_ATTR_VALUE_BUTTON = false ∧
      strncmp_strlen "buton" gimx_defs.X_ATTR_VALUE_AXIS_DOWN = false ∧
      strncmp_strlen "buton" gimx_defs.X_ATTR_VALUE_AXIS_UP = false ∧
      strncmp_strlen "buton" gimx_defs.X_ATTR_VALUE_AXIS = false ∧
      (ProcessEventElement env_example event_bad_type state_zero).map
        (fun r => (r.1, r.2.calls)) = some (-1, []) ∧
      ((ProcessButtonElement env_example button_key state_zero).bind
        (fun r => ProcessEventElement env_example event_bad_type r.2)).map
        (fun r => (r.1, r.2.entry.event_type, r.2.entry.event_id,
          (r.2.calls.filter Call.is_cfg_add_binding).length)) =
          some (0, .E_EVENT_TYPE_BUTTON, 33, 2) ∧
      (read_config_file env_example doc_bad_type state_zero).map
        (fun r => (r.1, (r.2.calls.filter Call.is_cfg_add_binding).length)) = some (0, 2) := by
  decide

/-- C22, at the failing input: for the intensity element `intensity_rectangle`
(dead zone 10, shape `Rectangle`) `ProcessIntensityElement` returns 0, the
shape of the intensity is still the `E_SHAPE_CIRCLE` it held on entry, and
`E_SHAPE_RECTANGLE` has been written to the shape of the mapper in `entry`. -/
theorem rectangle_shape_goes_to_entry :
    env_example.intensity_on_entry.shape = .E_SHAPE_CIRCLE ∧
      state_zero.entry.mapper_shape = .E_SHAPE_CIRCLE ∧
      (ProcessIntensityElement env_example intensity_rectangle env_example.intensity_on_entry 0
        state_zero).1 = 0 ∧
      (ProcessIntensityElement env_example intensity_rectangle env_example.intensity_on_entry 0
        state_zero).2.2.shape = .E_SHAPE_CIRCLE ∧
      (ProcessIntensityElement env_example intensity_rectangle env_example.intensity_on_entry 0
        state_zero).2.1.entry.mapper_shape = .E_SHAPE_RECTANGLE := by
  decide

/-- C23, at the failing input: for the trigger element `trigger_wheel`, which
names a joystick that is not enumerated, `GetDeviceId` returns 1, yet
`ProcessTriggerElement` returns 0 and calls `cfg_set_trigger`, with the device
id as it was parsed. -/
theorem trigger_of_absent_device_is_set :
    (GetDeviceId env_example trigger_wheel
        (GetDeviceName env_example trigger_wheel
          (GetDeviceTypeProp env_example trigger_wheel state_zero).2).2).1 = 1 ∧
      (ProcessTriggerElement env_example trigger_wheel state_zero).1 = 0 ∧
      (ProcessTriggerElement env_example trigger_wheel state_zero).2.calls =
        [.cfg_set_trigger (ProcessTriggerElement env_example trigger_wheel state_zero).2.entry] ∧
      (ProcessTriggerElement env_example trigger_wheel state_zero).2.entry.device_id = 0 := by
  decide

/-- C25, at the failing inputs: for an axis element without children, a button
element that holds a text node only and a configuration element that holds a
text node only, the functions have no result: after the first loop has ended
on a null `cur_node` and -1 has been stored, `cur_node->next` is followed. -/
theorem missing_child_follows_null :
    ProcessAxisElement env_example axis_no_child state_zero = none ∧
      ProcessButtonElement env_example button_text_only state_zero = none ∧
      ProcessConfigurationElement env_example configuration_text_only state_zero = none := by
  decide

/-! ## Theorems on the button ids of hat directions -/

/-- C27: for a hat direction 1, 2, 4 or 8, `joystick_hat_button` is
`joystickNbButton[which] + 4*hat + k` with `k` the position of the bit of the
direction; so the id is at least the number of buttons of the joystick, and
for one joystick two ids are equal only for the same hat and the same
direction. -/
theorem hat_button_ids (jt : JoyTables) (which : Int) (hat hat_dir : Nat)
    (hd : hat_dir ∈ hat_dirs) :
    (∃ k : Nat, k < 4 ∧ hat_dir = 2 ^ k ∧
      joystick_hat_button jt which hat hat_dir =
        jt.joystickNbButton which.toNat + 4 * (hat : Int) + (k : Int)) ∧
      jt.joystickNbButton which.toNat ≤ joystick_hat_button jt which hat hat_dir ∧
      (∀ hat1 hat_dir1, hat_dir1 ∈ hat_dirs →
        joystick_hat_button jt which hat hat_dir = joystick_hat_button jt which hat1 hat_dir1 →
        hat = hat1 ∧ hat_dir = hat_dir1) := by
  simp only [hat_dirs, List.mem_cons, List.mem_singleton, List.not_mem_nil, or_false] at hd ⊢
  refine ⟨?_, ?_, ?_⟩
  · rcases hd with rfl | rfl | rfl | rfl
    · exact ⟨0, by decide, by decide, by simp [joystick_hat_button, log2]⟩
    · exact ⟨1, by decide, by decide, by simp [joystick_hat_button, log2]⟩
    · exact ⟨2, by decide, by decide, by simp [joystick_hat_button, log2]⟩
    · exact ⟨3, by decide, by decide, by simp [joystick_hat_button, log2]⟩
  · rcases hd with rfl | rfl | rfl | rfl <;> simp only [joystick_hat_button, log2] <;> omega
  · intro hat1 hat_dir1 hd1 he
    rcases hd with rfl | rfl | rfl | rfl <;> rcases hd1 with rfl | rfl | rfl | rfl <;>
      simp only [joystick_hat_button, log2] at he <;> omega

theorem hat_button_ids_witness :
    joystick_hat_button jt_example 0 1 4 = 16 ∧
      jt_example.joystickNbButton 0 ≤ joystick_hat_button jt_example 0 1 4 := by
  obtain ⟨⟨k, hk, h2, h⟩, hge, _⟩ := hat_button_ids jt_example 0 1 4 (by decide)
  exact ⟨by decide, hge⟩

/-! ## Theorems on the connection of gpp_con.c -/

theorem gpp_connect_loop_none (gpppcprog_input : Nat → Int × gcapi_console) :
    ∀ (n i : Nat), (∀ j, i ≤ j → j < i + n → (gpppcprog_input j).1 ≠ 1) →
      gpp_connect_loop gpppcprog_input n i = (i + n, none) := by
  intro n
  induction n with
  | zero => intro i _; rfl
  | succ n ih =>
    intro i h
    rw [gpp_connect_loop, if_neg (h i (le_refl _) (by omega)),
      ih (i + 1) (fun j h1 h2 => h j (by omega) (by omega))]
    congr 1
    omega

theorem gpp_connect_loop_some (gpppcprog_input : Nat → Int × gcapi_console) :
    ∀ (n i k : Nat), i ≤ k → k < i + n → (gpppcprog_input k).1 = 1 →
      (∀ j, i ≤ j → j < k → (gpppcprog_input j).1 ≠ 1) →
      gpp_connect_loop gpppcprog_input n i = (k + 1, some (gpppcprog_input k).2) := by
  intro n
  induction n with
  | zero => intro i k h1 h2; omega
  | succ n ih =>
    intro i k h1 h2 hk hbefore
    rw [gpp_connect_loop]
    by_cases hik : i = k
    · subst hik
      rw [if_pos hk]
    · rw [if_neg (hbefore i (le_refl _) (by omega))]
      exact ih (i + 1) k (by omega) (by omega) hk (fun j hj1 hj2 => hbefore j (by omega) hj2)

theorem gpp_connect_loop_le (gpppcprog_input : Nat → Int × gcapi_console) :
    ∀ (n i : Nat), (gpp_connect_loop gpppcprog_input n i).1 ≤ i + n := by
  intro n
  induction n with
  | zero => intro i; exact le_refl _
  | succ n ih =>
    intro i
    rw [gpp_connect_loop]
    split_ifs
    · simp only; omega
    · have := ih (i + 1); omega

/-- C28: `gpp_connect` returns -1 without a read attempt when
`gppcprog_connect` does not return 1; -1 after exactly 10 read attempts when
none of them returns 1; and when the attempt number `k` (from 0, below 10) is
the first to return 1, it makes `k + 1` attempts and returns `C_TYPE_SIXAXIS`
for PS3, `C_TYPE_360_PAD` for XB360, `C_TYPE_DS4` for PS4, `C_TYPE_XONE_PAD`
for XB1 and -1 for `CONSOLE_DISCONNECTED` and for any other console; it never
makes more than 10 attempts. -/
theorem gpp_connect_result (c : controller_type_defs) (gppcprog_connect : Int)
    (gpppcprog_input : Nat → Int × gcapi_console) :
    (gppcprog_connect ≠ 1 → gpp_connect c gppcprog_connect gpppcprog_input = (-1, 0)) ∧
      (gppcprog_connect = 1 → (∀ j, j < 10 → (gpppcprog_input j).1 ≠ 1) →
        gpp_connect c gppcprog_connect gpppcprog_input = (-1, 10)) ∧
      (∀ k, gppcprog_connect = 1 → k < 10 → (gpppcprog_input k).1 = 1 →
        (∀ j, j < k → (gpppcprog_input j).1 ≠ 1) →
        (gpp_connect c gppcprog_connect gpppcprog_input).2 = k + 1 ∧
        (gpp_connect c gppcprog_connect gpppcprog_input).1 =
          (match (gpppcprog_input k).2 with
            | .CONSOLE_PS3 => (c.C_TYPE_SIXAXIS : Int)
            | .CONSOLE_XB360 => (c.C_TYPE_360_PAD : Int)
            | .CONSOLE_PS4 => (c.C_TYPE_DS4 : Int)
            | .CONSOLE_XB1 => (c.C_TYPE_XONE_PAD : Int)
            | .CONSOLE_DISCONNECTED => -1
            | .other _ => -1)) ∧
      (gpp_connect c gppcprog_connect gpppcprog_input).2 ≤ 10 := by
  refine ⟨?_, ?_, ?_, ?_⟩
  · intro h
    unfold gpp_connect
    rw [if_pos h]
  · intro h hnone
    unfold gpp_connect
    rw [if_neg (by simp [h]),
      gpp_connect_loop_none gpppcprog_input 10 0 (fun j _ hj => hnone j (by omega))]
  · intro k h hk h1 hbefore
    unfold gpp_connect
    rw [if_neg (by simp [h]),
      gpp_connect_loop_some gpppcprog_input 10 0 k (Nat.zero_le _) (by omega) h1
        (fun j _ hj => hbefore j hj)]
    refine ⟨rfl, ?_⟩
    simp only [gpp_connect_switch]
    cases (gpppcprog_input k).2 <;> rfl
  · unfold gpp_connect
    have hle := gpp_connect_loop_le gpppcprog_input 10 0
    split_ifs
    · simp
    · generalize gpp_connect_loop gpppcprog_input 10 0 = r at hle ⊢
      obtain ⟨attempts, console⟩ := r
      cases console <;> simp only at hle ⊢ <;> omega

theorem gpp_connect_result_witness :
    gpp_connect controller_type_example 1
        (fun i => if i = 2 then (1, .CONSOLE_PS4) else (0, .CONSOLE_DISCONNECTED)) = (5, 3) ∧
      gpp_connect controller_type_example 1 (fun _ => (0, .CONSOLE_PS3)) = (-1, 10) := by
  have h := gpp_connect_result controller_type_example 1
    (fun i => if i = 2 then (1, .CONSOLE_PS4) else (0, .CONSOLE_DISCONNECTED))
  have h2 := (gpp_connect_result controller_type_example 1 (fun _ => (0, .CONSOLE_PS3))).2.1
    rfl (fun _ _ => by decide)
  exact ⟨by decide, h2⟩

/-! ## Theorems on the conversions between SDL events and GE events -/

theorem to_uint8_id (x : Int) (h0 : 0 ≤ x) (h1 : x ≤ 255) : (to_uint8 x : Int) = x := by
  unfold to_uint8
  omega

theorem to_unsigned_id (x : Int) (h0 : 0 ≤ x) (h1 : x ≤ 4294967295) :
    (to_unsigned x : Int) = x := by
  unfold to_unsigned
  omega

/-- C29: for a GE event of type `GE_KEYDOWN`, `GE_KEYUP`, `GE_MOUSEBUTTONDOWN`,
`GE_MOUSEBUTTONUP` or `GE_MOUSEMOTION` whose members fit the members of the
SDL event (the device of a key in 0..255), `convert_s2g` on the result of
`convert_g2s` returns 1 and gives back the event, type and members, whatever
the two variables held before. -/
theorem convert_round_trip (t : JoyIndex) (se : SDL_Event) (ge0 ge : GE_Event)
    (htype : ge.type = .GE_KEYDOWN ∨ ge.type = .GE_KEYUP ∨ ge.type = .GE_MOUSEBUTTONDOWN ∨
      ge.type = .GE_MOUSEBUTTONUP ∨ ge.type = .GE_MOUSEMOTION)
    (hfit : fits_sdl ge = true) :
    convert_s2g t (convert_g2s se ge) ge0 = (1, ge) := by
  cases ge with
  | key down which keysym =>
    simp only [fits_sdl, decide_eq_true_eq] at hfit
    obtain ⟨h1, h2, h3, h4⟩ := hfit
    simp only [convert_g2s, convert_s2g, to_uint8_id which h1 h2, wrap_int_id keysym h3 h4]
  | button down which button =>
    simp only [fits_sdl, decide_eq_true_eq] at hfit
    obtain ⟨h1, h2, h3, h4⟩ := hfit
    simp only [convert_g2s, convert_s2g, to_unsigned_id which h1 h2, to_uint8_id button h3 h4]
  | motion which xrel yrel =>
    simp only [fits_sdl, decide_eq_true_eq] at hfit
    obtain ⟨h1, h2, h3, h4, h5, h6⟩ := hfit
    simp only [convert_g2s, convert_s2g, to_unsigned_id which h1 h2, wrap_int_id xrel h3 h4,
      wrap_int_id yrel h5 h6]
  | jaxis which axis value => simp [GE_Event.type] at htype
  | jhat which hat value => simp [GE_Event.type] at htype
  | jbutton down which button => cases down <;> simp [GE_Event.type] at htype
  | jrumble which => simp [GE_Event.type] at htype

theorem convert_round_trip_witness :
    convert_s2g joy_index_example (convert_g2s (.other 0) (.motion 1 (-3) 40000)) (.jrumble 0) =
      (1, .motion 1 (-3) 40000) :=
  convert_round_trip joy_index_example (.other 0) (.jrumble 0) (.motion 1 (-3) 40000)
    (by decide) (by decide)

/-! ## Theorems on the bounds of `preprocess_events` -/

theorem memmove_slots_lt (dst src n bound : Nat) (h1 : src + n ≤ bound) (h2 : dst + n ≤ bound) :
    ∀ i ∈ memmove_slots dst src n, i < bound := by
  intro i hi
  simp only [memmove_slots, List.mem_append, List.mem_range'_1] at hi
  omega

theorem insert_button_slots_lt (s : PPState) (EBS : Nat) (hpos : s.pos < s.events.length)
    (hlen : s.events.length < EBS) : ∀ i ∈ insert_button_slots s, i < EBS := by
  intro i hi
  simp only [insert_button_slots, List.mem_append, List.mem_cons, List.mem_singleton,
    List.not_mem_nil, or_false] at hi
  rcases hi with hi | hi
  · exact memmove_slots_lt _ _ _ EBS (by omega) (by omega) i hi
  · omega

theorem insert_button_shape (jt : JoyTables) (s : PPState) (down : Bool) (which : Int)
    (hat hat_dir : Nat) (hpos : s.pos < s.events.length) :
    (insert_button jt s down which hat hat_dir).events.length = s.events.length + 1 ∧
      (insert_button jt s down which hat hat_dir).pos = s.pos + 1 := by
  unfold insert_button
  simp only [List.length_append, List.length_take, List.length_cons, List.length_drop, and_true]
  omega

theorem hat_dir_body_bounds (EBS : Nat) (jt : JoyTables) (which : Int) (hat value hat_dir : Nat)
    (s : PPState) (hpos : s.pos < s.events.length) (hlen : s.events.length < EBS) :
    (∀ i ∈ hat_dir_body_slots jt which hat value hat_dir s, i < EBS) ∧
      (∀ s1, hat_dir_body EBS jt which hat value hat_dir s = .cont s1 →
        s1.pos < s1.events.length ∧ s1.events.length < EBS ∧
          s1.events.length - s1.pos = s.events.length - s.pos) ∧
      (∀ s1, hat_dir_body EBS jt which hat value hat_dir s = .full s1 →
        s1.events.length = EBS) := by
  have hins := insert_button_slots_lt s EBS hpos hlen
  have hslots : ∀ i ∈ [s.pos, s.pos] ++ insert_button_slots s, i < EBS := by
    intro i hi
    rcases List.mem_append.1 hi with h | h
    · simp only [List.mem_cons, List.mem_singleton, List.not_mem_nil, or_false] at h
      omega
    · exact hins i h
  have hpair : ∀ i ∈ [s.pos, s.pos], i < EBS := by
    intro i h
    simp only [List.mem_cons, List.mem_singleton, List.not_mem_nil, or_false] at h
    omega
  have hst : ∀ down, (∀ s1, (if (insert_button jt s down which hat hat_dir).events.length = EBS
        then HatLoop.full (insert_button jt s down which hat hat_dir)
        else HatLoop.cont (insert_button jt s down which hat hat_dir)) = .cont s1 →
        s1.pos < s1.events.length ∧ s1.events.length < EBS ∧
          s1.events.length - s1.pos = s.events.length - s.pos) ∧
      (∀ s1, (if (insert_button jt s down which hat hat_dir).events.length = EBS
        then HatLoop.full (insert_button jt s down which hat hat_dir)
        else HatLoop.cont (insert_button jt s down which hat hat_dir)) = .full s1 →
        s1.events.length = EBS) := by
    intro down
    obtain ⟨h1, h2⟩ := insert_button_shape jt s down which hat hat_dir hpos
    constructor
    · intro s1 h
      split_ifs at h with hfull
      cases h
      omega
    · intro s1 h
      split_ifs at h with hfull
      cases h
      exact hfull
  have hsame : (∀ s1, HatLoop.cont s = .cont s1 →
        s1.pos < s1.events.length ∧ s1.events.length < EBS ∧
          s1.events.length - s1.pos = s.events.length - s.pos) ∧
      (∀ s1, HatLoop.cont s = .full s1 → s1.events.length = EBS) := by
    constructor
    · intro s1 h
      cases h
      exact ⟨hpos, hlen, rfl⟩
    · intro s1 h
      cases h
  unfold hat_dir_body hat_dir_body_slots
  simp only []
  by_cases hv : value &&& hat_dir ≠ 0
  · rw [if_pos hv, if_pos hv]
    by_cases hg : ¬ (get_joystick_hat jt s.joystickHat which hat &&& hat_dir ≠ 0)
    · rw [if_pos hg, if_pos hg]
      exact ⟨hslots, hst true⟩
    · rw [if_neg hg, if_neg hg]
      exact ⟨hpair, hsame⟩
  · rw [if_neg hv, if_neg hv]
    by_cases hg : get_joystick_hat jt s.joystickHat which hat &&& hat_dir ≠ 0
    · rw [if_pos hg, if_pos hg]
      exact ⟨hslots, hst false⟩
    · rw [if_neg hg, if_neg hg]
      exact ⟨hpair, hsame⟩

theorem hat_loop_bounds (EBS : Nat) (jt : JoyTables) (which : Int) (hat value : Nat) :
    ∀ (dirs : List Nat) (s : PPState), s.pos < s.events.length → s.events.length < EBS →
      (∀ i ∈ hat_loop_slots EBS jt which hat value dirs s, i < EBS) ∧
        (∀ s1, hat_loop EBS jt which hat value dirs s = .cont s1 →
          s1.pos < s1.events.length ∧ s1.events.length < EBS ∧
            s1.events.length - s1.pos = s.events.length - s.pos) ∧
        (∀ s1, hat_loop EBS jt which hat value dirs s = .full s1 →
          s1.events.length = EBS) := by
  intro dirs
  induction dirs with
  | nil =>
    intro s hpos hlen
    refine ⟨by simp [hat_loop_slots], ?_, ?_⟩
    · intro s1 h
      simp only [hat_loop, HatLoop.cont.injEq] at h
      subst h
      exact ⟨hpos, hlen, rfl⟩
    · intro s1 h
      simp [hat_loop] at h
  | cons d dirs ih =>
    intro s hpos hlen
    obtain ⟨hb1, hb2, hb3⟩ := hat_dir_body_bounds EBS jt which hat value d s hpos hlen
    rw [hat_loop, hat_loop_slots, if_pos hpos, if_pos hpos]
    cases hbody : hat_dir_body EBS jt which hat value d s with
    | full s2 =>
      simp only [List.append_nil]
      refine ⟨hb1, ?_, ?_⟩
      · intro s1 h; cases h
      · intro s1 h
        cases h
        exact hb3 s2 hbody
    | cont s2 =>
      obtain ⟨h1, h2, h3⟩ := hb2 s2 hbody
      obtain ⟨i1, i2, i3⟩ := ih s2 h1 h2
      simp only []
      refine ⟨?_, ?_, i3⟩
      · intro i hi
        rcases List.mem_append.1 hi with h | h
        · exact hb1 i h
        · exact i1 i h
      · intro s1 h
        obtain ⟨j1, j2, j3⟩ := i2 s1 h
        exact ⟨j1, j2, by omega⟩

theorem events_loop_bounds (EBS : Nat) (jt : JoyTables) :
    ∀ (fuel : Nat) (s : PPState), s.pos ≤ s.events.length → s.events.length < EBS →
      s.events.length - s.pos ≤ fuel →
      ∃ r slots, events_loop EBS jt fuel s = some r ∧
        events_loop_slots EBS jt fuel s = some slots ∧
        (∀ i ∈ slots, i < EBS) ∧ r.count EBS ≤ EBS ∧ r.events.length = r.count EBS := by
  intro fuel
  induction fuel with
  | zero =>
    intro s hpos hlen hfuel
    have hge : ¬ s.pos < s.events.length := by omega
    refine ⟨.done s.events.length s.events s.joystickHat, [], ?_, ?_, by simp, ?_, rfl⟩
    · rw [events_loop, if_neg hge]
    · rw [events_loop_slots, if_neg hge]
    · simp only [PPResult.count]; omega
  | succ fuel ih =>
    intro s hpos hlen hfuel
    cases hcur : s.events[s.pos]? with
    | none =>
      refine ⟨.done s.events.length s.events s.joystickHat, [], ?_, ?_, by simp, ?_, rfl⟩
      · simp only [events_loop, hcur]
      · simp only [events_loop_slots, hcur]
      · simp only [PPResult.count]; omega
    | some e =>
      have hlt : s.pos < s.events.length := by
        by_contra hge
        rw [List.getElem?_eq_none (by omega)] at hcur
        cases hcur
      cases e with
      | jhat w h v =>
        simp only [events_loop, events_loop_slots, hcur]
        obtain ⟨b1, b2, b3⟩ := hat_loop_bounds EBS jt w h v hat_dirs s hlt hlen
        cases hl : hat_loop EBS jt w h v hat_dirs s with
        | full s1 =>
          refine ⟨.full s1.events s1.joystickHat, _, rfl, rfl, ?_, le_refl _, b3 s1 hl⟩
          intro i hi
          rcases List.mem_cons.1 hi with h0 | h0
          · omega
          · exact b1 i h0
        | cont s1 =>
          obtain ⟨c1, c2, c3⟩ := b2 s1 hl
          have hlen1 : (s1.events.eraseIdx s1.pos).length = s1.events.length - 1 := by
            rw [List.length_eraseIdx, if_pos c1]
          obtain ⟨r, slots, h1, h2, h3, h4, h5⟩ := ih
            { events := s1.events.eraseIdx s1.pos, pos := s1.pos,
              joystickHat := set_joystick_hat jt s1.joystickHat w h v }
            (by simp only [hlen1]; omega) (by simp only [hlen1]; omega)
            (by simp only [hlen1]; omega)
          refine ⟨r, _, h1, by simp only [h2, Option.map_some']; rfl, ?_, h4, h5⟩
          intro i hi
          simp only [List.mem_cons, List.mem_append] at hi
          rcases hi with ((h0 | h0) | h0 | h0) | h0
          · omega
          · exact b1 i h0
          · omega
          · exact memmove_slots_lt _ _ _ EBS (by omega) (by omega) i h0
          · exact h3 i h0
      | _ =>
        simp only [events_loop, events_loop_slots, hcur]
        obtain ⟨r, slots, h1, h2, h3, h4, h5⟩ := ih { s with pos := s.pos + 1 }
          (by simp only; omega) hlen (by simp only; omega)
        refine ⟨r, s.pos :: slots, h1, by simp only [h2, Option.map_some'], ?_, h4, h5⟩
        intro i hi
        rcases List.mem_cons.1 hi with h0 | h0
        · omega
        · exact h3 i h0

theorem ev_peep_convert_length (t : JoyIndex) (ev : Nat → GE_Event) :
    ∀ (peeped : List SDL_Event) (converted : List GE_Event),
      (ev_peep_convert t ev peeped converted).length ≤ converted.length + peeped.length := by
  intro peeped
  induction peeped with
  | nil => intro converted; simp [ev_peep_convert]
  | cons se rest ih =>
    intro converted
    rw [ev_peep_convert]
    split_ifs
    · have := ih (converted ++ [(convert_s2g t se (ev converted.length)).2])
      simp only [List.length_append, List.length_cons, List.length_nil] at this ⊢
      omega
    · have := ih converted
      simp only [List.length_cons]
      omega

theorem preprocess_events_bounds (EBS : Nat) (jt : JoyTables) (joystickHat : HatTable)
    (events : List GE_Event) (hnum : events.length ≤ EBS) :
    ∃ r slots, preprocess_events EBS jt joystickHat events = some r ∧
      preprocess_events_slots EBS jt joystickHat events = some slots ∧
      (∀ i ∈ slots, i < EBS) ∧ r.count EBS ≤ EBS ∧ r.events.length = r.count EBS := by
  unfold preprocess_events preprocess_events_slots
  by_cases h : events.length = EBS
  · rw [if_pos h, if_pos h]
    exact ⟨.full events joystickHat, [], rfl, rfl, by simp, le_refl _, h⟩
  · rw [if_neg h, if_neg h]
    exact events_loop_bounds EBS jt events.length ⟨events, 0, joystickHat⟩ (Nat.zero_le _)
      (by simp only; omega) (by simp only; omega)

/-- C26: on a buffer of `EVENT_BUFFER_SIZE` slots of which `numevents`, at most
`EVENT_BUFFER_SIZE`, are in use, `preprocess_events` returns (the bound on the
iterations is not reached), every slot it reads or writes has an index below
`EVENT_BUFFER_SIZE`, and the count returned, which is the number of slots in
use afterwards, is at most `EVENT_BUFFER_SIZE`; when `numevents` is
`EVENT_BUFFER_SIZE` it returns `EVENT_BUFFER_SIZE` at once, touching no slot
and leaving the events and the hat states as they were; and `ev_peep_events`,
whatever `size` is and whatever SDL delivers (at most the number of events
asked for), returns a count of at most `EVENT_BUFFER_SIZE`. -/
theorem preprocess_events_stays_in_buffer (EVENT_BUFFER_SIZE : Nat) (jt : JoyTables)
    (joystickHat : HatTable) (events : List GE_Event)
    (hnum : events.length ≤ EVENT_BUFFER_SIZE) :
    (∃ r slots, preprocess_events EVENT_BUFFER_SIZE jt joystickHat events = some r ∧
        preprocess_events_slots EVENT_BUFFER_SIZE jt joystickHat events = some slots ∧
        (∀ i ∈ slots, i < EVENT_BUFFER_SIZE) ∧
        r.count EVENT_BUFFER_SIZE ≤ EVENT_BUFFER_SIZE ∧
        r.events.length = r.count EVENT_BUFFER_SIZE) ∧
      (events.length = EVENT_BUFFER_SIZE →
        preprocess_events EVENT_BUFFER_SIZE jt joystickHat events =
          some (.full events joystickHat) ∧
        (PPResult.full events joystickHat).count EVENT_BUFFER_SIZE = EVENT_BUFFER_SIZE ∧
        preprocess_events_slots EVENT_BUFFER_SIZE jt joystickHat events = some []) ∧
      (∀ (t : JoyIndex) (SDL_PeepEvents : Int → Option (List SDL_Event)) (ev : Nat → GE_Event)
          (size : Int),
        (∀ n l, SDL_PeepEvents n = some l → l.length ≤ n.toNat) →
        ∃ r, ev_peep_events EVENT_BUFFER_SIZE jt joystickHat t SDL_PeepEvents ev size = some r ∧
          r.count EVENT_BUFFER_SIZE ≤ EVENT_BUFFER_SIZE) := by
  refine ⟨preprocess_events_bounds EVENT_BUFFER_SIZE jt joystickHat events hnum, ?_, ?_⟩
  · intro h
    unfold preprocess_events preprocess_events_slots
    rw [if_pos h, if_pos h]
    exact ⟨rfl, rfl, rfl⟩
  · intro t SDL_PeepEvents ev size hpeep
    unfold ev_peep_events
    simp only []
    have hconv : ∀ peeped : List SDL_Event, peeped.length ≤ EVENT_BUFFER_SIZE →
        (ev_peep_convert t ev peeped []).length ≤ EVENT_BUFFER_SIZE := by
      intro peeped hp
      have := ev_peep_convert_length t ev peeped []
      simp only [List.length_nil, Nat.zero_add] at this
      omega
    have hlen : (match SDL_PeepEvents
        (if size > (EVENT_BUFFER_SIZE : Int) then (EVENT_BUFFER_SIZE : Int) else size) with
        | some events => events
        | none => []).length ≤ EVENT_BUFFER_SIZE := by
      cases hs : SDL_PeepEvents
        (if size > (EVENT_BUFFER_SIZE : Int) then (EVENT_BUFFER_SIZE : Int) else size) with
      | none => simp
      | some l =>
        have h1 := hpeep _ l hs
        simp only []
        split_ifs at h1 <;> omega
    obtain ⟨r, _, hr, _, _, hc, _⟩ := preprocess_events_bounds EVENT_BUFFER_SIZE jt joystickHat
      _ (hconv _ hlen)
    exact ⟨r, hr, hc⟩

theorem preprocess_events_stays_in_buffer_witness :
    ∃ r slots, preprocess_events 8 jt_example (fun _ _ => 0)
        [.jhat 0 0 3, .key true 0 4] = some r ∧
      preprocess_events_slots 8 jt_example (fun _ _ => 0)
        [.jhat 0 0 3, .key true 0 4] = some slots ∧
      (∀ i ∈ slots, i < 8) ∧ r.count 8 ≤ 8 ∧ r.events.length = r.count 8 :=
  (preprocess_events_stays_in_buffer 8 jt_example (fun _ _ => 0)
    [.jhat 0 0 3, .key true 0 4] (by decide)).1

/-! ## Theorems on config_reader.c: a failed load keeps what it applied -/

end GIMX
